import Mathlib

/-!
# Dilithium disassembler: a shallow embedding of `DilithiumDisasm.cpp`

The C++ printers write into a `std::ostream`.  Here every printer is a function that
returns the text it appends to the stream, so that running two printers one after the
other is the concatenation of their texts.  Undefined behaviour of the C++ code (a null
pointer dereference, an out-of-range table read, a failed `cast<>`, a division by zero)
is made explicit as a `Fault`.

Machine integers are natural numbers reduced modulo `2^32` where the C++ arithmetic can
wrap.
-/

namespace Dilithium

/-! ## Output stream helpers -/

/-- The ways in which the C++ code can leave defined behaviour. -/
inductive Fault where
  /-- dereference of a null pointer -/
  | nullDeref
  /-- read outside a table or container -/
  | outOfRange
  /-- `cast<T>` applied to a value that is not a `T` -/
  | badCast
  /-- unsigned division by zero -/
  | divByZero
  /-- `DILITHIUM_UNREACHABLE` was reached -/
  | unreachable
  /-- the recursion budget of the model was used up (not a behaviour of the C++ code) -/
  | outOfFuel
  deriving DecidableEq, Repr

deriving instance DecidableEq for Except

/-- `std::endl` (the flush is not observable in the text). -/
def endl : String := "\n"

/-- `std::string(n, ' ')`. -/
def spaces (n : Nat) : String := String.mk (List.replicate n ' ')

/-- Wrap-around of `uint32_t` arithmetic. -/
def u32 (n : Nat) : Nat := n % 2 ^ 32

/-- Unsigned 32-bit subtraction `a - b`. -/
def subU32 (a b : Nat) : Nat := (a % 2 ^ 32 + 2 ^ 32 - b % 2 ^ 32) % 2 ^ 32

/-- The field width `std::setw` receives when it is given a `uint32_t`: the argument of
`setw` is an `int`, and a width that is not positive pads nothing. -/
def setwArg (w : Nat) : Nat := if w % 2 ^ 32 < 2 ^ 31 then w % 2 ^ 32 else 0

/-- `os << std::left << std::setw(w) << s`: pad on the right up to `w` characters. -/
def setwLeft (w : Nat) (s : String) : String := s ++ spaces (w - s.length)

/-- `os << std::right << std::setw(w) << s`: pad on the left up to `w` characters. -/
def setwRight (w : Nat) (s : String) : String := spaces (w - s.length) ++ s

/-- The constant `UINT_MAX`, which is also the `uint32_t` value of `-1`. -/
def UINT_MAX : Nat := 4294967295

/-- Decimal text of an unsigned integer (`os << n`, `std::to_string(n)`). -/
def dec (n : Nat) : String := toString n

/-- The texts of a list, written one after the other. -/
def cat : List String → String
  | [] => ""
  | s :: ss => s ++ cat ss

/-- A counted loop `for (uint32_t i = 0; i < n; ++ i) body(i)` whose body only writes. -/
def forLoop (n : Nat) (body : Nat → String) : String :=
  cat ((List.range n).map body)

/-- A loop over the elements of a container with a running index, whose body writes or
faults; a fault ends the loop. -/
def loopFrom {α : Type} (body : Nat → α → Except Fault String) :
    Nat → List α → Except Fault String
  | _, [] => .ok ""
  | i, x :: xs => do
    let s ← body i x
    let r ← loopFrom body (i + 1) xs
    pure (s ++ r)

/-! ## `PrintFeatureInfo` -/

/-- The part data read by `PrintFeatureInfo`: one 64-bit word. -/
structure DxilShaderFeatureInfo where
  FeatureFlags : Nat

/-- The table `feature_info_names` of `PrintFeatureInfo`. -/
def feature_info_names : List String :=
  [ "Double-precision floating point",
    "Raw and Structured buffers",
    "UAVs at every shader stage",
    "64 UAV slots",
    "Minimum-precision data types",
    "Double-precision extensions for 11.1",
    "Shader extensions for 11.1",
    "Comparison filtering for feature level 9",
    "Tiled resources",
    "PS Output Stencil Ref",
    "PS Inner Coverage",
    "Typed UAV Load Additional Formats",
    "Raster Ordered UAVs",
    "SV_RenderTargetArrayIndex or SV_ViewportArrayIndex from any shader feeding rasterizer",
    "Wave level operations",
    "64-Bit integer" ]

/-- Modelled from the spec: the constant `DSFI_Count` is declared in `DxilContainer.hpp`,
which is not among the sources; the spec gives the bit range `0..15` of the name table. -/
def DSFI_Count : Nat := 16

/-- One name line of `PrintFeatureInfo`. -/
def featureLine (comment : String) (i : Nat) : String :=
  comment ++ "       " ++ feature_info_names.getD i "" ++ endl

/-- The function `PrintFeatureInfo`: `feature_flags & (1ULL << i)` is bit `i` of the word. -/
def PrintFeatureInfo (feature_info : DxilShaderFeatureInfo) (comment : String) : String :=
  let feature_flags := feature_info.FeatureFlags
  if feature_flags = 0 then
    ""
  else
    comment ++ endl
      ++ comment ++ " Note: shader requires additional functionality:" ++ endl
      ++ forLoop DSFI_Count (fun i =>
          if feature_flags.testBit i then featureLine comment i else "")
      ++ comment ++ endl

/-! ## `DxcAssemblyAnnotationWriter::PrintInfoComment` -/

/-- The values `PrintInfoComment` tells apart with `dyn_cast`. -/
inductive Value where
  /-- a `ConstantInt`; `val` is the integer it holds, read without sign -/
  | constantInt (val : Nat)
  /-- a `CallInst`: the function `CalledFunction()` returns (a null pointer when the call
  has none), given by its name, and the argument operands -/
  | callInst (calledFunction : Option String) (args : List Value)
  /-- any other value -/
  | other

/-- The operation registry `OP` and the enumeration `OpCode`, declared in
`DxilOperations.hpp`, which is not among the sources: the number of opcodes and the
opcode names are parameters of the model. -/
structure OpRegistry where
  NumOpCodes : Nat
  GetOpCodeName : Nat → String

/-- The table `OpCodeSignatures` of `PrintInfoComment`, in the order of the source. -/
def OpCodeSignatures : List String :=
  [
    "(index)", -- 0 TempRegLoad
    "(index,value)", -- 1 TempRegStore
    "(regIndex,index,component)", -- 2 MinPrecXRegLoad
    "(regIndex,index,component,value)", -- 3 MinPrecXRegStore
    "(inputSigId,rowIndex,colIndex,gsVertexAxis)", -- 4 LoadInput
    "(outputtSigId,rowIndex,colIndex,value)", -- 5 StoreOutput
    "(value)", -- 6 FAbs
    "(value)", -- 7 Saturate
    "(value)", -- 8 IsNaN
    "(value)", -- 9 IsInf
    "(value)", -- 10 IsFinite
    "(value)", -- 11 IsNormal
    "(value)", -- 12 Cos
    "(value)", -- 13 Sin
    "(value)", -- 14 Tan
    "(value)", -- 15 Acos
    "(value)", -- 16 Asin
    "(value)", -- 17 Atan
    "(value)", -- 18 Hcos
    "(value)", -- 19 Hsin
    "(value)", -- 20 Exp
    "(value)", -- 21 Frc
    "(value)", -- 22 Log
    "(value)", -- 23 Sqrt
    "(value)", -- 24 Rsqrt
    "(value)", -- 25 Round_ne
    "(value)", -- 26 Round_ni
    "(value)", -- 27 Round_pi
    "(value)", -- 28 Round_z
    "(value)", -- 29 Bfrev
    "(value)", -- 30 Countbits
    "(value)", -- 31 FirstbitLo
    "(value)", -- 32 FirstbitHi
    "(value)", -- 33 FirstbitSHi
    "(a,b)", -- 34 FMax
    "(a,b)", -- 35 FMin
    "(a,b)", -- 36 IMax
    "(a,b)", -- 37 IMin
    "(a,b)", -- 38 UMax
    "(a,b)", -- 39 UMin
    "(a,b)", -- 40 IMul
    "(a,b)", -- 41 UMul
    "(a,b)", -- 42 UDiv
    "(a,b)", -- 43 IAddc
    "(a,b)", -- 44 UAddc
    "(a,b)", -- 45 ISubc
    "(a,b)", -- 46 USubc
    "(a,b,c)", -- 47 FMad
    "(a,b,c)", -- 48 Fma
    "(a,b,c)", -- 49 IMad
    "(a,b,c)", -- 50 UMad
    "(a,b,c)", -- 51 Msad
    "(a,b,c)", -- 52 Ibfe
    "(a,b,c)", -- 53 Ubfe
    "(width,offset,value,replaceCount)", -- 54 Bfi
    "(ax,ay,bx,by)", -- 55 Dot2
    "(ax,ay,az,bx,by,bz)", -- 56 Dot3
    "(ax,ay,az,aw,bx,by,bz,bw)", -- 57 Dot4
    "(resourceClass,rangeId,index,nonUniformIndex)", -- 58 CreateHandle
    "(handle,byteOffset,alignment)", -- 59 CBufferLoad
    "(handle,regIndex)", -- 60 CBufferLoadLegacy
    "(srv,sampler,coord0,coord1,coord2,coord3,offset0,offset1,offset2,clamp)", -- 61 Sample
    "(srv,sampler,coord0,coord1,coord2,coord3,offset0,offset1,offset2,bias,clamp)", -- 62 SampleBias
    "(srv,sampler,coord0,coord1,coord2,coord3,offset0,offset1,offset2,LOD)", -- 63 SampleLevel
    "(srv,sampler,coord0,coord1,coord2,coord3,offset0,offset1,offset2,ddx0,ddx1,ddx2,ddy0,ddy1,ddy2,clamp)", -- 64 SampleGrad
    "(srv,sampler,coord0,coord1,coord2,coord3,offset0,offset1,offset2,compareValue,clamp)", -- 65 SampleCmp
    "(srv,sampler,coord0,coord1,coord2,coord3,offset0,offset1,offset2,compareValue)", -- 66 SampleCmpLevelZero
    "(srv,mipLevelOrSampleCount,coord0,coord1,coord2,offset0,offset1,offset2)", -- 67 TextureLoad
    "(srv,coord0,coord1,coord2,value0,value1,value2,value3,mask)", -- 68 TextureStore
    "(srv,index,wot)", -- 69 BufferLoad
    "(uav,coord0,coord1,value0,value1,value2,value3,mask)", -- 70 BufferStore
    "(uav,inc)", -- 71 BufferUpdateCounter
    "(status)", -- 72 CheckAccessFullyMapped
    "(handle,mipLevel)", -- 73 GetDimensions
    "(srv,sampler,coord0,coord1,coord2,coord3,offset0,offset1,channel)", -- 74 TextureGather
    "(srv,sampler,coord0,coord1,coord2,coord3,offset0,offset1,channel,compareVale)", -- 75 TextureGatherCmp
    "()", -- 76 ToDelete5
    "()", -- 77 ToDelete6
    "(srv,index)", -- 78 Texture2DMSGetSamplePosition
    "(index)", -- 79 RenderTargetGetSamplePosition
    "()", -- 80 RenderTargetGetSampleCount
    "(handle,atomicOp,offset0,offset1,offset2,newValue)", -- 81 AtomicBinOp
    "(handle,offset0,offset1,offset2,compareValue,newValue)", -- 82 AtomicCompareExchange
    "(barrierMode)", -- 83 Barrier
    "(handle,sampler,coord0,coord1,coord2,clamped)", -- 84 CalculateLOD
    "(condition)", -- 85 Discard
    "(value)", -- 86 DerivCoarseX
    "(value)", -- 87 DerivCoarseY
    "(value)", -- 88 DerivFineX
    "(value)", -- 89 DerivFineY
    "(inputSigId,inputRowIndex,inputColIndex,offsetX,offsetY)", -- 90 EvalSnapped
    "(inputSigId,inputRowIndex,inputColIndex,sampleIndex)", -- 91 EvalSampleIndex
    "(inputSigId,inputRowIndex,inputColIndex)", -- 92 EvalCentroid
    "(component)", -- 93 ThreadId
    "(component)", -- 94 GroupId
    "(component)", -- 95 ThreadIdInGroup
    "()", -- 96 FlattenedThreadIdInGroup
    "(streamId)", -- 97 EmitStream
    "(streamId)", -- 98 CutStream
    "(streamId)", -- 99 EmitThenCutStream
    "(lo,hi)", -- 100 MakeDouble
    "()", -- 101 ToDelete1
    "()", -- 102 ToDelete2
    "(value)", -- 103 SplitDouble
    "()", -- 104 ToDelete3
    "()", -- 105 ToDelete4
    "(inputSigId,row,col,index)", -- 106 LoadOutputControlPoint
    "(inputSigId,row,col)", -- 107 LoadPatchConstant
    "(component)", -- 108 DomainLocation
    "(outputSigID,row,col,value)", -- 109 StorePatchConstant
    "()", -- 110 OutputControlPointID
    "()", -- 111 PrimitiveID
    "()", -- 112 CycleCounterLegacy
    "(value)", -- 113 Htan
    "()", -- 114 WaveCaptureReserved
    "()", -- 115 WaveIsFirstLane
    "()", -- 116 WaveGetLaneIndex
    "()", -- 117 WaveGetLaneCount
    "()", -- 118 WaveIsHelperLaneReserved
    "(cond)", -- 119 WaveAnyTrue
    "(cond)", -- 120 WaveAllTrue
    "(value)", -- 121 WaveActiveAllEqual
    "(cond)", -- 122 WaveActiveBallot
    "(value,lane)", -- 123 WaveReadLaneAt
    "(value)", -- 124 WaveReadLaneFirst
    "(value,op,sop)", -- 125 WaveActiveOp
    "(value,op)", -- 126 WaveActiveBit
    "(value,op,sop)", -- 127 WavePrefixOp
    "()", -- 128 WaveGetOrderedIndex
    "()", -- 129 GlobalOrderedCountIncReserved
    "(value,quadLane)", -- 130 QuadReadLaneAt
    "(value,op)", -- 131 QuadOp
    "(value)", -- 132 BitcastI16toF16
    "(value)", -- 133 BitcastF16toI16
    "(value)", -- 134 BitcastI32toF32
    "(value)", -- 135 BitcastF32toI32
    "(value)", -- 136 BitcastI64toF64
    "(value)", -- 137 BitcastF64toI64
    "()", -- 138 GSInstanceID
    "(value)", -- 139 LegacyF32ToF16
    "(value)", -- 140 LegacyF16ToF32
    "(value)", -- 141 LegacyDoubleToFloat
    "(value)", -- 142 LegacyDoubleToSInt32
    "(value)", -- 143 LegacyDoubleToUInt32
    "(value)", -- 144 WaveAllBitCount
    "(value)", -- 145 WavePrefixBitCount
    "()", -- 146 SampleIndex
    "()", -- 147 Coverage
    "()" ] -- 148 InnerCoverage

/-- The test `name.find(p) == 0` of `std::string`: `p` is found at position 0 exactly when
`name` starts with `p`. -/
def findAtZero (name p : String) : Bool := p.toList.isPrefixOf name.toList

/-- `ConstantInt::ZExtValue`, a `uint64_t`. -/
def ZExtValue (val : Nat) : Nat := val % 2 ^ 64

/-- The function `PrintInfoComment`. -/
def PrintInfoComment (op : OpRegistry) (v : Value) : Except Fault String :=
  match v with
  | .callInst calledFunction args =>
    if args.length = 0 then
      .ok ""
    else
      match calledFunction with
      | none => .error .nullDeref
      | some name =>
        if !findAtZero name "dx.op." then
          .ok ""
        else
          match args.head? with
          | some (.constantInt val) =>
            let opcode_val := u32 (ZExtValue val)
            if opcode_val ≥ u32 op.NumOpCodes then
              .ok ("  ; invalid DXIL opcode #" ++ dec opcode_val)
            else
              match OpCodeSignatures[opcode_val]? with
              | none => .error .outOfRange
              | some signature =>
                .ok ("  ; " ++ op.GetOpCodeName opcode_val ++ signature)
          | _ => .ok ""
  | _ => .ok ""

/-! ## `PrintSignature` -/

/-- What `PrintSignature` reads of a `DxilProgramSignatureElement`.  `SemanticName` is the
byte offset of the name from the start of the section; `Register` is a `uint32_t`, `Mask`
and `AlwaysReads_Mask` are `uint8_t`. -/
structure DxilProgramSignatureElement where
  Stream : Nat
  SemanticName : Nat
  SemanticIndex : Nat
  SystemValue : Nat
  CompType : Nat
  Register : Nat
  Mask : Nat
  AlwaysReads_Mask : Nat
  deriving DecidableEq, Repr

/-- The header of a signature section. -/
structure DxilProgramSignature where
  ParamCount : Nat
  ParamOffset : Nat
  deriving DecidableEq, Repr

/-- The memory behind the section pointer, as `ByteOffset` reads it: the record and the
C string found at a byte offset from the start of the section, and the size of a record.
`ByteOffset` is pointer arithmetic; it checks nothing. -/
structure SignatureMemory where
  elementSize : Nat
  elementAt : Nat → DxilProgramSignatureElement
  stringAt : Nat → String

/-- The element `sig_beg[i]`, with `sig_beg = ByteOffset(signature, ParamOffset)`. -/
def signatureElement (signature : DxilProgramSignature) (mem : SignatureMemory) (i : Nat) :
    DxilProgramSignatureElement :=
  mem.elementAt (signature.ParamOffset + i * mem.elementSize)

def sys_value_names : List String :=
  [ "NONE", "POS", "CLIPDST", "CULLDST", "RTINDEX", "VPINDEX", "VERTID", "PRIMID", "INSTID",
    "FFACE", "SAMPLE", "QUADEDGE", "QUADINT", "TRIEDGE", "TRIINT", "LINEDET", "LINEDEN",
    "TARGET", "DEPTH", "COVERAGE", "DEPTHGE", "DEPTHLE", "STENCILREF", "INNERCOV" ]

def comp_type_names : List String :=
  [ "unknown", "uint", "int", "float", "min16u", "min16i", "min16f", "uint64", "int64",
    "double" ]

/-- Modelled from the spec: the enumeration value `DxilProgramSigSemantic::PrimitiveID` is
declared in `DxilContainer.hpp`, which is not among the sources; the spec names a
system-value check for primitive-ID, and entry 7 of `sys_value_names` is `PRIMID`. -/
def DxilProgramSigSemantic.PrimitiveID : Nat := 7

/-- The test `_stricmp(a, b) == 0`: equality without regard to the case of letters. -/
def stricmpEq (a b : String) : Bool :=
  a.toList.map Char.toLower == b.toList.map Char.toLower

/-- The loop `for (int i = 0; i < 4; ++ i)` that writes the components of a mask. -/
def componentMask (mask : Nat) : String :=
  forLoop 4 (fun i => if mask.testBit i then ["x", "y", "z", "w"].getD i "" else " ")

/-- The five lines `PrintSignature` writes first. -/
def signatureHeader (name comment : String) : String :=
  comment ++ endl
    ++ comment ++ " " ++ name ++ " signature:" ++ endl
    ++ comment ++ endl
    ++ comment ++ " Name                 Index   Mask Register SysValue  Format   Used" ++ endl
    ++ comment ++ " -------------------- ----- ------ -------- -------- ------- ------" ++ endl

/-- The body of the loop over the elements in `PrintSignature`: the row of one element. -/
def signatureRow (mem : SignatureMemory) (is_input has_streams : Bool) (comment : String)
    (sig : DxilProgramSignatureElement) : Except Fault String := do
  let os := comment ++ " "
  let semantic_name := mem.stringAt sig.SemanticName
  let os :=
    if has_streams then
      os ++ "m" ++ dec sig.Stream ++ ":" ++ setwLeft 17 semantic_name
    else
      os ++ setwLeft 20 semantic_name
  let os := os ++ setwRight 6 (dec sig.SemanticIndex)
  let os :=
    if sig.Register = UINT_MAX then
      os ++ "    N/A" ++
        (if stricmpEq semantic_name "SV_Depth" then "   oDepth"
         else if stricmpEq semantic_name "SV_DepthGreaterEqual" then " oDepthGE"
         else if stricmpEq semantic_name "SV_DepthLessEqual" then " oDepthLE"
         else if stricmpEq semantic_name "SV_Coverage" then "    oMask"
         else if stricmpEq semantic_name "SV_StencilRef" then "    oStencilRef"
         else if sig.SystemValue = DxilProgramSigSemantic.PrimitiveID then "   primID"
         else "  special")
    else
      os ++ "   " ++ componentMask sig.Mask ++ setwRight 9 (dec sig.Register)
  let sys_value_name ←
    match sys_value_names[u32 sig.SystemValue]? with
    | some n => pure n
    | none => throw Fault.outOfRange
  let os := os ++ setwRight 9 sys_value_name
  let comp_type_name ←
    match comp_type_names[u32 sig.CompType]? with
    | some n => pure n
    | none => throw Fault.outOfRange
  let os := os ++ setwRight 8 comp_type_name
  let rw_mask := sig.AlwaysReads_Mask % 256
  let rw_mask := if !is_input then 255 - rw_mask else rw_mask
  let os :=
    if sig.Register = UINT_MAX then
      os ++ (if rw_mask ≠ 0 then "    YES" else "     NO")
    else
      os ++ "   " ++ componentMask rw_mask
  pure (os ++ endl)

/-- The function `PrintSignature`. -/
def PrintSignature (name : String) (signature : DxilProgramSignature) (mem : SignatureMemory)
    (is_input : Bool) (comment : String) : Except Fault String := do
  let os := signatureHeader name comment
  if signature.ParamCount = 0 then
    pure (os ++ comment ++ " no parameters" ++ endl)
  else
    let elements := (List.range signature.ParamCount).map (signatureElement signature mem)
    let has_streams := elements.any (fun e => e.Stream ≠ 0)
    let rows ← loopFrom (fun _ sig => signatureRow mem is_input has_streams comment sig)
      0 elements
    pure (os ++ rows ++ comment ++ endl)

/-! ## Types, annotations and the type system

The IR type system, the annotation store (`DxilTypeSystem.cpp` only holds stubs of it), the
data layout and `HLMatrixLower` are collaborators of the printers.  The printers ask a type
for its shape, the store for the annotation of a struct type, and `HLMatrixLower` whether a
type is a lowered matrix. -/

/-- The shape of an IR type, as far as the printers look at it.  A struct type is known by
its identity `id` (the `StructType` pointer of the C++ code), its name and its element
types. -/
inductive Ty where
  | scalar (name : String)
  | vector (elt : Ty) (n : Nat)
  | array (elt : Ty) (n : Nat)
  | struct (id : Nat) (name : String) (elems : List Ty)

namespace Ty

def IsStructType : Ty → Bool
  | .struct _ _ _ => true
  | _ => false

def IsArrayType : Ty → Bool
  | .array _ _ => true
  | _ => false

def IsVectorType : Ty → Bool
  | .vector _ _ => true
  | _ => false

/-- `VectorElementType()`, asked of vector types only. -/
def VectorElementType : Ty → Ty
  | .vector elt _ => elt
  | t => t

/-- `VectorNumElements()`, asked of vector types only. -/
def VectorNumElements : Ty → Nat
  | .vector _ n => n
  | _ => 0

end Ty

inductive MatrixOrientation where
  | Undefined
  | RowMajor
  | ColumnMajor
  deriving DecidableEq, Repr

structure DxilMatrixAnnotation where
  rows : Nat
  cols : Nat
  orientation : MatrixOrientation
  deriving DecidableEq, Repr

/-- What the printers read of a `DxilFieldAnnotation`: `GetFieldName()`,
`GetCBufferOffset()`, `GetCompType().GetHLSLName()` and the matrix annotation, present
exactly when `HasMatrixAnnotation()` holds. -/
structure DxilFieldAnnotation where
  FieldName : String
  CBufferOffset : Nat
  CompTypeHLSLName : String
  MatrixAnnotation : Option DxilMatrixAnnotation
  deriving DecidableEq, Repr

def DxilFieldAnnotation.HasMatrixAnnotation (a : DxilFieldAnnotation) : Bool :=
  a.MatrixAnnotation.isSome

/-- What the printers read of a `DxilStructAnnotation`: the field annotations behind
`FieldAnnotation(i)` and `CBufferSize()`. -/
structure DxilStructAnnotation where
  fields : List DxilFieldAnnotation
  CBufferSize : Nat
  deriving DecidableEq, Repr

/-- The annotation store: `GetStructAnnotation(st)` is the record of the struct type with
identity `st`, or a null pointer. -/
structure DxilTypeSystem where
  GetStructAnnotation : Nat → Option DxilStructAnnotation

/-- The store after `FieldAnnotation(0).SetFieldName(name)` on the record of struct `st`. -/
def DxilTypeSystem.SetFieldName0 (type_sys : DxilTypeSystem) (st : Nat) (name : String) :
    DxilTypeSystem :=
  { GetStructAnnotation := fun k =>
      if k = st then
        match type_sys.GetStructAnnotation st with
        | some a =>
          some { a with fields :=
            match a.fields with
            | [] => []
            | f :: fs => { f with FieldName := name } :: fs }
        | none => none
      else type_sys.GetStructAnnotation k }

/-- The helpers `HLMatrixLower::IsMatrixType` and `HLMatrixLower::GetMatrixInfo` (its
result type; the row and column counts it also returns are not used by the printers). -/
structure HLMatrixLower where
  IsMatrixType : Ty → Bool
  GetMatrixInfo : Ty → Ty

/-- `DataLayout::TypeAllocSize`. -/
structure DataLayout where
  TypeAllocSize : Ty → Nat

/-! ## Resources -/

inductive ResourceClass where
  | SRV
  | UAV
  | CBuffer
  | Sampler
  /-- a value of the enumeration that no `case` of the printers names -/
  | Invalid
  deriving DecidableEq, Repr

/-- The resource kinds the printers name, and `Other` for every kind they do not. -/
inductive ResourceKind where
  | TypedBuffer
  | RawBuffer
  | StructuredBuffer
  | Texture2DMS
  | Texture2DMSArray
  | TBuffer
  | Other
  deriving DecidableEq, Repr

/-- What the printers read of a `DxilResourceBase`.  The integers are `uint32_t` values;
`GlobalSymbolPointee` is `GetGlobalSymbol()->GetType()->PointerElementType()`. -/
structure DxilResourceBase where
  Class : ResourceClass
  Kind : ResourceKind
  ID : Nat
  SpaceID : Nat
  LowerBound : Nat
  RangeSize : Nat
  GlobalName : String
  GlobalSymbolPointee : Ty
  ResClassName : String
  ResDimName : String
  ResIDPrefix : String
  ResBindPrefix : String

/-- A `DxilResource` (shader-resource or unordered-access view). -/
structure DxilResource extends DxilResourceBase where
  SampleCount : Nat
  CompTypeName : String
  HasCounter : Bool
  RetType : Ty

/-- A `DxilCBuffer`. -/
structure DxilCBuffer extends DxilResourceBase where
  Size : Nat

/-- The object behind a `DxilResourceBase&`. -/
inductive ResourceObject where
  | cbuffer (c : DxilCBuffer)
  | sampler (s : DxilResourceBase)
  | resource (r : DxilResource)

namespace ResourceObject

def base : ResourceObject → DxilResourceBase
  | .cbuffer c => c.toDxilResourceBase
  | .sampler s => s
  | .resource r => r.toDxilResourceBase

/-- `static_cast<DxilResource*>(&res)`, defined only when the object is a `DxilResource`. -/
def asResource : ResourceObject → Except Fault DxilResource
  | .resource r => .ok r
  | _ => .error .badCast

/-- The same object with another range size. -/
def withRangeSize (res : ResourceObject) (n : Nat) : ResourceObject :=
  match res with
  | .cbuffer c => .cbuffer { c with RangeSize := n }
  | .sampler s => .sampler { s with RangeSize := n }
  | .resource r => .resource { r with RangeSize := n }

end ResourceObject

/-- The function `PrintResourceFormat`. -/
def PrintResourceFormat (res : ResourceObject) (alignment : Nat) : Except Fault String :=
  match res.base.Class with
  | .CBuffer | .Sampler => .ok (setwRight alignment "NA")
  | .UAV | .SRV =>
    match res.base.Kind with
    | .RawBuffer => .ok (setwRight alignment "byte")
    | .StructuredBuffer => .ok (setwRight alignment "struct")
    | _ => do
      let p ← res.asResource
      let comp_name := p.CompTypeName
      pure (setwRight alignment comp_name)
  | .Invalid => .ok ""

/-- The function `PrintResourceDim`. -/
def PrintResourceDim (res : ResourceObject) (alignment : Nat) : Except Fault String :=
  match res.base.Class with
  | .CBuffer | .Sampler => .ok (setwRight alignment "NA")
  | .UAV | .SRV =>
    match res.base.Kind with
    | .RawBuffer | .StructuredBuffer =>
      if res.base.Class = .SRV then
        .ok (setwRight alignment "r/o")
      else do
        let dxil_res ← res.asResource
        if !dxil_res.HasCounter then
          pure (setwRight alignment "r/w")
        else
          pure (setwRight alignment "r/w+cnt")
    | .TypedBuffer => .ok (setwRight alignment "buf")
    | .Texture2DMS | .Texture2DMSArray => do
      let dxil_res ← res.asResource
      let dim_name := res.base.ResDimName
      let dim_name :=
        if dxil_res.SampleCount ≠ 0 then dim_name ++ dec dxil_res.SampleCount else dim_name
      pure (setwRight alignment dim_name)
    | _ => .ok (setwRight alignment res.base.ResDimName)
  | .Invalid => .ok ""

/-- The function `PrintResourceBinding`. -/
def PrintResourceBinding (res : ResourceObject) (comment : String) : Except Fault String := do
  let os := comment ++ " " ++ setwLeft 31 res.base.GlobalName
  let os := os ++ setwRight 10 res.base.ResClassName
  let os := os ++ (← PrintResourceFormat res 8)
  let os := os ++ (← PrintResourceDim res 12)
  let ID := res.base.ResIDPrefix ++ dec res.base.ID
  let os := os ++ setwRight 8 ID
  let bind := res.base.ResBindPrefix ++ dec res.base.LowerBound
  let bind := if res.base.SpaceID ≠ 0 then bind ++ (",space" ++ dec res.base.SpaceID) else bind
  let os := os ++ setwRight 15 bind
  if res.base.RangeSize ≠ UINT_MAX then
    pure (os ++ setwRight 6 (dec res.base.RangeSize) ++ "\n")
  else
    pure (os ++ setwRight 6 "unbounded\n")

/-! ## The layout printers -/

/-- The loop `while (ty->IsArrayType()) ty = ty->ArrayElementType();` of `GetTypeAndName`. -/
def stripAllArrays : Ty → Ty
  | .array elt _ => stripAllArrays elt
  | ty => ty

/-- The function `GetTypeAndName`. -/
def GetTypeAndName (ty : Ty) ( annotation : DxilFieldAnnotation) (array_size : Nat) :
    Except Fault String := do
  let ty := stripAllArrays ty
  let comp_ty_name := annotation.CompTypeHLSLName
  let oss ←
    match annotation.MatrixAnnotation with
    | some matrix => do
      let oss ←
        match matrix.orientation with
        | .RowMajor => pure "row_major "
        | .ColumnMajor => pure "column_major "
        | _ => throw Fault.unreachable
      pure (oss ++ comp_ty_name ++ dec matrix.rows ++ "x" ++ dec matrix.cols)
    | none =>
      if ty.IsVectorType then
        pure (comp_ty_name ++ dec ty.VectorNumElements)
      else
        pure comp_ty_name
  let oss := oss ++ " " ++ annotation.FieldName
  let oss := if array_size ≠ 0 then oss ++ "[" ++ dec array_size ++ "]" else oss
  pure (oss ++ ";")

/-- The loop of `PrintFieldLayout` that strips array dimensions, from the state
`(elt_ty, array_size, array_level)`:
`while (!IsMatrixType(elt_ty) && elt_ty->IsArrayType()) { array_size *= n; ... }`. -/
def stripArrays (hl : HLMatrixLower) : Ty → Nat → Nat → Ty × Nat × Nat
  | .array elt n, array_size, array_level =>
    if hl.IsMatrixType (.array elt n) then
      (.array elt n, array_size, array_level)
    else
      stripArrays hl elt (u32 (array_size * u32 n)) (u32 (array_level + 1))
  | ty, array_size, array_level => (ty, array_size, array_level)

/-- The block of `PrintFieldLayout` that computes `elt_ty` and `array_size` of a field
(from `auto elt_ty = ty;` to the end of the matrix case). -/
def fieldArrayInfo (hl : HLMatrixLower) (ty : Ty) ( annotation : DxilFieldAnnotation) :
    Except Fault (Ty × Nat) := do
  let (elt_ty, array_size, array_level) :=
    if !hl.IsMatrixType ty && ty.IsArrayType then stripArrays hl ty 1 0 else (ty, 0, 0)
  match annotation.MatrixAnnotation with
  | some matrix =>
    let array_size ←
      match matrix.orientation with
      | .RowMajor =>
        if u32 matrix.rows = 0 then throw Fault.divByZero
        else pure (array_size / u32 matrix.rows)
      | .ColumnMajor =>
        if u32 matrix.cols = 0 then throw Fault.divByZero
        else pure (array_size / u32 matrix.cols)
      | _ => throw Fault.unreachable
    let elt_ty :=
      if elt_ty.IsVectorType then elt_ty.VectorElementType
      else if elt_ty.IsStructType then hl.GetMatrixInfo elt_ty
      else elt_ty
    let array_size := if array_level = 1 then 0 else array_size
    pure (elt_ty, array_size)
  | none => pure (elt_ty, array_size)

/-- The text `" Size: " << std::setw(5) << size`, written when the size is not zero. -/
def sizeColumn (size : Nat) : String :=
  if size ≠ 0 then " Size: " ++ setwRight 5 (dec size) else ""

/-- The line of a field that is not a struct, as `PrintFieldLayout` writes it. -/
def leafLine (comment type_and_name : String) (offset indent offset_indent size_to_print : Nat) :
    String :=
  comment ++ spaces indent
    ++ setwLeft (setwArg offset_indent) type_and_name
    ++ comment ++ " Offset:" ++ setwRight 5 (dec offset)
    ++ sizeColumn size_to_print
    ++ "\n"

/-- The lines `PrintStructLayout` writes before the fields of a struct. -/
def structOpen (comment name : String) (indent : Nat) : String :=
  comment ++ spaces indent ++ "struct " ++ name ++ "\n"
    ++ comment ++ spaces indent ++ "\x7b\n"
    ++ comment ++ "\n"

/-- The lines `PrintStructLayout` writes after the fields of a struct. -/
def structClose (comment var_name : String) (offset indent offset_indent size_of_struct : Nat) :
    String :=
  comment ++ spaces indent ++ "\n"
    ++ comment ++ spaces indent ++ "\x7d " ++ setwLeft (setwArg (subU32 offset_indent 2)) var_name
    ++ comment ++ " Offset:" ++ setwRight 5 (dec offset)
    ++ sizeColumn size_of_struct
    ++ "\n"
    ++ comment ++ "\n"

mutual

/-- The function `PrintFieldLayout`.  `fuel` bounds the depth of the mutual recursion. -/
def PrintFieldLayout (hl : HLMatrixLower) (type_sys : DxilTypeSystem) (comment : String)
    (fuel : Nat) (ty : Ty) ( annotation : DxilFieldAnnotation)
    (offset indent offset_indent size_to_print : Nat) : Except Fault String :=
  match fuel with
  | 0 => .error .outOfFuel
  | fuel + 1 =>
    let offset := u32 (offset + annotation.CBufferOffset)
    if ty.IsStructType && ! annotation.HasMatrixAnnotation then
      PrintStructLayout hl type_sys comment fuel ty annotation.FieldName offset
        indent offset_indent 0
    else do
      let (elt_ty, array_size) ← fieldArrayInfo hl ty annotation
      if !hl.IsMatrixType elt_ty && elt_ty.IsStructType then
        let oss := annotation.FieldName
        let oss := if array_size ≠ 0 then oss ++ "[" ++ dec array_size ++ "]" else oss
        let oss := oss ++ ";"
        PrintStructLayout hl type_sys comment fuel elt_ty oss offset indent offset_indent 0
      else do
        let type_and_name ← GetTypeAndName ty annotation array_size
        pure (leafLine comment type_and_name offset indent offset_indent size_to_print)
termination_by structural fuel

/-- The function `PrintStructLayout`; `st` is the argument of `cast<StructType>`.
`annotation->FieldAnnotation(i)` dereferences the pointer the store returned. -/
def PrintStructLayout (hl : HLMatrixLower) (type_sys : DxilTypeSystem) (comment : String)
    (fuel : Nat) (st : Ty) (var_name : String)
    (offset indent offset_indent size_of_struct : Nat) : Except Fault String :=
  match fuel with
  | 0 => .error .outOfFuel
  | fuel + 1 =>
    match st with
    | .struct id name elems => do
      let annotation := type_sys.GetStructAnnotation id
      let fields ← loopFrom (fun i elementType =>
          match annotation with
          | none => .error .nullDeref
          | some a =>
            match a.fields[i]? with
            | none => .error .outOfRange
            | some fieldAnnotation =>
              PrintFieldLayout hl type_sys comment fuel elementType fieldAnnotation
                offset offset_indent (subU32 offset_indent 4) 0) 0 elems
      pure (structOpen comment name indent ++ fields
        ++ structClose comment var_name offset indent offset_indent size_of_struct)
    | _ => .error .badCast
termination_by structural fuel

end

/-- The identity of the struct type behind `cast<StructType>(ty)`. -/
def castStructType : Ty → Except Fault Nat
  | .struct id _ _ => .ok id
  | _ => .error .badCast

/-- The step `if (ty->IsArrayType()) ty = ty->ArrayElementType();` of the three callers. -/
def resourceElementType : Ty → Ty
  | .array elt _ => elt
  | ty => ty

/-- The function `PrintCBufferDefinition`. -/
def PrintCBufferDefinition (hl : HLMatrixLower) (fuel : Nat) (buff : DxilCBuffer)
    (type_sys : DxilTypeSystem) (comment : String) : Except Fault String := do
  let offsetIndent := 50
  let ty := resourceElementType buff.GlobalSymbolPointee
  let annotation := type_sys.GetStructAnnotation (← castStructType ty)
  let os := comment ++ " cbuffer " ++ buff.GlobalName ++ "\n"
    ++ comment ++ " \x7b\n"
    ++ comment ++ "\n"
  let os ←
    match annotation with
    | none =>
      pure (os ++ comment ++ "   [" ++ dec buff.Size ++ " x i8] (type annotation not present)\n"
        ++ comment ++ "\n")
    | some _ => do
      let layout ← PrintStructLayout hl type_sys comment fuel ty buff.GlobalName 0 3
        offsetIndent buff.Size
      pure (os ++ layout)
  pure (os ++ comment ++ " \x7d\n" ++ comment ++ "\n")

/-- The function `PrintTBufferDefinition`. -/
def PrintTBufferDefinition (hl : HLMatrixLower) (fuel : Nat) (buff : DxilResource)
    (type_sys : DxilTypeSystem) (comment : String) : Except Fault String := do
  let offset_indent := 50
  let ty := resourceElementType buff.GlobalSymbolPointee
  let annotation := type_sys.GetStructAnnotation (← castStructType ty)
  let os := comment ++ " tbuffer " ++ buff.GlobalName ++ "\n"
    ++ comment ++ " \x7b\n"
    ++ comment ++ "\n"
  let os ←
    match annotation with
    | none =>
      pure (os ++ comment ++ "   (type annotation not present)\n"
        ++ comment ++ "\n")
    | some a => do
      let layout ← PrintStructLayout hl type_sys comment fuel ty buff.GlobalName 0 3
        offset_indent a.CBufferSize
      pure (os ++ layout)
  pure (os ++ comment ++ " \x7d\n" ++ comment ++ "\n")

/-- The function `PrintStructBufferDefinition`.  It writes the name `$Element` into the
store's record, so the store after the call is part of the result. -/
def PrintStructBufferDefinition (hl : HLMatrixLower) (fuel : Nat) (buff : DxilResource)
    (type_sys : DxilTypeSystem) (dl : DataLayout) (comment : String) :
    Except Fault (String × DxilTypeSystem) := do
  let offset_indent := 50
  let os := comment ++ " Resource bind info for " ++ buff.GlobalName ++ "\n"
    ++ comment ++ " \x7b\n"
    ++ comment ++ "\n"
  let ret_ty := buff.RetType
  let (os, type_sys) ←
    if !ret_ty.IsStructType || hl.IsMatrixType ret_ty then do
      let ty := resourceElementType buff.GlobalSymbolPointee
      let st ← castStructType ty
      let annotation := type_sys.GetStructAnnotation st
      let (os, type_sys) ←
        match annotation with
        | none =>
          pure (os ++ comment ++ "   [" ++ dec (dl.TypeAllocSize ty)
            ++ " x i8] (type annotation not present)\n", type_sys)
        | some a =>
          match a.fields[0]? with
          | none => throw Fault.outOfRange
          | some field_annotation => do
            let field_annotation := { field_annotation with FieldName := "$Element" }
            let type_sys := type_sys.SetFieldName0 st "$Element"
            let layout ← PrintFieldLayout hl type_sys comment fuel ret_ty field_annotation
              0 3 offset_indent (dl.TypeAllocSize ty)
            pure (os ++ layout, type_sys)
      pure (os ++ comment ++ "\n", type_sys)
    else do
      let st ← castStructType ret_ty
      let annotation := type_sys.GetStructAnnotation st
      match annotation with
      | none =>
        pure (os ++ comment ++ "   [" ++ dec (dl.TypeAllocSize ret_ty)
          ++ " x i8] (type annotation not present)\n", type_sys)
      | some _ => do
        let layout ← PrintStructLayout hl type_sys comment fuel ret_ty "$Element;" 0 3
          offset_indent (dl.TypeAllocSize ret_ty)
        pure (os ++ layout, type_sys)
  pure (os ++ comment ++ " \x7d\n" ++ comment ++ "\n", type_sys)

/-! ## Paths through nested structs -/

/-- The narrowing of the offset column by one nesting level: `offset_indent - 4`. -/
def narrow (offset_indent : Nat) : Nat := subU32 offset_indent 4

/-- `LeafAt hl type_sys st ancestors ty annotation elt_ty array_size`: starting at the
struct type `st` and going down through fields that `PrintFieldLayout` prints as nested
structs, whose `GetCBufferOffset()` values are `ancestors` (outermost first), one reaches
the field of type `ty` with annotation `annotation`, which `PrintFieldLayout` prints as a
single line (`elt_ty` and `array_size` are what it computes for the field). -/
inductive LeafAt (hl : HLMatrixLower) (type_sys : DxilTypeSystem) :
    Ty → List Nat → Ty → DxilFieldAnnotation → Ty → Nat → Prop where
  /-- a field of the struct itself that is printed as one line -/
  | leaf {id : Nat} {name : String} {elems : List Ty} {a : DxilStructAnnotation} {i : Nat}
      {ty : Ty} { annotation : DxilFieldAnnotation} {elt_ty : Ty} {array_size : Nat} :
      type_sys.GetStructAnnotation id = some a →
      elems[i]? = some ty →
      a.fields[i]? = some annotation →
      (ty.IsStructType && ! annotation.HasMatrixAnnotation) = false →
      fieldArrayInfo hl ty annotation = .ok (elt_ty, array_size) →
      (!hl.IsMatrixType elt_ty && elt_ty.IsStructType) = false →
      LeafAt hl type_sys (.struct id name elems) [] ty annotation elt_ty array_size
  /-- a field of struct type without matrix annotation, printed as a nested struct -/
  | nested {id : Nat} {name : String} {elems : List Ty} {a : DxilStructAnnotation} {i : Nat}
      {st : Ty} {field : DxilFieldAnnotation} {ancestors : List Nat}
      {ty : Ty} { annotation : DxilFieldAnnotation} {elt_ty : Ty} {array_size : Nat} :
      type_sys.GetStructAnnotation id = some a →
      elems[i]? = some st →
      a.fields[i]? = some field →
      (st.IsStructType && !field.HasMatrixAnnotation) = true →
      LeafAt hl type_sys st ancestors ty annotation elt_ty array_size →
      LeafAt hl type_sys (.struct id name elems) (field.CBufferOffset :: ancestors)
        ty annotation elt_ty array_size
  /-- a field whose element type, once its array dimensions are stripped, is a struct:
  printed as a nested struct as well -/
  | nestedArray {id : Nat} {name : String} {elems : List Ty} {a : DxilStructAnnotation}
      {i : Nat} {fty : Ty} {st : Ty} {n : Nat} {field : DxilFieldAnnotation}
      {ancestors : List Nat}
      {ty : Ty} { annotation : DxilFieldAnnotation} {elt_ty : Ty} {array_size : Nat} :
      type_sys.GetStructAnnotation id = some a →
      elems[i]? = some fty →
      a.fields[i]? = some field →
      (fty.IsStructType && !field.HasMatrixAnnotation) = false →
      fieldArrayInfo hl fty field = .ok (st, n) →
      (!hl.IsMatrixType st && st.IsStructType) = true →
      LeafAt hl type_sys st ancestors ty annotation elt_ty array_size →
      LeafAt hl type_sys (.struct id name elems) (field.CBufferOffset :: ancestors)
        ty annotation elt_ty array_size

/-- The array type with the dimensions `dims`, outermost first, over `base`. -/
def arrayOf (dims : List Nat) (base : Ty) : Ty :=
  dims.foldr (fun n t => .array t n) base

/-! ## Columns of a signature row

The text of `signatureRow`, cut at the places where the source changes column. -/

/-- The row up to and including the index column. -/
def signatureNameColumns (mem : SignatureMemory) (has_streams : Bool) (comment : String)
    (sig : DxilProgramSignatureElement) : String :=
  (if has_streams then
      comment ++ " " ++ "m" ++ dec sig.Stream ++ ":" ++ setwLeft 17 (mem.stringAt sig.SemanticName)
    else
      comment ++ " " ++ setwLeft 20 (mem.stringAt sig.SemanticName))
    ++ setwRight 6 (dec sig.SemanticIndex)

/-- The mask and register columns (the branch on `sig->Register == -1`). -/
def signatureRegisterColumns (mem : SignatureMemory) (sig : DxilProgramSignatureElement) :
    String :=
  if sig.Register = UINT_MAX then
    "    N/A" ++
      (if stricmpEq (mem.stringAt sig.SemanticName) "SV_Depth" then "   oDepth"
       else if stricmpEq (mem.stringAt sig.SemanticName) "SV_DepthGreaterEqual" then " oDepthGE"
       else if stricmpEq (mem.stringAt sig.SemanticName) "SV_DepthLessEqual" then " oDepthLE"
       else if stricmpEq (mem.stringAt sig.SemanticName) "SV_Coverage" then "    oMask"
       else if stricmpEq (mem.stringAt sig.SemanticName) "SV_StencilRef" then "    oStencilRef"
       else if sig.SystemValue = DxilProgramSigSemantic.PrimitiveID then "   primID"
       else "  special")
  else
    "   " ++ componentMask sig.Mask ++ setwRight 9 (dec sig.Register)

/-- The value of `rw_mask` (a `uint8_t`) after `if (!is_input) rw_mask = ~rw_mask;`. -/
def rwMask (is_input : Bool) (AlwaysReads_Mask : Nat) : Nat :=
  if !is_input then 255 - AlwaysReads_Mask % 256 else AlwaysReads_Mask % 256

/-- The last column (the second branch on `sig->Register == -1`). -/
def signatureUsedColumn (is_input : Bool) (sig : DxilProgramSignatureElement) : String :=
  if sig.Register = UINT_MAX then
    (if rwMask is_input sig.AlwaysReads_Mask ≠ 0 then "    YES" else "     NO")
  else
    "   " ++ componentMask (rwMask is_input sig.AlwaysReads_Mask)

/-! ## `PrintPipelineStateValidationRuntimeInfo` -/

/-- The values of `ShaderKind` (declared in a header that is not among the sources): the
five kinds the `switch` names, and two it does not. -/
inductive ShaderKind where
  | Pixel
  | Vertex
  | Geometry
  | Hull
  | Domain
  | Compute
  | Invalid
  deriving DecidableEq, Repr

structure VSInfo where
  OutputPositionPresent : Nat
  deriving DecidableEq, Repr

structure PSInfo where
  DepthOutput : Nat
  SampleFrequency : Nat
  deriving DecidableEq, Repr

structure GSInfo where
  InputPrimitive : Nat
  OutputTopology : Nat
  OutputStreamMask : Nat
  OutputPositionPresent : Nat
  deriving DecidableEq, Repr

structure HSInfo where
  InputControlPointCount : Nat
  OutputControlPointCount : Nat
  TessellatorDomain : Nat
  TessellatorOutputPrimitive : Nat
  deriving DecidableEq, Repr

structure DSInfo where
  InputControlPointCount : Nat
  OutputPositionPresent : Nat
  deriving DecidableEq, Repr

/-- The union `PSVRuntimeInfo0`: what the same bytes hold when read through each member. -/
structure PSVRuntimeInfo0 where
  VS : VSInfo
  PS : PSInfo
  GS : GSInfo
  HS : HSInfo
  DS : DSInfo
  deriving DecidableEq, Repr

/-- The part data `buff`: `infoAt n` is `reinterpret_cast<PSVRuntimeInfo0 const *>(buff + n)`. -/
structure PSVBuffer where
  infoAt : Nat → PSVRuntimeInfo0

def input_primitive_names : List String :=
  [ "invalid", "point", "line", "triangle", "invalid", "invalid", "lineadj", "triangleadj",
    "patch1", "patch2", "patch3", "patch4", "patch5", "patch6", "patch7", "patch8",
    "patch9", "patch10", "patch11", "patch12", "patch13", "patch14", "patch15", "patch16",
    "patch17", "patch18", "patch19", "patch20", "patch21", "patch22", "patch23", "patch24",
    "patch25", "patch26", "patch27", "patch28", "patch29", "patch30", "patch31", "patch32" ]

def primitive_topology_names : List String :=
  [ "invalid", "point", "invalid", "line", "invalid", "triangle" ]

def tessellator_domain_names : List String :=
  [ "invalid", "isoline", "tri", "quad" ]

def tessellator_output_primitive_names : List String :=
  [ "invalid", "point", "line", "triangle_cw", "triangle_ccw" ]

/-- The read `table[index]` of a C array: outside the table it is undefined. -/
def tableAt (table : List String) (index : Nat) : Except Fault String :=
  match table[index]? with
  | some name => .ok name
  | none => .error .outOfRange

/-- The text of `os << (x ? true : false)`: a `bool` is written as `1` or `0`. -/
def boolText (x : Nat) : String := if x ≠ 0 then "1" else "0"

/-- The function `PrintPipelineStateValidationRuntimeInfo`. -/
def PrintPipelineStateValidationRuntimeInfo (buff : PSVBuffer) (shader_kind : ShaderKind)
    (comment : String) : Except Fault String := do
  let os := comment ++ endl
    ++ comment ++ " Pipeline Runtime Information:" ++ endl
    ++ comment ++ endl
  let offset := 4
  let info := buff.infoAt offset
  let os ←
    match shader_kind with
    | .Vertex =>
      pure (os ++ comment ++ " Vertex Shader" ++ endl
        ++ comment ++ " OutputPositionPresent=" ++ boolText info.VS.OutputPositionPresent ++ endl)
    | .Pixel =>
      pure (os ++ comment ++ " Pixel Shader" ++ endl
        ++ comment ++ " DepthOutput=" ++ boolText info.PS.DepthOutput ++ endl
        ++ comment ++ " SampleFrequency=" ++ boolText info.PS.SampleFrequency ++ endl)
    | .Geometry => do
      let os := os ++ comment ++ " Geometry Shader" ++ endl
      let os := os ++ comment ++ " InputPrimitive="
        ++ (← tableAt input_primitive_names info.GS.InputPrimitive) ++ endl
      let os := os ++ comment ++ " OutputTopology="
        ++ (← tableAt primitive_topology_names info.GS.OutputTopology) ++ endl
      let os := os ++ comment ++ " OutputStreamMask=" ++ dec info.GS.OutputStreamMask ++ endl
      pure (os ++ comment ++ " OutputPositionPresent="
        ++ boolText info.GS.OutputPositionPresent ++ endl)
    | .Hull => do
      let os := os ++ comment ++ " Hull Shader" ++ endl
      let os := os ++ comment ++ " InputControlPointCount="
        ++ dec info.HS.InputControlPointCount ++ endl
      let os := os ++ comment ++ " OutputControlPointCount="
        ++ dec info.HS.OutputControlPointCount ++ endl
      let os := os ++ comment ++ " Domain="
        ++ (← tableAt tessellator_domain_names info.HS.TessellatorDomain) ++ endl
      pure (os ++ comment ++ " OutputPrimitive="
        ++ (← tableAt tessellator_output_primitive_names info.HS.TessellatorOutputPrimitive)
        ++ endl)
    | .Domain =>
      pure (os ++ comment ++ " Domain Shader" ++ endl
        ++ comment ++ " InputControlPointCount=" ++ dec info.DS.InputControlPointCount ++ endl
        ++ comment ++ " OutputPositionPresent=" ++ boolText info.DS.OutputPositionPresent ++ endl)
    | _ => pure os
  pure (os ++ comment ++ endl)

/-! ## `PrintResourceBindings` and the module -/

/-- What `PrintDxilSignature` reads of a signature element. -/
structure DxilSignatureElement where
  Name : String
  SemanticIndexVec : List Nat
  InterpolationModeName : String
  deriving DecidableEq, Repr

/-- What the printers read of a `DxilModule`. -/
structure DxilModule where
  InputSignature : List DxilSignatureElement
  OutputSignature : List DxilSignatureElement
  PatchConstantSignature : List DxilSignatureElement
  CBuffers : List DxilCBuffer
  Samplers : List DxilResourceBase
  SRVs : List DxilResource
  UAVs : List DxilResource
  TypeSystem : DxilTypeSystem
  DataLayout : DataLayout

/-- The five lines `PrintResourceBindings` writes first. -/
def resourceBindingsHeader (comment : String) : String :=
  comment ++ "\n"
    ++ comment ++ " Resource Bindings:\n"
    ++ comment ++ "\n"
    ++ comment ++ " Name                                 Type  Format         Dim      ID      HLSL Bind  Count\n"
    ++ comment ++ " ------------------------------ ---------- ------- ----------- ------- -------------- ------\n"

/-- The function `PrintResourceBindings`. -/
def PrintResourceBindings (module : DxilModule) (comment : String) : Except Fault String := do
  let os := resourceBindingsHeader comment
  let os := os ++ (← loopFrom (fun _ res => PrintResourceBinding (.cbuffer res) comment)
    0 module.CBuffers)
  let os := os ++ (← loopFrom (fun _ res => PrintResourceBinding (.sampler res) comment)
    0 module.Samplers)
  let os := os ++ (← loopFrom (fun _ res => PrintResourceBinding (.resource res) comment)
    0 module.SRVs)
  let os := os ++ (← loopFrom (fun _ res => PrintResourceBinding (.resource res) comment)
    0 module.UAVs)
  pure (os ++ comment ++ "\n")

/-! ## `PrintDxilSignature` and `PrintBufferDefinitions` -/

/-- The function `PrintDxilSignature`. -/
def PrintDxilSignature (name : String) (sig_elts : List DxilSignatureElement)
    (comment : String) : Except Fault String := do
  if sig_elts.isEmpty then
    pure ""
  else
    let os := comment ++ "\n"
      ++ comment ++ " " ++ name ++ " signature:\n"
      ++ comment ++ "\n"
      ++ comment ++ " Name                 Index             InterpMode\n"
      ++ comment ++ " -------------------- ----- ----------------------\n"
    let rows ← loopFrom (fun _ sig_elt => do
        let index ←
          match sig_elt.SemanticIndexVec[0]? with
          | some index => pure index
          | none => throw Fault.outOfRange
        pure (comment ++ " " ++ setwLeft 20 sig_elt.Name ++ setwRight 6 (dec index)
          ++ setwRight 23 sig_elt.InterpolationModeName ++ "\n")) 0 sig_elts
    pure (os ++ rows)

/-- Modelled from the spec: the method `IsStructuredBuffer` of `DxilResource` is declared in
a header that is not among the sources; the spec speaks of structured resources, which is
read as the resource kind `StructuredBuffer`. -/
def DxilResource.IsStructuredBuffer (res : DxilResource) : Bool :=
  res.Kind = .StructuredBuffer

/-- Modelled from the spec: the method `IsTBuffer` of `DxilResource` is declared in a header
that is not among the sources; the spec speaks of the legacy-style buffer layout, which is
read as the resource kind `TBuffer`. -/
def DxilResource.IsTBuffer (res : DxilResource) : Bool :=
  res.Kind = .TBuffer

/-- A loop over the elements of a container whose body writes and may change the
annotation store; a fault ends the loop. -/
def loopState {α σ : Type} (body : α → σ → Except Fault (String × σ)) :
    List α → σ → Except Fault (String × σ)
  | [], s => .ok ("", s)
  | x :: xs, s => do
    let (t, s) ← body x s
    let (r, s) ← loopState body xs s
    pure (t ++ r, s)

/-- The function `PrintBufferDefinitions`; the store after the call is part of the result. -/
def PrintBufferDefinitions (hl : HLMatrixLower) (fuel : Nat) (mod : DxilModule)
    (comment : String) : Except Fault (String × DxilTypeSystem) := do
  let os := comment ++ "\n"
    ++ comment ++ " Buffer Definitions:\n"
    ++ comment ++ "\n"
  let type_sys := mod.TypeSystem
  let (cbufs, type_sys) ← loopState (fun cbuf type_sys => do
      pure (← PrintCBufferDefinition hl fuel cbuf type_sys comment, type_sys))
    mod.CBuffers type_sys
  let layout := mod.DataLayout
  let (srvs, type_sys) ← loopState (fun res type_sys =>
      if res.IsStructuredBuffer then
        PrintStructBufferDefinition hl fuel res type_sys layout comment
      else if res.IsTBuffer then do
        pure (← PrintTBufferDefinition hl fuel res type_sys comment, type_sys)
      else
        pure ("", type_sys))
    mod.SRVs type_sys
  let (uavs, type_sys) ← loopState (fun res type_sys =>
      if res.IsStructuredBuffer then
        PrintStructBufferDefinition hl fuel res type_sys layout comment
      else
        pure ("", type_sys))
    mod.UAVs type_sys
  pure (os ++ cbufs ++ srvs ++ uavs, type_sys)

/-! ## The container and `Disassemble` -/

/-- The part tags `Disassemble` compares with, and `other` for every other tag. -/
inductive DxilFourCC where
  | DFCC_FeatureInfo
  | DFCC_InputSignature
  | DFCC_OutputSignature
  | DFCC_PatchConstantSignature
  | DFCC_DXIL
  | DFCC_ShaderDebugInfoDXIL
  | DFCC_PipelineStateValidation
  | other (code : Nat)
  deriving DecidableEq, Repr

/-- What `Disassemble` reads of a `DxilProgramHeader`: the version word and the bitcode
that `GetDxilProgramBitcode` hands out. -/
structure DxilProgramHeader where
  ProgramVersion : Nat
  Bitcode : List Nat

/-- A part of the container: its tag, its size, and `GetDxilPartData(part)` as each of the
records `Disassemble` reinterprets it as. -/
structure DxilPartHeader where
  PartFourCC : DxilFourCC
  PartSize : Nat
  featureInfo : DxilShaderFeatureInfo
  signature : DxilProgramSignature
  signatureMemory : SignatureMemory
  runtimeInfo : PSVBuffer
  programHeader : DxilProgramHeader

/-- The container: `PartCount` is the length of `parts`, `GetDxilContainerPart(container, i)`
is `parts[i]`. -/
structure DxilContainerHeader where
  parts : List DxilPartHeader

/-- The input of `Disassemble`: its length, the container `IsDxilContainerLike` finds in it
(or a null pointer), the bytes read as a program header, and the bytes themselves. -/
structure Program where
  il_length : Nat
  container : Option DxilContainerHeader
  programHeader : DxilProgramHeader
  il : List Nat

/-- What `Disassemble` asks of a loaded `LLVMModule`: whether it has the named metadata
`dx.version`, its `DxilModule`, and its printer, which is given the annotation writer. -/
structure LLVMModule where
  hasDxVersion : Bool
  dxilModule : DxilModule
  Print : (Value → Except Fault String) → Except Fault String

/-- The functions `Disassemble` calls that are declared in headers that are not among the
sources.  `LoadLLVMModule` returns the module or throws an error code. -/
structure Collaborators where
  IsValidDxilContainer : DxilContainerHeader → Nat → Bool
  IsValidDxilProgramHeader : DxilProgramHeader → Nat → Bool
  GetVersionShaderType : Nat → ShaderKind
  LoadLLVMModule : List Nat → Except String LLVMModule
  hl : HLMatrixLower
  op : OpRegistry

/-- The ways `Disassemble` ends without a report. -/
inductive DisasmError where
  /-- the macro `TERROR` with its message -/
  | terror (msg : String)
  /-- undefined behaviour of a printer -/
  | fault (f : Fault)
  deriving DecidableEq, Repr

/-- Modelled from the spec: the macro `TERROR` is declared in a header that is not among the
sources; the spec calls the errors it reports fatal for the whole disassembly, which ends
at the macro. -/
def TERROR {α : Type} (msg : String) : Except DisasmError α := .error (.terror msg)

def liftFault {α : Type} : Except Fault α → Except DisasmError α
  | .ok a => .ok a
  | .error f => .error (.fault f)

/-- The first part with the given tag: the result of a loop
`for (i = 0; i < PartCount; ++ i) if (part->PartFourCC == fourCC) { ...; break; }`. -/
def firstPart (container : DxilContainerHeader) (fourCC : DxilFourCC) : Option DxilPartHeader :=
  container.parts.find? (fun part => part.PartFourCC = fourCC)

/-- A loop that renders the first part with the given tag, if there is one. -/
def partSection (container : DxilContainerHeader) (fourCC : DxilFourCC)
    (render : DxilPartHeader → Except Fault String) : Except DisasmError String :=
  match firstPart container fourCC with
  | some part => liftFault (render part)
  | none => pure ""

/-- The block of `Disassemble` that chooses the bitcode part (from
`uint32_t dxil_index = container->PartCount;` to `auto dxil_part = ...`). -/
def selectDxilPart (container : DxilContainerHeader) : Except DisasmError DxilPartHeader := do
  let dxil_index := container.parts.findIdx (fun part => part.PartFourCC = .DFCC_DXIL)
  if dxil_index = container.parts.length then
    TERROR "This container doesn't have DXIL."
  else
    let dxil_index :=
      match container.parts.findIdx? (fun part => part.PartFourCC = .DFCC_ShaderDebugInfoDXIL) with
      | some i => i
      | none => dxil_index
    match container.parts[dxil_index]? with
    | some dxil_part => pure dxil_part
    | none => .error (.fault .outOfRange)

/-- The `try` block of `Disassemble`: `oss` is the text written so far, `il` the bitcode.
An error code thrown by the loader is caught and the empty text is returned. -/
def renderModule (col : Collaborators) (fuel : Nat) (oss : String) (il : List Nat) :
    Except DisasmError String :=
  match col.LoadLLVMModule il with
  | .error _ => pure ""
  | .ok module => do
    let oss ←
      if module.hasDxVersion then do
        let dxil_module := module.dxilModule
        let oss := oss ++ (← liftFault (PrintDxilSignature "Input" dxil_module.InputSignature ";"))
        let oss := oss
          ++ (← liftFault (PrintDxilSignature "Output" dxil_module.OutputSignature ";"))
        let oss := oss ++ (← liftFault (PrintDxilSignature "Patch Constant signature"
          dxil_module.PatchConstantSignature ";"))
        let oss := oss
          ++ (← liftFault (PrintBufferDefinitions col.hl fuel dxil_module ";")).1
        pure (oss ++ (← liftFault (PrintResourceBindings dxil_module ";")))
      else
        pure oss
    pure (oss ++ (← liftFault (module.Print (PrintInfoComment col.op))))

/-- The function `Disassemble`. -/
def Disassemble (col : Collaborators) (fuel : Nat) (program : Program) :
    Except DisasmError String :=
  match program.container with
  | some container => do
    if !col.IsValidDxilContainer container program.il_length then
      TERROR "This container is invalid."
    else
      let oss ← partSection container .DFCC_FeatureInfo
        (fun part => pure (PrintFeatureInfo part.featureInfo ";"))
      let oss := oss ++ (← partSection container .DFCC_InputSignature
        (fun part => PrintSignature "Input" part.signature part.signatureMemory true ";"))
      let oss := oss ++ (← partSection container .DFCC_OutputSignature
        (fun part => PrintSignature "Output" part.signature part.signatureMemory false ";"))
      let oss := oss ++ (← partSection container .DFCC_PatchConstantSignature
        (fun part => PrintSignature "Patch Constant signature" part.signature
          part.signatureMemory false ";"))
      let dxil_part ← selectDxilPart container
      let program_header := dxil_part.programHeader
      if !col.IsValidDxilProgramHeader program_header dxil_part.PartSize then
        TERROR "The program header in this is container is invalid."
      else
        let oss := oss ++ (← partSection container .DFCC_PipelineStateValidation
          (fun part => PrintPipelineStateValidationRuntimeInfo part.runtimeInfo
            (col.GetVersionShaderType program_header.ProgramVersion) ";"))
        renderModule col fuel oss program_header.Bitcode
  | none =>
    let program_header := program.programHeader
    if col.IsValidDxilProgramHeader program_header program.il_length then
      renderModule col fuel "" program_header.Bitcode
    else
      renderModule col fuel "" program.il

/-- The record of a struct after `FieldAnnotation(0).SetFieldName(name)`: the name of the
first field is replaced, everything else is kept. -/
def DxilStructAnnotation.withFirstFieldName (name : String) (a : DxilStructAnnotation) :
    DxilStructAnnotation :=
  { a with fields :=
      match a.fields with
      | [] => []
      | f :: fs => { f with FieldName := name } :: fs }

/-! ## Struct nesting and annotated types -/

mutual

/-- The struct nesting depth of a type: the largest number of struct types on a way from the
type down to one of its parts. -/
def Ty.nesting : Ty → Nat
  | .scalar _ => 0
  | .vector elt _ => elt.nesting
  | .array elt _ => elt.nesting
  | .struct _ _ elems => Ty.nestingList elems + 1

/-- The largest struct nesting depth among the types of a list. -/
def Ty.nestingList : List Ty → Nat
  | [] => 0
  | ty :: tys => max ty.nesting (Ty.nestingList tys)

end

/-- No type is a lowered matrix. -/
def exampleHL : HLMatrixLower := ⟨fun _ => false, fun t => t⟩

def exampleInner : Ty := .struct 2 "Inner" [.scalar "float", .vector (.scalar "float") 3]

def exampleOuter : Ty := .struct 1 "Outer" [.scalar "int", exampleInner]

def exampleOuterAnnotation : DxilStructAnnotation :=
  ⟨[⟨"a", 0, "int", none⟩, ⟨"s", 16, "", none⟩], 32⟩

def exampleInnerAnnotation : DxilStructAnnotation :=
  ⟨[⟨"x", 0, "float", none⟩, ⟨"v", 4, "float", none⟩], 16⟩

/-- A store with the records of `Outer` and `Inner`. -/
def exampleStore : DxilTypeSystem :=
  ⟨fun k =>
    if k = 1 then some exampleOuterAnnotation
    else if k = 2 then some exampleInnerAnnotation
    else none⟩

/-- A store with the record of `Outer` only. -/
def partialStore : DxilTypeSystem :=
  ⟨fun k => if k = 1 then some exampleOuterAnnotation else none⟩

/-- A store without records. -/
def emptyStore : DxilTypeSystem := ⟨fun _ => none⟩

def exampleBase : DxilResourceBase :=
  { Class := .CBuffer, Kind := .Other, ID := 0, SpaceID := 0, LowerBound := 0, RangeSize := 1,
    GlobalName := "cb", GlobalSymbolPointee := exampleOuter, ResClassName := "cbuffer",
    ResDimName := "NA", ResIDPrefix := "CB", ResBindPrefix := "cb" }

def exampleCBuffer : DxilCBuffer := { exampleBase with Size := 32 }

def exampleTBuffer : DxilResource :=
  { exampleBase with
    Class := .SRV, Kind := .TBuffer, GlobalName := "tb",
    SampleCount := 0, CompTypeName := "f32", HasCounter := false, RetType := exampleOuter }

def exampleDataLayout : DataLayout := ⟨fun _ => 32⟩

/-- A row-major `float4x4` field named `m`. -/
def exampleMatrixField : DxilFieldAnnotation :=
  ⟨"m", 0, "float", some ⟨4, 4, .RowMajor⟩⟩

/-- A signature memory in which every record is zero and every name is empty. -/
def zeroMemory : SignatureMemory :=
  ⟨32, fun _ => ⟨0, 0, 0, 0, 0, 0, 0, 0⟩, fun _ => ""⟩

/-- A signature of two elements, `SV_Position` on stream 0 and `TEXCOORD` on stream 1. -/
def streamMemory : SignatureMemory :=
  ⟨32, fun off => if off = 8 then ⟨0, 72, 0, 1, 3, 0, 15, 3⟩ else ⟨1, 84, 2, 0, 3, 1, 3, 0⟩,
    fun off => if off = 72 then "SV_Position" else "TEXCOORD"⟩

/-- A runtime-info buffer whose geometry-shader view holds the given indices. -/
def geometryBuffer (InputPrimitive OutputTopology : Nat) : PSVBuffer :=
  ⟨fun _ => ⟨⟨1⟩, ⟨1, 0⟩, ⟨InputPrimitive, OutputTopology, 1, 1⟩, ⟨3, 3, 2, 3⟩, ⟨3, 1⟩⟩⟩

def exampleSRV : DxilResource :=
  { exampleBase with
    Class := .SRV, Kind := .StructuredBuffer, GlobalName := "sb", ResClassName := "texture",
    ResIDPrefix := "T", ResBindPrefix := "t",
    SampleCount := 0, CompTypeName := "f32", HasCounter := false, RetType := exampleOuter }

/-- A module with the constant buffer `cb` and the structured buffer `sb`. -/
def exampleModule : DxilModule :=
  { InputSignature := [], OutputSignature := [], PatchConstantSignature := [],
    CBuffers := [exampleCBuffer], Samplers := [], SRVs := [exampleSRV], UAVs := [],
    TypeSystem := exampleStore, DataLayout := exampleDataLayout }

/-- A part with the given tag whose records are all zero. -/
def examplePart (fourCC : DxilFourCC) : DxilPartHeader :=
  { PartFourCC := fourCC, PartSize := 64, featureInfo := ⟨0⟩, signature := ⟨0, 8⟩,
    signatureMemory := zeroMemory, runtimeInfo := geometryBuffer 1 1,
    programHeader := ⟨0, []⟩ }

/-- A module without `dx.version` metadata whose printer writes one line. -/
def exampleLLVMModule : LLVMModule :=
  { hasDxVersion := false, dxilModule := exampleModule, Print := fun _ => .ok "; module\n" }

/-- Collaborators that accept every container and every program header with a part size
other than 0, and load every bitcode as the example module. -/
def exampleCollaborators : Collaborators :=
  { IsValidDxilContainer := fun _ _ => true,
    IsValidDxilProgramHeader := fun _ size => size ≠ 0,
    GetVersionShaderType := fun _ => .Vertex,
    LoadLLVMModule := fun _ => .ok exampleLLVMModule,
    hl := exampleHL,
    op := ⟨149, fun n => "Op" ++ dec n⟩ }

/-- A container-like input with the given parts. -/
def exampleProgram (parts : List DxilPartHeader) : Program :=
  { il_length := 1024, container := some ⟨parts⟩, programHeader := ⟨0, []⟩, il := [] }

/-- A signature memory whose names are `SV_StencilRef` at offset 0, `SV_Depth` at offset 16
and `SV_Target` elsewhere; every record is zero. -/
def labelMemory : SignatureMemory :=
  ⟨32, fun _ => ⟨0, 0, 0, 0, 0, 0, 0, 0⟩,
    fun off => if off = 0 then "SV_StencilRef" else if off = 16 then "SV_Depth" else "SV_Target"⟩

/-- An unordered-access view `uav` in register space 2, bound at `u3`, with a counter. -/
def exampleUAV : DxilResource :=
  { exampleBase with
    Class := .UAV, Kind := .StructuredBuffer, ID := 1, SpaceID := 2, LowerBound := 3,
    GlobalName := "uav", ResClassName := "UAV", ResDimName := "buf", ResIDPrefix := "U",
    ResBindPrefix := "u",
    SampleCount := 0, CompTypeName := "f32", HasCounter := true, RetType := exampleOuter }

/-- The memory at and behind a signature section of 64 bytes: inside the section every
record is zero and every name is empty; behind it lie the given record and the given
name. -/
def sectionMemory (outside : DxilProgramSignatureElement) (outsideName : String) :
    SignatureMemory :=
  ⟨32, fun off => if off + 32 ≤ 64 then ⟨0, 0, 0, 0, 0, 0, 0, 0⟩ else outside,
    fun off => if off < 64 then "" else outsideName⟩

/-- A module whose constant buffer `cb` and whose structured buffer `sb` of `float4`
elements are both declared with the struct type `Outer`. -/
def sharedTypeModule : DxilModule :=
  { exampleModule with
    SRVs := [{ exampleSRV with RetType := .vector (.scalar "float") 4 }] }

/-- The lowered matrix types are the struct types whose name starts with `class.matrix.`;
their matrix information gives the element type `float`. -/
def matrixHL : HLMatrixLower :=
  ⟨fun t =>
    match t with
    | .struct _ name _ => "class.matrix.".toList.isPrefixOf name.toList
    | _ => false,
   fun _ => .scalar "float"⟩

/-- The lowered struct type of a `float4x4`. -/
def matrixStruct : Ty :=
  .struct 9 "class.matrix.float.4.4" [.array (.vector (.scalar "float") 4) 4]

/-- The struct `Transform { row_major float4x4 m; }`. -/
def matrixOuter : Ty := .struct 8 "Transform" [matrixStruct]

/-- A store with the records of `Transform` and of the lowered matrix struct. -/
def matrixStore : DxilTypeSystem :=
  ⟨fun k =>
    if k = 8 then some ⟨[exampleMatrixField], 64⟩
    else if k = 9 then some ⟨[⟨"h", 0, "float", none⟩], 64⟩
    else none⟩

/-- The store of `Transform` in which the field `m` has no matrix annotation. -/
def matrixPlainStore : DxilTypeSystem :=
  ⟨fun k =>
    if k = 8 then some ⟨[⟨"m", 0, "float", none⟩], 64⟩
    else if k = 9 then some ⟨[⟨"h", 0, "float", none⟩], 64⟩
    else none⟩

/-! # Theorems -/

/-! ## Text helpers -/

theorem cat_append (xs ys : List String) : cat (xs ++ ys) = cat xs ++ cat ys := by
  induction xs with
  | nil => simp [cat]
  | cons x xs ih => simp [cat, ih, String.append_assoc]

theorem cat_map_ite (p : Nat → Bool) (g : Nat → String) (l : List Nat) :
    cat (l.map (fun i => if p i then g i else "")) = cat ((l.filter p).map g) := by
  induction l with
  | nil => rfl
  | cons x xs ih =>
    by_cases hx : p x = true
    · simp [cat, hx, ih]
    · simp [cat, hx, ih]

theorem forLoop_congr (n : Nat) (b b' : Nat → String) (h : ∀ i, i < n → b i = b' i) :
    forLoop n b = forLoop n b' := by
  unfold forLoop
  congr 1
  apply List.map_congr_left
  intro i hi
  exact h i (List.mem_range.mp hi)

theorem cat_map_empty (l : List Nat) : cat (l.map (fun _ => "")) = "" := by
  induction l with
  | nil => rfl
  | cons x xs ih =>
    show "" ++ cat (xs.map (fun _ => "")) = ""
    rw [ih]
    rfl

/-- The number of set bits among the low `k` bits is the binary digit sum. -/
theorem length_filter_testBit (k : Nat) : ∀ n : Nat, n < 2 ^ k →
    ((List.range k).filter (fun i => n.testBit i)).length = (Nat.digits 2 n).sum := by
  induction k with
  | zero =>
    intro n hn
    have : n = 0 := by simpa using hn
    subst this
    simp
  | succ k ih =>
    intro n hn
    have hhalf : n / 2 < 2 ^ k := by
      rw [Nat.div_lt_iff_lt_mul (by decide)]
      rw [pow_succ] at hn
      exact hn
    have hrec := ih (n / 2) hhalf
    rw [List.range_succ_eq_map, List.filter_cons, List.filter_map]
    have hcomp : ((fun i => n.testBit i) ∘ Nat.succ) = (fun i => (n / 2).testBit i) := by
      funext i
      simp [Nat.testBit_succ]
    rw [hcomp]
    rcases Nat.eq_zero_or_pos n with h0 | hpos
    · subst h0
      simp
    · rw [Nat.digits_def' (by decide) hpos, List.sum_cons, ← hrec]
      rcases Nat.mod_two_eq_zero_or_one n with hm | hm
      · simp [Nat.testBit_zero, hm]
      · simp [Nat.testBit_zero, hm, Nat.add_comm]

theorem loopFrom_ok_get {α : Type} (body : Nat → α → Except Fault String) :
    ∀ (xs : List α) (i j : Nat) (x : α) (text : String),
      loopFrom body i xs = .ok text → xs[j]? = some x →
      ∃ pre post s, body (i + j) x = .ok s ∧ text = pre ++ s ++ post := by
  intro xs
  induction xs with
  | nil => intro i j x text _ hx; simp at hx
  | cons y ys ih =>
    intro i j x text h hx
    simp only [loopFrom, bind, Except.bind, pure, Except.pure] at h
    cases hy : body i y with
    | error e => rw [hy] at h; cases h
    | ok s =>
      rw [hy] at h
      simp only at h
      cases hr : loopFrom body (i + 1) ys with
      | error e => rw [hr] at h; cases h
      | ok r =>
        rw [hr] at h
        simp only at h
        injection h with h
        cases j with
        | zero =>
          simp only [List.getElem?_cons_zero, Option.some.injEq] at hx
          subst hx
          exact ⟨"", r, s, hy, by rw [← h]; simp⟩
        | succ j =>
          simp only [List.getElem?_cons_succ] at hx
          obtain ⟨pre, post, s', hs', ht⟩ := ih (i + 1) j x r hr hx
          refine ⟨s ++ pre, post, s', ?_, ?_⟩
          · rw [← hs']
            congr 1
            omega
          · rw [← h, ht]
            simp [String.append_assoc]

/-! ## Layout printers -/

theorem offset_step (offset f S o : Nat) :
    (u32 (offset + f) + S + o) % 2 ^ 32 = (offset + (f + S) + o) % 2 ^ 32 := by
  unfold u32
  omega

/-- A successful run of `PrintStructLayout` has run `PrintFieldLayout` on each field, at the
offset of the struct, and the text of the field is part of the text of the struct. -/
theorem PrintStructLayout_ok_field (hl : HLMatrixLower) (type_sys : DxilTypeSystem)
    (comment : String) {id : Nat} {name : String} {elems : List Ty}
    {a : DxilStructAnnotation} {i : Nat} {ty : Ty} { annotation : DxilFieldAnnotation}
    (ha : type_sys.GetStructAnnotation id = some a) (hty : elems[i]? = some ty)
    (hfa : a.fields[i]? = some annotation)
    (fuel : Nat) (var_name : String) (offset indent offset_indent size_of_struct : Nat)
    (text : String)
    (hrun : PrintStructLayout hl type_sys comment fuel (.struct id name elems) var_name offset
      indent offset_indent size_of_struct = .ok text) :
    ∃ fuel' pre post s, fuel = fuel' + 1 ∧
      PrintFieldLayout hl type_sys comment fuel' ty annotation offset offset_indent
        (narrow offset_indent) 0 = .ok s ∧
      text = pre ++ s ++ post := by
  cases fuel with
  | zero => simp [PrintStructLayout] at hrun
  | succ fuel' =>
    simp only [PrintStructLayout, bind, Except.bind, pure, Except.pure] at hrun
    split at hrun
    · cases hrun
    · rename_i fields hloop
      injection hrun with hrun
      obtain ⟨pre, post, s, hs, ht⟩ := loopFrom_ok_get _ elems 0 i ty fields hloop hty
      simp only [ha, Nat.zero_add, hfa] at hs
      refine ⟨fuel', structOpen comment name indent ++ pre,
        post ++ structClose comment var_name offset indent offset_indent size_of_struct,
        s, rfl, hs, ?_⟩
      rw [← hrun, ht]
      simp [String.append_assoc]

/-- Claim C1: in a successful run of `PrintStructLayout` at offset `offset`, the line of a
leaf field reached through nested structs carries the offset
`offset + (sum of the ancestors' field offsets) + (the leaf's own field offset)`, reduced
modulo `2^32`. -/
theorem PrintStructLayout_leaf_offset_additive (hl : HLMatrixLower) (type_sys : DxilTypeSystem)
    (comment : String) {st : Ty} {ancestors : List Nat} {ty : Ty}
    { annotation : DxilFieldAnnotation} {elt_ty : Ty} {array_size : Nat}
    (hpath : LeafAt hl type_sys st ancestors ty annotation elt_ty array_size) :
    ∀ (fuel : Nat) (var_name : String) (offset indent offset_indent size_of_struct : Nat)
      (text : String),
      PrintStructLayout hl type_sys comment fuel st var_name offset indent offset_indent
        size_of_struct = .ok text →
      ∃ type_and_name pre post,
        GetTypeAndName ty annotation array_size = .ok type_and_name ∧
        text = pre ++ leafLine comment type_and_name
            ((offset + ancestors.sum + annotation.CBufferOffset) % 2 ^ 32)
            (narrow^[ancestors.length] offset_indent)
            (narrow^[ancestors.length + 1] offset_indent) 0 ++ post := by
  induction hpath with
  | @leaf id name elems a i ty annotation elt_ty array_size ha hty hfa hcond hinfo hleaf =>
    intro fuel var_name offset indent offset_indent size_of_struct text hrun
    obtain ⟨fuel', pre, post, s, _, hs, ht⟩ := PrintStructLayout_ok_field hl type_sys comment
      ha hty hfa fuel var_name offset indent offset_indent size_of_struct text hrun
    cases fuel' with
    | zero => simp [PrintFieldLayout] at hs
    | succ f =>
      simp only [PrintFieldLayout, hcond, hinfo, hleaf, bind, Except.bind, pure, Except.pure,
        Bool.false_eq_true, if_false] at hs
      split at hs
      · cases hs
      · rename_i tn htn
        injection hs with hs
        refine ⟨tn, pre, post, htn, ?_⟩
        rw [ht, ← hs]
        simp [u32]
  | @nested id name elems a i st field ancestors ty annotation elt_ty array_size
      ha hty hfa hcond _ ih =>
    intro fuel var_name offset indent offset_indent size_of_struct text hrun
    obtain ⟨fuel', pre, post, s, _, hs, ht⟩ := PrintStructLayout_ok_field hl type_sys comment
      ha hty hfa fuel var_name offset indent offset_indent size_of_struct text hrun
    cases fuel' with
    | zero => simp [PrintFieldLayout] at hs
    | succ f =>
      simp only [PrintFieldLayout, hcond, if_true] at hs
      obtain ⟨tn, pre', post', htn, hs'⟩ := ih f _ _ _ _ _ s hs
      refine ⟨tn, pre ++ pre', post' ++ post, htn, ?_⟩
      rw [ht, hs']
      have e1 := Function.iterate_succ_apply narrow ancestors.length offset_indent
      have e2 := Function.iterate_succ_apply narrow (ancestors.length + 1) offset_indent
      rw [List.length_cons, List.sum_cons, e1, e2, offset_step]
      simp only [String.append_assoc]
  | @nestedArray id name elems a i fty st n field ancestors ty annotation elt_ty array_size
      ha hty hfa hcond hinfo hstruct _ ih =>
    intro fuel var_name offset indent offset_indent size_of_struct text hrun
    obtain ⟨fuel', pre, post, s, _, hs, ht⟩ := PrintStructLayout_ok_field hl type_sys comment
      ha hty hfa fuel var_name offset indent offset_indent size_of_struct text hrun
    cases fuel' with
    | zero => simp [PrintFieldLayout] at hs
    | succ f =>
      simp only [PrintFieldLayout, hcond, hinfo, hstruct, bind, Except.bind,
        Bool.false_eq_true, if_false, if_true] at hs
      obtain ⟨tn, pre', post', htn, hs'⟩ := ih f _ _ _ _ _ s hs
      refine ⟨tn, pre ++ pre', post' ++ post, htn, ?_⟩
      rw [ht, hs']
      have e1 := Function.iterate_succ_apply narrow ancestors.length offset_indent
      have e2 := Function.iterate_succ_apply narrow (ancestors.length + 1) offset_indent
      rw [List.length_cons, List.sum_cons, e1, e2, offset_step]
      simp only [String.append_assoc]

set_option maxRecDepth 100000 in
/-- Claim C1, on `Outer { int a; Inner s; }` with `s` at byte 16 and `v` at byte 4 of
`Inner`: the line of `v` carries the offset 0 + 16 + 4. -/
theorem PrintStructLayout_leaf_offset_additive_witness :
    ∃ type_and_name pre post,
      GetTypeAndName (.vector (.scalar "float") 3) ⟨"v", 4, "float", none⟩ 0
        = .ok type_and_name ∧
      ";   struct Outer\n;   \x7b\n;\n;                                                  int a;                                        ; Offset:    0\n;                                                  struct Inner\n;                                                  \x7b\n;\n;                                              float x;                                  ; Offset:   16\n;                                              float3 v;                                 ; Offset:   20\n;                                                  \n;                                                  \x7d s                                           ; Offset:   16\n;\n;   \n;   \x7d buf                                             ; Offset:    0 Size:    32\n;\n"
        = pre ++ leafLine ";" type_and_name ((0 + [16].sum + 4) % 2 ^ 32)
            (narrow^[1] 50) (narrow^[1 + 1] 50) 0 ++ post :=
  PrintStructLayout_leaf_offset_additive exampleHL exampleStore ";"
    (@LeafAt.nested exampleHL exampleStore 1 "Outer" [.scalar "int", exampleInner]
      exampleOuterAnnotation 1 exampleInner ⟨"s", 16, "", none⟩ []
      (.vector (.scalar "float") 3) ⟨"v", 4, "float", none⟩ (.vector (.scalar "float") 3) 0
      rfl rfl rfl rfl
      (@LeafAt.leaf exampleHL exampleStore 2 "Inner" [.scalar "float", .vector (.scalar "float") 3]
        exampleInnerAnnotation 1 (.vector (.scalar "float") 3) ⟨"v", 4, "float", none⟩
        (.vector (.scalar "float") 3) 0 rfl rfl rfl rfl rfl rfl))
    4 "buf" 0 3 50 32 _ (by decide)

theorem stripArrays_not_array (hl : HLMatrixLower) (base : Ty) (hbase : base.IsArrayType = false)
    (s l : Nat) : stripArrays hl base s l = (base, s, l) := by
  cases base with
  | array elt n => simp [Ty.IsArrayType] at hbase
  | scalar name => simp [stripArrays]
  | vector elt n => simp [stripArrays]
  | struct id name elems => simp [stripArrays]

/-- The loop that strips array dimensions multiplies the lengths of all dimensions into
the running count and counts the dimensions, both modulo `2^32`. -/
theorem stripArrays_arrayOf (hl : HLMatrixLower) (base : Ty)
    (hmat : ∀ t n, hl.IsMatrixType (.array t n) = false) (hbase : base.IsArrayType = false) :
    ∀ (dims : List Nat) (s l : Nat),
      stripArrays hl (arrayOf dims base) (u32 s) (u32 l)
        = (base, u32 (s * dims.prod), u32 (l + dims.length)) := by
  intro dims
  induction dims with
  | nil =>
    intro s l
    simp [arrayOf, stripArrays_not_array hl base hbase]
  | cons n ds ih =>
    intro s l
    have hunfold : stripArrays hl (arrayOf (n :: ds) base) (u32 s) (u32 l)
        = stripArrays hl (arrayOf ds base) (u32 (u32 s * u32 n)) (u32 (u32 l + 1)) := by
      simp [arrayOf, stripArrays, hmat]
    rw [hunfold, ih]
    have h1 : u32 (u32 s * u32 n * ds.prod) = u32 (s * (n :: ds).prod) := by
      simp only [u32, List.prod_cons]
      calc s % 2 ^ 32 * (n % 2 ^ 32) * ds.prod % 2 ^ 32
          = (s % 2 ^ 32 * (n % 2 ^ 32)) % 2 ^ 32 * (ds.prod % 2 ^ 32) % 2 ^ 32 :=
            Nat.mul_mod _ _ _
        _ = (s * n) % 2 ^ 32 * (ds.prod % 2 ^ 32) % 2 ^ 32 := by rw [← Nat.mul_mod s n]
        _ = s * n * ds.prod % 2 ^ 32 := (Nat.mul_mod _ _ _).symm
        _ = s * (n * ds.prod) % 2 ^ 32 := by rw [Nat.mul_assoc]
    have h2 : u32 (u32 l + 1 + ds.length) = u32 (l + (n :: ds).length) := by
      simp only [u32, List.length_cons]
      omega
    rw [h1, h2]

/-- Claim C2, counterexample: a row-major 4×4 matrix field whose type is one array dimension
of length 8 = 4×2 is printed without array suffix, not with `[2]`; and one whose type is
`[1 x [4 x <4 x float>]]`, of raw length 4 = 4×1, is printed with the suffix `[1]`. -/
theorem PrintFieldLayout_matrix_suffix_counterexample :
    PrintFieldLayout exampleHL emptyStore ";" 1 (.array (.vector (.scalar "float") 4) 8)
        exampleMatrixField 0 3 50 0
      = .ok ";   row_major float4x4 m;                             ; Offset:    0\n"
    ∧ PrintFieldLayout exampleHL emptyStore ";" 1
        (.array (.array (.vector (.scalar "float") 4) 4) 1) exampleMatrixField 0 3 50 0
      = .ok ";   row_major float4x4 m[1];                          ; Offset:    0\n" := by
  constructor <;> decide

/-- Claim C2, amended: for a field with a row-major or column-major matrix annotation whose
type has the array dimensions `dims`, `PrintFieldLayout` divides the product of the
dimensions by `rows` (row-major) or `cols` (column-major).  With two or more array
dimensions it prints the quotient `N` as the suffix `[N]` when `N` is not 0: the suffix
`[N]` for a product `R × N` or `C × N` with `N ≥ 1`, also for `N = 1`.  With exactly one
array dimension, whatever its length, or with none it prints no suffix. -/
theorem PrintFieldLayout_matrix_array_suffix (hl : HLMatrixLower) (type_sys : DxilTypeSystem)
    (comment : String) (fuel : Nat) (dims : List Nat) (base : Ty)
    (name compName : String) (fieldOffset rows cols : Nat) (rowMajor : Bool)
    (offset indent offset_indent size_to_print : Nat)
    (hmat : ∀ t n, hl.IsMatrixType (.array t n) = false)
    (hbase : base.IsArrayType = false)
    (hleaf : ∀ elt_ty,
      elt_ty = (if base.IsVectorType then base.VectorElementType
        else if base.IsStructType then hl.GetMatrixInfo base else base) →
      (!hl.IsMatrixType elt_ty && elt_ty.IsStructType) = false)
    (hdiv : 1 ≤ (if rowMajor then rows else cols))
    (hdlt : (if rowMajor then rows else cols) < 2 ^ 32)
    (hfit : dims.prod < 2 ^ 32) (hlevels : dims.length < 2 ^ 32) :
    (PrintFieldLayout hl type_sys comment (fuel + 1) (arrayOf dims base)
        ⟨name, fieldOffset, compName,
          some ⟨rows, cols, if rowMajor then .RowMajor else .ColumnMajor⟩⟩
        offset indent offset_indent size_to_print
      = .ok (leafLine comment
          ((if rowMajor then "row_major " else "column_major ")
            ++ compName ++ dec rows ++ "x" ++ dec cols ++ " " ++ name
            ++ (if 2 ≤ dims.length ∧ dims.prod / (if rowMajor then rows else cols) ≠ 0 then
                  "[" ++ dec (dims.prod / (if rowMajor then rows else cols)) ++ "]"
                else "")
            ++ ";")
          (u32 (offset + fieldOffset)) indent offset_indent size_to_print)) ∧
    (2 ≤ dims.length → ∀ N, 1 ≤ N → dims.prod = (if rowMajor then rows else cols) * N →
      PrintFieldLayout hl type_sys comment (fuel + 1) (arrayOf dims base)
          ⟨name, fieldOffset, compName,
            some ⟨rows, cols, if rowMajor then .RowMajor else .ColumnMajor⟩⟩
          offset indent offset_indent size_to_print
        = .ok (leafLine comment
            ((if rowMajor then "row_major " else "column_major ")
              ++ compName ++ dec rows ++ "x" ++ dec cols ++ " " ++ name
              ++ "[" ++ dec N ++ "]" ++ ";")
            (u32 (offset + fieldOffset)) indent offset_indent size_to_print)) ∧
    (dims.length ≤ 1 →
      PrintFieldLayout hl type_sys comment (fuel + 1) (arrayOf dims base)
          ⟨name, fieldOffset, compName,
            some ⟨rows, cols, if rowMajor then .RowMajor else .ColumnMajor⟩⟩
          offset indent offset_indent size_to_print
        = .ok (leafLine comment
            ((if rowMajor then "row_major " else "column_major ")
              ++ compName ++ dec rows ++ "x" ++ dec cols ++ " " ++ name ++ ";")
            (u32 (offset + fieldOffset)) indent offset_indent size_to_print)) := by
  -- the divisor is a nonzero 32-bit value
  have hdpos : 0 < (if rowMajor then rows else cols) := hdiv
  -- the state after the array dimensions are stripped
  have hstrip : (if !hl.IsMatrixType (arrayOf dims base) && (arrayOf dims base).IsArrayType
        then stripArrays hl (arrayOf dims base) 1 0 else (arrayOf dims base, 0, 0))
      = (base, (if dims = [] then 0 else dims.prod), dims.length) := by
    cases dims with
    | nil => simp [arrayOf, hbase]
    | cons n ds =>
      have hty : arrayOf (n :: ds) base = .array (arrayOf ds base) n := rfl
      have h := stripArrays_arrayOf hl base hmat hbase (n :: ds) 1 0
      have hu1 : u32 1 = 1 := by decide
      have hu0 : u32 0 = 0 := by decide
      rw [hu1, hu0] at h
      rw [hty, hmat] at *
      simp only [Ty.IsArrayType, Bool.not_false, Bool.and_self, if_true]
      rw [h]
      simp only [Nat.one_mul, Nat.zero_add, reduceCtorEq, if_false, u32]
      rw [Nat.mod_eq_of_lt hfit, Nat.mod_eq_of_lt hlevels]
  have hsize : (if dims.length = 1 then 0
        else (if dims = [] then 0 else dims.prod) / (if rowMajor then rows else cols))
      = (if 2 ≤ dims.length then dims.prod / (if rowMajor then rows else cols) else 0) := by
    cases dims with
    | nil => simp
    | cons n ds =>
      cases ds with
      | nil => simp
      | cons m ms =>
        have h2 : 2 ≤ (n :: m :: ms).length := by simp
        have h1 : ¬ (n :: m :: ms).length = 1 := by simp
        simp only [h1, h2, reduceCtorEq, if_false, if_true]
  have hinfo : fieldArrayInfo hl (arrayOf dims base)
      ⟨name, fieldOffset, compName,
        some ⟨rows, cols, if rowMajor then .RowMajor else .ColumnMajor⟩⟩
      = .ok ((if base.IsVectorType then base.VectorElementType
          else if base.IsStructType then hl.GetMatrixInfo base else base),
        (if 2 ≤ dims.length then dims.prod / (if rowMajor then rows else cols) else 0)) := by
    unfold fieldArrayInfo
    rw [hstrip, ← hsize]
    cases rowMajor with
    | true =>
      simp only [if_true] at hdpos hdlt
      have hr : u32 rows = rows := Nat.mod_eq_of_lt hdlt
      have hr0 : ¬ rows = 0 := by omega
      simp only [if_true, hr, hr0, if_false, bind, Except.bind, pure, Except.pure]
    | false =>
      simp only [Bool.false_eq_true, if_false] at hdpos hdlt
      have hr : u32 cols = cols := Nat.mod_eq_of_lt hdlt
      have hr0 : ¬ cols = 0 := by omega
      simp only [Bool.false_eq_true, if_false, hr, hr0, bind, Except.bind, pure, Except.pure]
  have hleaf' := hleaf _ rfl
  have hname : GetTypeAndName (arrayOf dims base)
      ⟨name, fieldOffset, compName,
        some ⟨rows, cols, if rowMajor then .RowMajor else .ColumnMajor⟩⟩
      (if 2 ≤ dims.length then dims.prod / (if rowMajor then rows else cols) else 0)
      = .ok ((if rowMajor then "row_major " else "column_major ")
            ++ compName ++ dec rows ++ "x" ++ dec cols ++ " " ++ name
            ++ (if 2 ≤ dims.length ∧ dims.prod / (if rowMajor then rows else cols) ≠ 0 then
                  "[" ++ dec (dims.prod / (if rowMajor then rows else cols)) ++ "]"
                else "")
            ++ ";") := by
    clear hstrip hsize hinfo hleaf' hleaf
    generalize dims.prod / (if rowMajor then rows else cols) = quotient
    cases rowMajor <;> by_cases h2 : 2 ≤ dims.length <;> by_cases hq : quotient = 0 <;>
      simp [GetTypeAndName, h2, hq, bind, Except.bind, pure, Except.pure, String.append_assoc]
  have hmain : PrintFieldLayout hl type_sys comment (fuel + 1) (arrayOf dims base)
        ⟨name, fieldOffset, compName,
          some ⟨rows, cols, if rowMajor then .RowMajor else .ColumnMajor⟩⟩
        offset indent offset_indent size_to_print
      = .ok (leafLine comment
          ((if rowMajor then "row_major " else "column_major ")
            ++ compName ++ dec rows ++ "x" ++ dec cols ++ " " ++ name
            ++ (if 2 ≤ dims.length ∧ dims.prod / (if rowMajor then rows else cols) ≠ 0 then
                  "[" ++ dec (dims.prod / (if rowMajor then rows else cols)) ++ "]"
                else "")
            ++ ";")
          (u32 (offset + fieldOffset)) indent offset_indent size_to_print) := by
    simp only [PrintFieldLayout, DxilFieldAnnotation.HasMatrixAnnotation, Option.isSome,
      Bool.not_true, Bool.and_false, Bool.false_eq_true, if_false, hinfo, hleaf', hname,
      bind, Except.bind, pure, Except.pure]
  refine ⟨hmain, ?_, ?_⟩
  · intro h2 N hN hprod
    have hquot : dims.prod / (if rowMajor then rows else cols) = N := by
      rw [hprod]
      exact Nat.mul_div_cancel_left N hdpos
    have hN0 : N ≠ 0 := by omega
    rw [hmain, hquot]
    simp only [h2, hN0, ne_eq, not_false_eq_true, and_self, if_true, String.append_assoc]
  · intro h1
    have h2 : ¬ 2 ≤ dims.length := by omega
    rw [hmain]
    simp only [h2, false_and, if_false, String.append_empty]

/-- Claim C2, amended, on `float4x4 m[2]` lowered to `[2 x [4 x <4 x float>]]`, whose raw
length is 8 = 4×2 and whose suffix is `[2]`, and on a row-major field of 4 rows whose type
is the one array dimension `[3 x <4 x float>]`, printed without suffix. -/
theorem PrintFieldLayout_matrix_array_suffix_witness :
    PrintFieldLayout exampleHL emptyStore ";" (0 + 1)
        (arrayOf [2, 4] (.vector (.scalar "float") 4))
        ⟨"m", 0, "float", some ⟨4, 4, if true then .RowMajor else .ColumnMajor⟩⟩ 0 3 50 0
      = .ok (leafLine ";"
          ((if true then "row_major " else "column_major ")
            ++ "float" ++ dec 4 ++ "x" ++ dec 4 ++ " " ++ "m" ++ "[" ++ dec 2 ++ "]" ++ ";")
          (u32 (0 + 0)) 3 50 0)
    ∧ PrintFieldLayout exampleHL emptyStore ";" (0 + 1)
        (arrayOf [3] (.vector (.scalar "float") 4))
        ⟨"m", 0, "float", some ⟨4, 4, if true then .RowMajor else .ColumnMajor⟩⟩ 0 3 50 0
      = .ok (leafLine ";"
          ((if true then "row_major " else "column_major ")
            ++ "float" ++ dec 4 ++ "x" ++ dec 4 ++ " " ++ "m" ++ ";")
          (u32 (0 + 0)) 3 50 0) :=
  ⟨(PrintFieldLayout_matrix_array_suffix exampleHL emptyStore ";" 0 [2, 4]
      (.vector (.scalar "float") 4) "m" "float" 0 4 4 true 0 3 50 0
      (fun _ _ => rfl) rfl (fun _ h => by subst h; rfl) (by decide) (by decide) (by decide)
      (by decide)).2.1 (by decide) 2 (by decide) (by decide),
   (PrintFieldLayout_matrix_array_suffix exampleHL emptyStore ";" 0 [3]
      (.vector (.scalar "float") 4) "m" "float" 0 4 4 true 0 3 50 0
      (fun _ _ => rfl) rfl (fun _ h => by subst h; rfl) (by decide) (by decide) (by decide)
      (by decide)).2.2 (by decide)⟩

/-- `PrintStructLayout` on a struct with at least one element and no annotation record
dereferences the null pointer. -/
theorem PrintStructLayout_null_record (hl : HLMatrixLower) (type_sys : DxilTypeSystem)
    (comment : String) (fuel id : Nat) (name : String) (elementType : Ty) (elems : List Ty)
    (var_name : String) (offset indent offset_indent size_of_struct : Nat)
    (habsent : type_sys.GetStructAnnotation id = none) :
    PrintStructLayout hl type_sys comment (fuel + 1) (.struct id name (elementType :: elems))
        var_name offset indent offset_indent size_of_struct
      = .error .nullDeref := by
  simp only [PrintStructLayout, habsent, loopFrom, bind, Except.bind]

/-- Claim C3: on the constant buffer `cb` of type `Outer { int a; Inner s; }`, when the
store has the record of `Outer` and none of the nested struct `Inner`, the layout printer
does not print a placeholder line for `Inner`: `PrintStructLayout` dereferences the null
pointer it got from the store.  With no record for `Outer` either, the caller prints the
placeholder line. -/
theorem PrintCBufferDefinition_nested_annotation_absent :
    PrintCBufferDefinition exampleHL 4 exampleCBuffer partialStore ";"
      = .error .nullDeref
    ∧ PrintCBufferDefinition exampleHL 4 exampleCBuffer emptyStore ";"
      = .ok "; cbuffer cb\n; \x7b\n;\n;   [32 x i8] (type annotation not present)\n;\n; \x7d\n;\n" := by
  constructor <;> decide

/-- Claim C4, counterexample: for a struct without annotation record
`PrintTBufferDefinition` prints the placeholder line without a size. -/
theorem PrintTBufferDefinition_placeholder_counterexample :
    PrintTBufferDefinition exampleHL 4 exampleTBuffer emptyStore ";"
      = .ok "; tbuffer tb\n; \x7b\n;\n;   (type annotation not present)\n;\n; \x7d\n;\n" := by
  decide

/-- Claim C4, amended: when the struct has no annotation record, `PrintCBufferDefinition`
prints `[<size of the buffer> x i8] (type annotation not present)`,
`PrintStructBufferDefinition` prints `[<allocation size of the struct> x i8] (type
annotation not present)` on both of its paths (and leaves the store as it is), and
`PrintTBufferDefinition` prints `(type annotation not present)` without a size; none of
them prints a struct layout. -/
theorem layout_callers_annotation_absent (hl : HLMatrixLower) (fuel : Nat)
    (type_sys : DxilTypeSystem) (dl : DataLayout) (comment : String)
    (id : Nat) (name : String) (elems : List Ty)
    (habsent : type_sys.GetStructAnnotation id = none) :
    (∀ buff : DxilCBuffer,
      resourceElementType buff.GlobalSymbolPointee = .struct id name elems →
      PrintCBufferDefinition hl fuel buff type_sys comment
        = .ok (comment ++ " cbuffer " ++ buff.GlobalName ++ "\n"
            ++ comment ++ " \x7b\n" ++ comment ++ "\n"
            ++ comment ++ "   [" ++ dec buff.Size ++ " x i8] (type annotation not present)\n"
            ++ comment ++ "\n"
            ++ comment ++ " \x7d\n" ++ comment ++ "\n")) ∧
    (∀ buff : DxilResource,
      resourceElementType buff.GlobalSymbolPointee = .struct id name elems →
      PrintTBufferDefinition hl fuel buff type_sys comment
        = .ok (comment ++ " tbuffer " ++ buff.GlobalName ++ "\n"
            ++ comment ++ " \x7b\n" ++ comment ++ "\n"
            ++ comment ++ "   (type annotation not present)\n"
            ++ comment ++ "\n"
            ++ comment ++ " \x7d\n" ++ comment ++ "\n")) ∧
    (∀ buff : DxilResource,
      buff.RetType = .struct id name elems → hl.IsMatrixType buff.RetType = false →
      PrintStructBufferDefinition hl fuel buff type_sys dl comment
        = .ok (comment ++ " Resource bind info for " ++ buff.GlobalName ++ "\n"
            ++ comment ++ " \x7b\n" ++ comment ++ "\n"
            ++ comment ++ "   [" ++ dec (dl.TypeAllocSize buff.RetType)
            ++ " x i8] (type annotation not present)\n"
            ++ comment ++ " \x7d\n" ++ comment ++ "\n", type_sys)) ∧
    (∀ buff : DxilResource,
      (!buff.RetType.IsStructType || hl.IsMatrixType buff.RetType) = true →
      resourceElementType buff.GlobalSymbolPointee = .struct id name elems →
      PrintStructBufferDefinition hl fuel buff type_sys dl comment
        = .ok (comment ++ " Resource bind info for " ++ buff.GlobalName ++ "\n"
            ++ comment ++ " \x7b\n" ++ comment ++ "\n"
            ++ comment ++ "   [" ++ dec (dl.TypeAllocSize (.struct id name elems))
            ++ " x i8] (type annotation not present)\n"
            ++ comment ++ "\n"
            ++ comment ++ " \x7d\n" ++ comment ++ "\n", type_sys)) := by
  refine ⟨?_, ?_, ?_, ?_⟩
  · intro buff hty
    simp only [PrintCBufferDefinition, hty, castStructType, habsent, bind, Except.bind, pure,
      Except.pure, String.append_assoc]
  · intro buff hty
    simp only [PrintTBufferDefinition, hty, castStructType, habsent, bind, Except.bind, pure,
      Except.pure, String.append_assoc]
  · intro buff hret hm
    have hs : buff.RetType.IsStructType = true := by rw [hret]; rfl
    have hc : (!buff.RetType.IsStructType || hl.IsMatrixType buff.RetType) = false := by
      rw [hs, hm]
      rfl
    simp only [PrintStructBufferDefinition, hc, Bool.false_eq_true, if_false, bind,
      Except.bind, pure, Except.pure]
    rw [hret]
    simp only [castStructType, habsent, String.append_assoc]
  · intro buff hc hty
    simp only [PrintStructBufferDefinition, hc, if_true, hty, castStructType, habsent, bind,
      Except.bind, pure, Except.pure, String.append_assoc]

/-- Claim C4, amended, on the buffers of the example with an empty store. -/
theorem layout_callers_annotation_absent_witness :
    PrintCBufferDefinition exampleHL 0 exampleCBuffer emptyStore ";"
        = .ok (";" ++ " cbuffer " ++ "cb" ++ "\n"
            ++ ";" ++ " \x7b\n" ++ ";" ++ "\n"
            ++ ";" ++ "   [" ++ dec 32 ++ " x i8] (type annotation not present)\n"
            ++ ";" ++ "\n"
            ++ ";" ++ " \x7d\n" ++ ";" ++ "\n") :=
  (layout_callers_annotation_absent exampleHL 0 emptyStore exampleDataLayout ";" 1 "Outer"
    [.scalar "int", exampleInner] rfl).1 exampleCBuffer rfl

/-- The loop of `GetTypeAndName` over the array dimensions ends at the type below them. -/
theorem stripAllArrays_arrayOf (base : Ty) (hbase : base.IsArrayType = false) :
    ∀ dims : List Nat, stripAllArrays (arrayOf dims base) = base := by
  intro dims
  induction dims with
  | nil =>
    cases base with
    | array elt n => simp [Ty.IsArrayType] at hbase
    | scalar name => rfl
    | vector elt n => rfl
    | struct id name elems => rfl
  | cons n ds ih =>
    have hty : arrayOf (n :: ds) base = .array (arrayOf ds base) n := rfl
    rw [hty]
    simp only [stripAllArrays]
    exact ih

/-- Claim C26: a field that `PrintFieldLayout` prints as one line (it is no struct without
matrix annotation, and its element type is no plain struct), of a type with the array
dimensions `dims` over the type `base`, is written as the indentation, then, padded to the
name column, the component-type name (between `row_major ` or `column_major ` and
`<rows>x<cols>` for a field with a matrix annotation, else followed by the number of
elements of `base` when `base`, the type without its array dimensions, is a vector), a
blank, the field name, `[N]` exactly when the array size `N` is not 0, and `;`; then the
`Offset:` column right-aligned to width 5, and the `Size:` column exactly when the size
passed in is not 0. -/
theorem PrintFieldLayout_leaf_line (hl : HLMatrixLower) (type_sys : DxilTypeSystem)
    (comment : String) (fuel : Nat) (dims : List Nat) (base : Ty)
    ( annotation : DxilFieldAnnotation)
    (offset indent offset_indent size_to_print : Nat) (elt_ty : Ty) (array_size : Nat)
    (hbase : base.IsArrayType = false)
    (hcond : ((arrayOf dims base).IsStructType && ! annotation.HasMatrixAnnotation) = false)
    (hinfo : fieldArrayInfo hl (arrayOf dims base) annotation = .ok (elt_ty, array_size))
    (hleaf : (!hl.IsMatrixType elt_ty && elt_ty.IsStructType) = false) :
    PrintFieldLayout hl type_sys comment (fuel + 1) (arrayOf dims base) annotation offset indent
        offset_indent size_to_print
      = .ok (comment ++ spaces indent
          ++ setwLeft (setwArg offset_indent)
            ((match annotation.MatrixAnnotation with
              | some matrix =>
                (if matrix.orientation = .RowMajor then "row_major " else "column_major ")
                  ++ annotation.CompTypeHLSLName ++ dec matrix.rows ++ "x" ++ dec matrix.cols
              | none =>
                annotation.CompTypeHLSLName
                  ++ (if base.IsVectorType then dec base.VectorNumElements else ""))
              ++ " " ++ annotation.FieldName
              ++ (if array_size ≠ 0 then "[" ++ dec array_size ++ "]" else "")
              ++ ";")
          ++ comment ++ " Offset:" ++ setwRight 5 (dec (u32 (offset + annotation.CBufferOffset)))
          ++ (if size_to_print ≠ 0 then " Size: " ++ setwRight 5 (dec size_to_print) else "")
          ++ "\n") := by
  have hstrip := stripAllArrays_arrayOf base hbase dims
  have hname : GetTypeAndName (arrayOf dims base) annotation array_size
      = .ok ((match annotation.MatrixAnnotation with
              | some matrix =>
                (if matrix.orientation = .RowMajor then "row_major " else "column_major ")
                  ++ annotation.CompTypeHLSLName ++ dec matrix.rows ++ "x" ++ dec matrix.cols
              | none =>
                annotation.CompTypeHLSLName
                  ++ (if base.IsVectorType then dec base.VectorNumElements else ""))
              ++ " " ++ annotation.FieldName
              ++ (if array_size ≠ 0 then "[" ++ dec array_size ++ "]" else "")
              ++ ";") := by
    cases hm : annotation.MatrixAnnotation with
    | none =>
      by_cases hv : base.IsVectorType = true <;> by_cases hz : array_size = 0 <;>
        simp [GetTypeAndName, hm, hstrip, hv, hz, bind, Except.bind, pure, Except.pure,
          String.append_assoc]
    | some matrix =>
      cases ho : matrix.orientation with
      | Undefined =>
        simp [fieldArrayInfo, hm, ho, bind, Except.bind, throw, throwThe, MonadExceptOf.throw]
          at hinfo
      | RowMajor =>
        by_cases hz : array_size = 0 <;>
          simp [GetTypeAndName, hm, ho, hz, bind, Except.bind, pure, Except.pure,
            String.append_assoc]
      | ColumnMajor =>
        by_cases hz : array_size = 0 <;>
          simp [GetTypeAndName, hm, ho, hz, bind, Except.bind, pure, Except.pure,
            String.append_assoc]
  simp only [PrintFieldLayout, hcond, hinfo, hleaf, hname, leafLine, sizeColumn, bind,
    Except.bind, pure, Except.pure, Bool.false_eq_true, if_false, String.append_assoc]

set_option maxRecDepth 100000 in
/-- Claim C26, on the row-major field `float4x4 m[2]` at offset 16 of a struct at offset 32,
printed with the size 128, on the field `float3 v`, and on the field `float3 w[2]` of type
`[2 x <3 x float>]`, whose element count 3 is read below the array dimension. -/
theorem PrintFieldLayout_leaf_line_witness :
    PrintFieldLayout exampleHL emptyStore ";" (0 + 1)
        (arrayOf [2, 4] (.vector (.scalar "float") 4))
        ⟨"m", 16, "float", some ⟨4, 4, .RowMajor⟩⟩ 32 3 50 128
      = .ok ";   row_major float4x4 m[2];                          ; Offset:   48 Size:   128\n"
    ∧ PrintFieldLayout exampleHL emptyStore ";" (0 + 1) (arrayOf [] (.vector (.scalar "float") 3))
        ⟨"v", 4, "float", none⟩ 0 3 50 0
      = .ok ";   float3 v;                                         ; Offset:    4\n"
    ∧ PrintFieldLayout exampleHL emptyStore ";" (0 + 1)
        (arrayOf [2] (.vector (.scalar "float") 3)) ⟨"w", 8, "float", none⟩ 0 3 50 0
      = .ok ";   float3 w[2];                                      ; Offset:    8\n" := by
  refine ⟨?_, ?_, ?_⟩
  · rw [PrintFieldLayout_leaf_line exampleHL emptyStore ";" 0 [2, 4]
      (.vector (.scalar "float") 4)
      ⟨"m", 16, "float", some ⟨4, 4, .RowMajor⟩⟩ 32 3 50 128 (.scalar "float") 2
      rfl rfl rfl rfl]
    decide
  · rw [PrintFieldLayout_leaf_line exampleHL emptyStore ";" 0 [] (.vector (.scalar "float") 3)
      ⟨"v", 4, "float", none⟩ 0 3 50 0 (.vector (.scalar "float") 3) 0
      rfl rfl rfl rfl]
    decide
  · rw [PrintFieldLayout_leaf_line exampleHL emptyStore ";" 0 [2] (.vector (.scalar "float") 3)
      ⟨"w", 8, "float", none⟩ 0 3 50 0 (.vector (.scalar "float") 3) 2
      rfl rfl rfl rfl]
    decide

/-- Claim C30: for a field with a matrix annotation, `PrintFieldLayout` divides the running
array count by `rows` (row-major) or `cols` (column-major), a truncating division of
unsigned integers, without a test of the divisor: the division is a division by zero
exactly when that dimension is 0, so that with `rows ≥ 1` and `cols ≥ 1` there is none; the
array size is the quotient, unless there is exactly one array dimension, and a field
without array dimension keeps the array size 0. -/
theorem fieldArrayInfo_matrix_division (hl : HLMatrixLower) (ty : Ty)
    ( annotation : DxilFieldAnnotation) (matrix : DxilMatrixAnnotation)
    (hm : annotation.MatrixAnnotation = some matrix)
    (hrows : matrix.rows < 2 ^ 32) (hcols : matrix.cols < 2 ^ 32) :
    (matrix.orientation = .RowMajor →
      fieldArrayInfo hl ty annotation
        = (if matrix.rows = 0 then .error .divByZero
           else .ok
            ((if (if !hl.IsMatrixType ty && ty.IsArrayType then stripArrays hl ty 1 0
                  else (ty, 0, 0)).1.IsVectorType then
                (if !hl.IsMatrixType ty && ty.IsArrayType then stripArrays hl ty 1 0
                  else (ty, 0, 0)).1.VectorElementType
              else if (if !hl.IsMatrixType ty && ty.IsArrayType then stripArrays hl ty 1 0
                  else (ty, 0, 0)).1.IsStructType then
                hl.GetMatrixInfo (if !hl.IsMatrixType ty && ty.IsArrayType then
                  stripArrays hl ty 1 0 else (ty, 0, 0)).1
              else (if !hl.IsMatrixType ty && ty.IsArrayType then stripArrays hl ty 1 0
                  else (ty, 0, 0)).1),
             (if (if !hl.IsMatrixType ty && ty.IsArrayType then stripArrays hl ty 1 0
                  else (ty, 0, 0)).2.2 = 1 then 0
              else (if !hl.IsMatrixType ty && ty.IsArrayType then stripArrays hl ty 1 0
                  else (ty, 0, 0)).2.1 / matrix.rows)))) ∧
    (matrix.orientation = .ColumnMajor →
      fieldArrayInfo hl ty annotation
        = (if matrix.cols = 0 then .error .divByZero
           else .ok
            ((if (if !hl.IsMatrixType ty && ty.IsArrayType then stripArrays hl ty 1 0
                  else (ty, 0, 0)).1.IsVectorType then
                (if !hl.IsMatrixType ty && ty.IsArrayType then stripArrays hl ty 1 0
                  else (ty, 0, 0)).1.VectorElementType
              else if (if !hl.IsMatrixType ty && ty.IsArrayType then stripArrays hl ty 1 0
                  else (ty, 0, 0)).1.IsStructType then
                hl.GetMatrixInfo (if !hl.IsMatrixType ty && ty.IsArrayType then
                  stripArrays hl ty 1 0 else (ty, 0, 0)).1
              else (if !hl.IsMatrixType ty && ty.IsArrayType then stripArrays hl ty 1 0
                  else (ty, 0, 0)).1),
             (if (if !hl.IsMatrixType ty && ty.IsArrayType then stripArrays hl ty 1 0
                  else (ty, 0, 0)).2.2 = 1 then 0
              else (if !hl.IsMatrixType ty && ty.IsArrayType then stripArrays hl ty 1 0
                  else (ty, 0, 0)).2.1 / matrix.cols)))) ∧
    (fieldArrayInfo hl ty annotation = .error .divByZero
      ↔ (matrix.orientation = .RowMajor ∧ matrix.rows = 0)
        ∨ (matrix.orientation = .ColumnMajor ∧ matrix.cols = 0)) ∧
    (1 ≤ matrix.rows → 1 ≤ matrix.cols →
      fieldArrayInfo hl ty annotation ≠ .error .divByZero) ∧
    ((!hl.IsMatrixType ty && ty.IsArrayType) = false →
      ∀ (elt_ty : Ty) (array_size : Nat),
        fieldArrayInfo hl ty annotation = .ok (elt_ty, array_size) → array_size = 0) := by
  have hr : u32 matrix.rows = matrix.rows := Nat.mod_eq_of_lt hrows
  have hc : u32 matrix.cols = matrix.cols := Nat.mod_eq_of_lt hcols
  have hrow : matrix.orientation = .RowMajor →
      fieldArrayInfo hl ty annotation
        = (if matrix.rows = 0 then .error .divByZero
           else .ok
            ((if (if !hl.IsMatrixType ty && ty.IsArrayType then stripArrays hl ty 1 0
                  else (ty, 0, 0)).1.IsVectorType then
                (if !hl.IsMatrixType ty && ty.IsArrayType then stripArrays hl ty 1 0
                  else (ty, 0, 0)).1.VectorElementType
              else if (if !hl.IsMatrixType ty && ty.IsArrayType then stripArrays hl ty 1 0
                  else (ty, 0, 0)).1.IsStructType then
                hl.GetMatrixInfo (if !hl.IsMatrixType ty && ty.IsArrayType then
                  stripArrays hl ty 1 0 else (ty, 0, 0)).1
              else (if !hl.IsMatrixType ty && ty.IsArrayType then stripArrays hl ty 1 0
                  else (ty, 0, 0)).1),
             (if (if !hl.IsMatrixType ty && ty.IsArrayType then stripArrays hl ty 1 0
                  else (ty, 0, 0)).2.2 = 1 then 0
              else (if !hl.IsMatrixType ty && ty.IsArrayType then stripArrays hl ty 1 0
                  else (ty, 0, 0)).2.1 / matrix.rows))) := by
    intro ho
    unfold fieldArrayInfo
    by_cases hz : matrix.rows = 0
    · simp [hm, ho, hz, u32, bind, Except.bind, throw, throwThe, MonadExceptOf.throw]
    · simp [hm, ho, hr, hz, bind, Except.bind, pure, Except.pure]
  have hcol : matrix.orientation = .ColumnMajor →
      fieldArrayInfo hl ty annotation
        = (if matrix.cols = 0 then .error .divByZero
           else .ok
            ((if (if !hl.IsMatrixType ty && ty.IsArrayType then stripArrays hl ty 1 0
                  else (ty, 0, 0)).1.IsVectorType then
                (if !hl.IsMatrixType ty && ty.IsArrayType then stripArrays hl ty 1 0
                  else (ty, 0, 0)).1.VectorElementType
              else if (if !hl.IsMatrixType ty && ty.IsArrayType then stripArrays hl ty 1 0
                  else (ty, 0, 0)).1.IsStructType then
                hl.GetMatrixInfo (if !hl.IsMatrixType ty && ty.IsArrayType then
                  stripArrays hl ty 1 0 else (ty, 0, 0)).1
              else (if !hl.IsMatrixType ty && ty.IsArrayType then stripArrays hl ty 1 0
                  else (ty, 0, 0)).1),
             (if (if !hl.IsMatrixType ty && ty.IsArrayType then stripArrays hl ty 1 0
                  else (ty, 0, 0)).2.2 = 1 then 0
              else (if !hl.IsMatrixType ty && ty.IsArrayType then stripArrays hl ty 1 0
                  else (ty, 0, 0)).2.1 / matrix.cols))) := by
    intro ho
    unfold fieldArrayInfo
    by_cases hz : matrix.cols = 0
    · simp [hm, ho, hz, u32, bind, Except.bind, throw, throwThe, MonadExceptOf.throw]
    · simp [hm, ho, hc, hz, bind, Except.bind, pure, Except.pure]
  have hundef : matrix.orientation = .Undefined →
      fieldArrayInfo hl ty annotation = .error .unreachable := by
    intro ho
    unfold fieldArrayInfo
    simp [hm, ho, bind, Except.bind, throw, throwThe, MonadExceptOf.throw]
  have hiff : fieldArrayInfo hl ty annotation = .error .divByZero
      ↔ (matrix.orientation = .RowMajor ∧ matrix.rows = 0)
        ∨ (matrix.orientation = .ColumnMajor ∧ matrix.cols = 0) := by
    cases ho : matrix.orientation with
    | Undefined =>
      rw [hundef ho]
      simp
    | RowMajor =>
      rw [hrow ho]
      by_cases hz : matrix.rows = 0 <;> simp [hz]
    | ColumnMajor =>
      rw [hcol ho]
      by_cases hz : matrix.cols = 0 <;> simp [hz]
  refine ⟨hrow, hcol, hiff, ?_, ?_⟩
  · intro h1 h2 hdiv
    rcases hiff.mp hdiv with ⟨_, h0⟩ | ⟨_, h0⟩ <;> omega
  · intro hna elt_ty array_size hok
    cases ho : matrix.orientation with
    | Undefined =>
      rw [hundef ho] at hok
      cases hok
    | RowMajor =>
      rw [hrow ho, hna] at hok
      by_cases hz : matrix.rows = 0
      · simp [hz] at hok
      · simp [hz] at hok
        exact hok.2.symm
    | ColumnMajor =>
      rw [hcol ho, hna] at hok
      by_cases hz : matrix.cols = 0
      · simp [hz] at hok
      · simp [hz] at hok
        exact hok.2.symm

/-- Claim C30, on a row-major matrix annotation with 4 rows over the type
`[3 x [6 x <4 x float>]]`: the running count 18 divided by 4 gives the array size 4; with
0 rows the division is a division by zero. -/
theorem fieldArrayInfo_matrix_division_witness :
    fieldArrayInfo exampleHL (arrayOf [3, 6] (.vector (.scalar "float") 4))
        ⟨"m", 0, "float", some ⟨4, 4, .RowMajor⟩⟩
      = .ok (.scalar "float", 4)
    ∧ fieldArrayInfo exampleHL (arrayOf [3, 6] (.vector (.scalar "float") 4))
        ⟨"m", 0, "float", some ⟨0, 4, .RowMajor⟩⟩
      = .error .divByZero := by
  constructor
  · rw [(fieldArrayInfo_matrix_division exampleHL (arrayOf [3, 6] (.vector (.scalar "float") 4))
      ⟨"m", 0, "float", some ⟨4, 4, .RowMajor⟩⟩ ⟨4, 4, .RowMajor⟩ rfl (by decide)
      (by decide)).1 rfl]
    rfl
  · exact (fieldArrayInfo_matrix_division exampleHL
      (arrayOf [3, 6] (.vector (.scalar "float") 4))
      ⟨"m", 0, "float", some ⟨0, 4, .RowMajor⟩⟩ ⟨0, 4, .RowMajor⟩ rfl (by decide)
      (by decide)).2.2.1.mpr (Or.inl ⟨rfl, rfl⟩)

/-! ## Termination of the layout recursion -/

/-- The text of `GetTypeAndName` ends with the field name, the array suffix and `;`. -/
theorem GetTypeAndName_ok_shape (ty : Ty) ( annotation : DxilFieldAnnotation)
    (array_size : Nat) (type_and_name : String)
    (h : GetTypeAndName ty annotation array_size = .ok type_and_name) :
    ∃ type_text : String,
      type_and_name = type_text ++ " " ++ annotation.FieldName
        ++ (if array_size ≠ 0 then "[" ++ dec array_size ++ "]" else "") ++ ";" := by
  unfold GetTypeAndName at h
  cases hm : annotation.MatrixAnnotation with
  | none =>
    rw [hm] at h
    by_cases hv : (stripAllArrays ty).IsVectorType = true
    · simp only [hv, if_true, bind, Except.bind, pure, Except.pure] at h
      injection h with h
      refine ⟨ annotation.CompTypeHLSLName ++ dec (stripAllArrays ty).VectorNumElements, ?_⟩
      rw [← h]
      by_cases hz : array_size = 0 <;> simp [hz, String.append_assoc]
    · simp only [hv, if_false, bind, Except.bind, pure, Except.pure] at h
      injection h with h
      refine ⟨ annotation.CompTypeHLSLName, ?_⟩
      rw [← h]
      by_cases hz : array_size = 0 <;> simp [hz, String.append_assoc]
  | some matrix =>
    rw [hm] at h
    cases ho : matrix.orientation with
    | Undefined =>
      simp only [ho, bind, Except.bind, throw, throwThe, MonadExceptOf.throw] at h
      cases h
    | RowMajor =>
      simp only [ho, bind, Except.bind, pure, Except.pure] at h
      injection h with h
      refine ⟨"row_major " ++ annotation.CompTypeHLSLName ++ dec matrix.rows ++ "x"
        ++ dec matrix.cols, ?_⟩
      rw [← h]
      by_cases hz : array_size = 0 <;> simp [hz, String.append_assoc]
    | ColumnMajor =>
      simp only [ho, bind, Except.bind, pure, Except.pure] at h
      injection h with h
      refine ⟨"column_major " ++ annotation.CompTypeHLSLName ++ dec matrix.rows ++ "x"
        ++ dec matrix.cols, ?_⟩
      rw [← h]
      by_cases hz : array_size = 0 <;> simp [hz, String.append_assoc]

set_option maxRecDepth 100000 in
/-- Claim C19, counterexample: for a structured buffer whose element type is the vector
`<4 x float>` and whose buffer struct has no annotation record, the placeholder line is
printed and no `$Element` line; for one whose element type is the array `[2 x Inner]` (not
a struct) a struct block closed by `$Element[2];` is printed. -/
theorem PrintStructBufferDefinition_element_counterexample :
    (PrintStructBufferDefinition exampleHL 4
        { exampleSRV with RetType := .vector (.scalar "float") 4 }
        emptyStore exampleDataLayout ";").map Prod.fst
      = .ok "; Resource bind info for sb\n; \x7b\n;\n;   [32 x i8] (type annotation not present)\n;\n; \x7d\n;\n"
    ∧ (PrintStructBufferDefinition exampleHL 4
        { exampleSRV with RetType := .array exampleInner 2 }
        exampleStore exampleDataLayout ";").map Prod.fst
      = .ok "; Resource bind info for sb\n; \x7b\n;\n;   struct Inner\n;   \x7b\n;\n;                                                  float x;                                      ; Offset:    0\n;                                                  float3 v;                                     ; Offset:    4\n;   \n;   \x7d $Element[2];                                    ; Offset:    0\n;\n;\n; \x7d\n;\n" := by
  constructor <;> decide

/-- Claim C19, amended: for an element type that is not a struct, or is a lowered matrix
type, `PrintStructBufferDefinition` looks up the record of the struct type of the buffer.
Without a record it writes the placeholder line.  With a record it renames the first
field of the record `$Element` in the store and writes what `PrintFieldLayout` writes for
the element type with that field: one field line named `$Element`, at the offset of the
field and with the allocation size of the buffer's struct type in the Size column, when
`PrintFieldLayout` treats the element as a leaf (the element type is no struct or the
field has a matrix annotation, and the element type it computes is no plain struct); the
struct block of the element type, closed by `$Element`, when the element type is a
(lowered matrix) struct and the field has no matrix annotation; the struct block of the
computed element type, closed by `$Element;` or `$Element[N];`, when that type is a plain
struct.  When the element type is a struct, not a lowered matrix, with an annotation
record, it writes the layout of that struct at offset 0, closed by `$Element;`, with the
allocation size of the element type. -/
theorem PrintStructBufferDefinition_element (hl : HLMatrixLower) (fuel : Nat)
    (buff : DxilResource) (type_sys : DxilTypeSystem) (dl : DataLayout) (comment : String) :
    (∀ (id : Nat) (name : String) (elems : List Ty) (a : DxilStructAnnotation)
        (field : DxilFieldAnnotation) (elt_ty : Ty) (array_size : Nat) (type_and_name : String),
      (!buff.RetType.IsStructType || hl.IsMatrixType buff.RetType) = true →
      resourceElementType buff.GlobalSymbolPointee = .struct id name elems →
      type_sys.GetStructAnnotation id = some a →
      a.fields[0]? = some field →
      (buff.RetType.IsStructType && !field.HasMatrixAnnotation) = false →
      fieldArrayInfo hl buff.RetType { field with FieldName := "$Element" }
        = .ok (elt_ty, array_size) →
      (!hl.IsMatrixType elt_ty && elt_ty.IsStructType) = false →
      GetTypeAndName buff.RetType { field with FieldName := "$Element" } array_size
        = .ok type_and_name →
      (∃ type_text : String,
        type_and_name = type_text ++ " " ++ "$Element"
          ++ (if array_size ≠ 0 then "[" ++ dec array_size ++ "]" else "") ++ ";") ∧
      PrintStructBufferDefinition hl (fuel + 1) buff type_sys dl comment
        = .ok (comment ++ " Resource bind info for " ++ buff.GlobalName ++ "\n"
            ++ comment ++ " \x7b\n" ++ comment ++ "\n"
            ++ (comment ++ spaces 3 ++ setwLeft 50 type_and_name
              ++ comment ++ " Offset:" ++ setwRight 5 (dec (u32 (0 + field.CBufferOffset)))
              ++ (if dl.TypeAllocSize (.struct id name elems) ≠ 0 then
                    " Size: " ++ setwRight 5 (dec (dl.TypeAllocSize (.struct id name elems)))
                  else "")
              ++ "\n")
            ++ comment ++ "\n"
            ++ comment ++ " \x7d\n" ++ comment ++ "\n",
          type_sys.SetFieldName0 id "$Element")) ∧
    (∀ (id : Nat) (name : String) (elems : List Ty) (a : DxilStructAnnotation)
        (layout : String),
      buff.RetType = .struct id name elems →
      hl.IsMatrixType buff.RetType = false →
      type_sys.GetStructAnnotation id = some a →
      PrintStructLayout hl type_sys comment fuel buff.RetType "$Element;" 0 3 50
        (dl.TypeAllocSize buff.RetType) = .ok layout →
      (∃ fields : String,
        layout = structOpen comment name 3 ++ fields
          ++ structClose comment "$Element;" 0 3 50 (dl.TypeAllocSize buff.RetType)) ∧
      PrintStructBufferDefinition hl fuel buff type_sys dl comment
        = .ok (comment ++ " Resource bind info for " ++ buff.GlobalName ++ "\n"
            ++ comment ++ " \x7b\n" ++ comment ++ "\n"
            ++ layout
            ++ comment ++ " \x7d\n" ++ comment ++ "\n", type_sys)) ∧
    (∀ (id : Nat) (name : String) (elems : List Ty),
      (!buff.RetType.IsStructType || hl.IsMatrixType buff.RetType) = true →
      resourceElementType buff.GlobalSymbolPointee = .struct id name elems →
      type_sys.GetStructAnnotation id = none →
      PrintStructBufferDefinition hl fuel buff type_sys dl comment
        = .ok (comment ++ " Resource bind info for " ++ buff.GlobalName ++ "\n"
            ++ comment ++ " \x7b\n" ++ comment ++ "\n"
            ++ comment ++ "   [" ++ dec (dl.TypeAllocSize (.struct id name elems))
            ++ " x i8] (type annotation not present)\n"
            ++ comment ++ "\n"
            ++ comment ++ " \x7d\n" ++ comment ++ "\n", type_sys)) ∧
    (∀ (id : Nat) (name : String) (elems : List Ty) (a : DxilStructAnnotation)
        (field : DxilFieldAnnotation),
      (!buff.RetType.IsStructType || hl.IsMatrixType buff.RetType) = true →
      resourceElementType buff.GlobalSymbolPointee = .struct id name elems →
      type_sys.GetStructAnnotation id = some a →
      a.fields[0]? = some field →
      PrintStructBufferDefinition hl fuel buff type_sys dl comment
        = (PrintFieldLayout hl (type_sys.SetFieldName0 id "$Element") comment fuel buff.RetType
            { field with FieldName := "$Element" } 0 3 50
            (dl.TypeAllocSize (.struct id name elems))).map
          (fun layout =>
            (comment ++ " Resource bind info for " ++ buff.GlobalName ++ "\n"
              ++ comment ++ " \x7b\n" ++ comment ++ "\n"
              ++ layout
              ++ comment ++ "\n"
              ++ comment ++ " \x7d\n" ++ comment ++ "\n",
            type_sys.SetFieldName0 id "$Element"))) ∧
    (∀ (id : Nat) (name : String) (elems : List Ty) (a : DxilStructAnnotation)
        (field : DxilFieldAnnotation),
      (!buff.RetType.IsStructType || hl.IsMatrixType buff.RetType) = true →
      resourceElementType buff.GlobalSymbolPointee = .struct id name elems →
      type_sys.GetStructAnnotation id = some a →
      a.fields[0]? = some field →
      (buff.RetType.IsStructType && !field.HasMatrixAnnotation) = true →
      PrintStructBufferDefinition hl (fuel + 1) buff type_sys dl comment
        = (PrintStructLayout hl (type_sys.SetFieldName0 id "$Element") comment fuel buff.RetType
            "$Element" (u32 (0 + field.CBufferOffset)) 3 50 0).map
          (fun layout =>
            (comment ++ " Resource bind info for " ++ buff.GlobalName ++ "\n"
              ++ comment ++ " \x7b\n" ++ comment ++ "\n"
              ++ layout
              ++ comment ++ "\n"
              ++ comment ++ " \x7d\n" ++ comment ++ "\n",
            type_sys.SetFieldName0 id "$Element"))) ∧
    (∀ (id : Nat) (name : String) (elems : List Ty) (a : DxilStructAnnotation)
        (field : DxilFieldAnnotation) (elt_ty : Ty) (array_size : Nat),
      (!buff.RetType.IsStructType || hl.IsMatrixType buff.RetType) = true →
      resourceElementType buff.GlobalSymbolPointee = .struct id name elems →
      type_sys.GetStructAnnotation id = some a →
      a.fields[0]? = some field →
      (buff.RetType.IsStructType && !field.HasMatrixAnnotation) = false →
      fieldArrayInfo hl buff.RetType { field with FieldName := "$Element" }
        = .ok (elt_ty, array_size) →
      (!hl.IsMatrixType elt_ty && elt_ty.IsStructType) = true →
      PrintStructBufferDefinition hl (fuel + 1) buff type_sys dl comment
        = (PrintStructLayout hl (type_sys.SetFieldName0 id "$Element") comment fuel elt_ty
            ("$Element" ++ (if array_size ≠ 0 then "[" ++ dec array_size ++ "]" else "") ++ ";")
            (u32 (0 + field.CBufferOffset)) 3 50 0).map
          (fun layout =>
            (comment ++ " Resource bind info for " ++ buff.GlobalName ++ "\n"
              ++ comment ++ " \x7b\n" ++ comment ++ "\n"
              ++ layout
              ++ comment ++ "\n"
              ++ comment ++ " \x7d\n" ++ comment ++ "\n",
            type_sys.SetFieldName0 id "$Element"))) := by
  have hw : setwArg 50 = 50 := by decide
  refine ⟨?_, ?_, ?_, ?_, ?_, ?_⟩
  · intro id name elems a field elt_ty array_size type_and_name hcase hty ha hf hns hinfo
      hleaf hname
    refine ⟨GetTypeAndName_ok_shape _ _ _ _ hname, ?_⟩
    have hns' : (buff.RetType.IsStructType
        && ! DxilFieldAnnotation.HasMatrixAnnotation { field with FieldName := "$Element" })
        = false := hns
    simp only [PrintStructBufferDefinition, hcase, if_true, hty, castStructType, ha, hf,
      PrintFieldLayout, hns', hinfo, hleaf, hname, leafLine, sizeColumn, hw, bind, Except.bind,
      pure, Except.pure, Bool.false_eq_true, if_false, String.append_assoc]
  · intro id name elems a layout hret hm ha hlay
    have hs : buff.RetType.IsStructType = true := by rw [hret]; rfl
    have hc : (!buff.RetType.IsStructType || hl.IsMatrixType buff.RetType) = false := by
      rw [hs, hm]
      rfl
    constructor
    · rw [hret] at hlay
      cases fuel with
      | zero => simp [PrintStructLayout] at hlay
      | succ f =>
        simp only [PrintStructLayout, bind, Except.bind, pure, Except.pure] at hlay
        split at hlay
        · cases hlay
        · rename_i fields _
          injection hlay with hlay
          exact ⟨fields, by rw [← hlay, hret]⟩
    · simp only [PrintStructBufferDefinition, hc, Bool.false_eq_true, if_false, bind,
        Except.bind, pure, Except.pure]
      rw [hret] at hlay ⊢
      simp only [castStructType, ha, hlay, String.append_assoc]
  · intro id name elems hcase hty ha
    simp only [PrintStructBufferDefinition, hcase, if_true, hty, castStructType, ha, bind,
      Except.bind, pure, Except.pure, String.append_assoc]
  · intro id name elems a field hcase hty ha hf
    simp only [PrintStructBufferDefinition, hcase, if_true, hty, castStructType, ha, hf, bind,
      Except.bind, pure, Except.pure]
    cases PrintFieldLayout hl (type_sys.SetFieldName0 id "$Element") comment fuel buff.RetType
        { field with FieldName := "$Element" } 0 3 50
        (dl.TypeAllocSize (.struct id name elems)) with
    | error e => rfl
    | ok layout => simp only [Except.map, String.append_assoc]
  · intro id name elems a field hcase hty ha hf hns
    have hns' : (buff.RetType.IsStructType
        && ! DxilFieldAnnotation.HasMatrixAnnotation { field with FieldName := "$Element" })
        = true := hns
    simp only [PrintStructBufferDefinition, hcase, if_true, hty, castStructType, ha, hf,
      PrintFieldLayout, hns', bind, Except.bind, pure, Except.pure]
    cases PrintStructLayout hl (type_sys.SetFieldName0 id "$Element") comment fuel buff.RetType
        "$Element" (u32 (0 + field.CBufferOffset)) 3 50 0 with
    | error e => rfl
    | ok layout => simp only [Except.map, String.append_assoc]
  · intro id name elems a field elt_ty array_size hcase hty ha hf hns hinfo hnested
    have hns' : (buff.RetType.IsStructType
        && ! DxilFieldAnnotation.HasMatrixAnnotation { field with FieldName := "$Element" })
        = false := hns
    simp only [PrintStructBufferDefinition, hcase, if_true, hty, castStructType, ha, hf,
      PrintFieldLayout, hns', hinfo, hnested, bind, Except.bind, pure, Except.pure,
      Bool.false_eq_true, if_false]
    have hnm : ((if array_size ≠ 0 then "$Element" ++ "[" ++ dec array_size ++ "]"
        else "$Element") ++ ";")
        = "$Element" ++ (if array_size ≠ 0 then "[" ++ dec array_size ++ "]" else "") ++ ";" := by
      by_cases hz : array_size ≠ 0
      · simp only [if_pos hz, String.append_assoc]
      · simp only [if_neg hz, String.append_empty]
    rw [hnm]
    cases PrintStructLayout hl (type_sys.SetFieldName0 id "$Element") comment fuel elt_ty
        ("$Element" ++ (if array_size ≠ 0 then "[" ++ dec array_size ++ "]" else "") ++ ";")
        (u32 (0 + field.CBufferOffset)) 3 50 0 with
    | error e => rfl
    | ok layout => simp only [Except.map, String.append_assoc]

set_option maxRecDepth 100000 in
/-- Claim C19, amended, on the structured buffer `sb`: with the element type `<4 x float>`
and the buffer struct `Outer`, whose first field `a` lies at offset 0, one line named
`$Element`; with the lowered matrix struct as the element type and the buffer struct
`Transform`, one line named `$Element` when the first field of `Transform` has a matrix
annotation, and the struct block of the matrix struct, closed by `$Element`, when it has
none. -/
theorem PrintStructBufferDefinition_element_witness :
    (PrintStructBufferDefinition exampleHL (3 + 1)
        { exampleSRV with RetType := .vector (.scalar "float") 4 }
        exampleStore exampleDataLayout ";").map Prod.fst
      = .ok "; Resource bind info for sb\n; \x7b\n;\n;   int4 $Element;                                    ; Offset:    0 Size:    32\n;\n; \x7d\n;\n"
    ∧ (PrintStructBufferDefinition matrixHL (2 + 1)
        { exampleSRV with RetType := matrixStruct, GlobalSymbolPointee := matrixOuter }
        matrixStore exampleDataLayout ";").map Prod.fst
      = .ok "; Resource bind info for sb\n; \x7b\n;\n;   row_major float4x4 $Element;                      ; Offset:    0 Size:    32\n;\n; \x7d\n;\n"
    ∧ (PrintStructBufferDefinition matrixHL (2 + 1)
        { exampleSRV with RetType := matrixStruct, GlobalSymbolPointee := matrixOuter }
        matrixPlainStore exampleDataLayout ";").map Prod.fst
      = .ok "; Resource bind info for sb\n; \x7b\n;\n;   struct class.matrix.float.4.4\n;   \x7b\n;\n;                                                  float4 h[4];                                  ; Offset:    0\n;   \n;   \x7d $Element                                        ; Offset:    0\n;\n;\n; \x7d\n;\n" := by
  have h := ((PrintStructBufferDefinition_element exampleHL 3
      { exampleSRV with RetType := .vector (.scalar "float") 4 }
      exampleStore exampleDataLayout ";").1
    1 "Outer" [.scalar "int", exampleInner] exampleOuterAnnotation ⟨"a", 0, "int", none⟩
    (.vector (.scalar "float") 4) 0 "int4 $Element;" rfl rfl rfl rfl rfl rfl rfl rfl).2
  have h2 := ((PrintStructBufferDefinition_element matrixHL 2
      { exampleSRV with RetType := matrixStruct, GlobalSymbolPointee := matrixOuter }
      matrixStore exampleDataLayout ";").1
    8 "Transform" [matrixStruct] ⟨[exampleMatrixField], 64⟩ exampleMatrixField
    (.scalar "float") 0 "row_major float4x4 $Element;" rfl rfl rfl rfl rfl rfl rfl rfl).2
  have h3 := (PrintStructBufferDefinition_element matrixHL 2
      { exampleSRV with RetType := matrixStruct, GlobalSymbolPointee := matrixOuter }
      matrixPlainStore exampleDataLayout ";").2.2.2.2.1
    8 "Transform" [matrixStruct] ⟨[⟨"m", 0, "float", none⟩], 64⟩ ⟨"m", 0, "float", none⟩
    rfl rfl rfl rfl rfl
  refine ⟨?_, ?_, ?_⟩
  · rw [h]
    decide
  · rw [h2]
    decide
  · rw [h3]
    decide

set_option maxRecDepth 100000 in
/-- The struct `Outer` has the struct nesting depth 2: its layout is printed with a
recursion budget of 4 and not with a budget of 3. -/
theorem PrintStructLayout_budget_example :
    exampleOuter.nesting = 2
    ∧ PrintStructLayout exampleHL exampleStore ";" 4 exampleOuter "buf" 0 3 50 32
      = .ok ";   struct Outer\n;   \x7b\n;\n;                                                  int a;                                        ; Offset:    0\n;                                                  struct Inner\n;                                                  \x7b\n;\n;                                              float x;                                  ; Offset:   16\n;                                              float3 v;                                 ; Offset:   20\n;                                                  \n;                                                  \x7d s                                           ; Offset:   16\n;\n;   \n;   \x7d buf                                             ; Offset:    0 Size:    32\n;\n"
    ∧ PrintStructLayout exampleHL exampleStore ";" 3 exampleOuter "buf" 0 3 50 32
      = .error .outOfFuel := by
  refine ⟨?_, ?_, ?_⟩ <;> decide

set_option maxRecDepth 100000 in
/-- Claim C5, counterexample: for a section with `ParamCount = 0` the text of
`PrintSignature` has six lines, among them the column header row and the separator row,
and is not the single line `no parameters`. -/
theorem PrintSignature_no_parameters_counterexample :
    PrintSignature "Input" ⟨0, 8⟩ zeroMemory true ";"
      = .ok ";\n; Input signature:\n;\n; Name                 Index   Mask Register SysValue  Format   Used\n; -------------------- ----- ------ -------- -------- ------- ------\n; no parameters\n"
    ∧ PrintSignature "Input" ⟨0, 8⟩ zeroMemory true ";" ≠ .ok "; no parameters\n" := by
  constructor <;> decide

/-- Claim C5, amended: for a section with `ParamCount = 0`, `PrintSignature` writes its five
header lines (an empty comment line, the title, an empty comment line, the column header
row and the separator row) and then the one line `no parameters`: no element row and no
closing line, whatever the memory of the section holds. -/
theorem PrintSignature_no_parameters (name : String) (ParamOffset : Nat)
    (mem : SignatureMemory) (is_input : Bool) (comment : String) :
    PrintSignature name ⟨0, ParamOffset⟩ mem is_input comment
      = .ok (comment ++ "\n"
          ++ comment ++ " " ++ name ++ " signature:" ++ "\n"
          ++ comment ++ "\n"
          ++ comment ++ " Name                 Index   Mask Register SysValue  Format   Used"
          ++ "\n"
          ++ comment ++ " -------------------- ----- ------ -------- -------- ------- ------"
          ++ "\n"
          ++ comment ++ " no parameters" ++ "\n") := by
  simp only [PrintSignature, signatureHeader, endl, if_true, bind, Except.bind, pure,
    Except.pure, String.append_assoc]

/-! ## Rows of a signature -/

/-- The row of an element is its columns one after the other, when both name tables hold
an entry for the element. -/
theorem signatureRow_eq_columns (mem : SignatureMemory) (is_input has_streams : Bool)
    (comment : String) (sig : DxilProgramSignatureElement) :
    signatureRow mem is_input has_streams comment sig
      = (do
          let sys_value_name ← tableAt sys_value_names (u32 sig.SystemValue)
          let comp_type_name ← tableAt comp_type_names (u32 sig.CompType)
          pure (signatureNameColumns mem has_streams comment sig
            ++ signatureRegisterColumns mem sig
            ++ setwRight 9 sys_value_name ++ setwRight 8 comp_type_name
            ++ signatureUsedColumn is_input sig ++ endl)) := by
  unfold signatureRow tableAt signatureNameColumns signatureRegisterColumns
    signatureUsedColumn rwMask
  cases hs : sys_value_names[u32 sig.SystemValue]? with
  | none => rfl
  | some svn =>
    cases hc : comp_type_names[u32 sig.CompType]? with
    | none => rfl
    | some ctn =>
      simp only [bind, Except.bind, pure, Except.pure]
      congr 1
      cases has_streams <;> by_cases hr : sig.Register = UINT_MAX <;>
        simp [hr, String.append_assoc]

/-- A successful loop has written one text for each element, in order. -/
theorem loopFrom_ok_rows {α : Type} (body : Nat → α → Except Fault String) :
    ∀ (xs : List α) (i : Nat) (text : String), loopFrom body i xs = .ok text →
      ∃ rows : List String, rows.length = xs.length ∧ text = cat rows ∧
        ∀ (j : Nat) (x : α), xs[j]? = some x →
          ∃ r, rows[j]? = some r ∧ body (i + j) x = .ok r := by
  intro xs
  induction xs with
  | nil =>
    intro i text h
    simp only [loopFrom] at h
    injection h with h
    exact ⟨[], rfl, by rw [← h]; rfl, fun j x hx => by simp at hx⟩
  | cons y ys ih =>
    intro i text h
    simp only [loopFrom, bind, Except.bind, pure, Except.pure] at h
    cases hy : body i y with
    | error e => rw [hy] at h; cases h
    | ok s =>
      rw [hy] at h
      simp only at h
      cases hr : loopFrom body (i + 1) ys with
      | error e => rw [hr] at h; cases h
      | ok r =>
        rw [hr] at h
        simp only at h
        injection h with h
        obtain ⟨rows, hlen, hcat, hrows⟩ := ih (i + 1) r hr
        refine ⟨s :: rows, by simp [hlen], by rw [← h, hcat]; rfl, ?_⟩
        intro j x hx
        cases j with
        | zero =>
          simp only [List.getElem?_cons_zero, Option.some.injEq] at hx
          subst hx
          exact ⟨s, by simp, hy⟩
        | succ j =>
          simp only [List.getElem?_cons_succ] at hx
          obtain ⟨r', hr', hb⟩ := hrows j x hx
          refine ⟨r', by simpa using hr', ?_⟩
          rw [← hb]
          congr 1
          omega

/-- The four characters of a component mask. -/
theorem componentMask_chars (mask : Nat) :
    componentMask mask
      = String.mk [ if mask.testBit 0 then 'x' else ' ', if mask.testBit 1 then 'y' else ' ',
          if mask.testBit 2 then 'z' else ' ', if mask.testBit 3 then 'w' else ' ' ] := by
  unfold componentMask forLoop
  have hr : List.range 4 = [0, 1, 2, 3] := by decide
  rw [hr]
  simp only [List.map, cat]
  cases mask.testBit 0 <;> cases mask.testBit 1 <;> cases mask.testBit 2 <;>
    cases mask.testBit 3 <;> decide

/-- Bit `i < 8` of `rw_mask` is bit `i` of the always-reads mask for an input signature and
its negation for an output signature. -/
theorem rwMask_testBit (is_input : Bool) (m i : Nat) (hi : i < 8) :
    (rwMask is_input m).testBit i = (if is_input then m.testBit i else !m.testBit i) := by
  have h256 : (256 : Nat) = 2 ^ 8 := by norm_num
  cases is_input with
  | true =>
    simp only [rwMask, Bool.not_true, Bool.false_eq_true, if_false, if_true]
    rw [h256, Nat.testBit_mod_two_pow]
    simp [hi]
  | false =>
    simp only [rwMask, Bool.not_false, if_true, Bool.false_eq_true, if_false]
    have hlt : m % 256 < 2 ^ 8 := by
      rw [← h256]
      exact Nat.mod_lt _ (by norm_num)
    have hsub : 255 - m % 256 = 2 ^ 8 - (m % 256 + 1) := by omega
    rw [hsub, Nat.testBit_two_pow_sub_succ hlt, h256, Nat.testBit_mod_two_pow]
    simp [hi]

/-- Claim C11: the row of an element ends with the Used column, and the text before that
column depends neither on the always-reads mask nor on the direction of the signature.
For a register other than -1 the column is three blanks and the four characters `xyzw`,
character `i` shown exactly when bit `i` of `rw_mask` is set, where bit `i` of `rw_mask` is
bit `i` of the always-reads mask for an input signature and its negation (the 8-bit
complement) for an output signature; for register -1 the column is `YES` when `rw_mask` is
not zero and `NO` otherwise. -/
theorem signatureRow_used_column (mem : SignatureMemory) (is_input has_streams : Bool)
    (comment : String) (sig : DxilProgramSignatureElement) (row : String)
    (hrun : signatureRow mem is_input has_streams comment sig = .ok row) :
    ∃ before : String,
      (∀ (m : Nat) (input : Bool),
        signatureRow mem input has_streams comment { sig with AlwaysReads_Mask := m }
          = .ok (before
              ++ (if sig.Register = 4294967295 then
                    (if rwMask input m ≠ 0 then "    YES" else "     NO")
                  else
                    "   " ++ String.mk
                      [ if (rwMask input m).testBit 0 then 'x' else ' ',
                        if (rwMask input m).testBit 1 then 'y' else ' ',
                        if (rwMask input m).testBit 2 then 'z' else ' ',
                        if (rwMask input m).testBit 3 then 'w' else ' ' ])
              ++ "\n")) ∧
      (∀ (m i : Nat) (input : Bool), i < 4 →
        (rwMask input m).testBit i = (if input then m.testBit i else !m.testBit i)) ∧
      (∀ m : Nat, rwMask true m = m % 256 ∧ rwMask false m = 255 - m % 256) := by
  rw [signatureRow_eq_columns] at hrun
  cases hs : tableAt sys_value_names (u32 sig.SystemValue) with
  | error e => rw [hs] at hrun; cases hrun
  | ok svn =>
    cases hc : tableAt comp_type_names (u32 sig.CompType) with
    | error e => rw [hs, hc] at hrun; cases hrun
    | ok ctn =>
      refine ⟨signatureNameColumns mem has_streams comment sig
          ++ signatureRegisterColumns mem sig
          ++ setwRight 9 svn ++ setwRight 8 ctn, ?_, ?_, ?_⟩
      · intro m input
        rw [signatureRow_eq_columns]
        have hs' : tableAt sys_value_names
            (u32 ({ sig with AlwaysReads_Mask := m } : DxilProgramSignatureElement).SystemValue)
            = .ok svn := hs
        have hc' : tableAt comp_type_names
            (u32 ({ sig with AlwaysReads_Mask := m } : DxilProgramSignatureElement).CompType)
            = .ok ctn := hc
        rw [hs', hc']
        simp only [bind, Except.bind, pure, Except.pure, signatureUsedColumn, UINT_MAX,
          componentMask_chars, endl]
        rfl
      · intro m i input hi
        exact rwMask_testBit input m i (by omega)
      · intro m
        exact ⟨rfl, rfl⟩

/-- Claim C11, on an output element with register 0 whose always-reads mask is 3: the row
ends with the components `zw`, those the mask does not hold. -/
theorem signatureRow_used_column_witness :
    ∃ before : String,
      (∀ (m : Nat) (input : Bool),
        signatureRow ⟨32, fun _ => ⟨0, 0, 0, 1, 3, 0, 15, 3⟩, fun _ => "SV_Position"⟩ input false
            ";" { (⟨0, 0, 0, 1, 3, 0, 15, 3⟩ : DxilProgramSignatureElement) with
                  AlwaysReads_Mask := m }
          = .ok (before
              ++ (if (⟨0, 0, 0, 1, 3, 0, 15, 3⟩ : DxilProgramSignatureElement).Register
                      = 4294967295 then
                    (if rwMask input m ≠ 0 then "    YES" else "     NO")
                  else
                    "   " ++ String.mk
                      [ if (rwMask input m).testBit 0 then 'x' else ' ',
                        if (rwMask input m).testBit 1 then 'y' else ' ',
                        if (rwMask input m).testBit 2 then 'z' else ' ',
                        if (rwMask input m).testBit 3 then 'w' else ' ' ])
              ++ "\n")) ∧
      (∀ (m i : Nat) (input : Bool), i < 4 →
        (rwMask input m).testBit i = (if input then m.testBit i else !m.testBit i)) ∧
      (∀ m : Nat, rwMask true m = m % 256 ∧ rwMask false m = 255 - m % 256) :=
  signatureRow_used_column ⟨32, fun _ => ⟨0, 0, 0, 1, 3, 0, 15, 3⟩, fun _ => "SV_Position"⟩
    false false ";" ⟨0, 0, 0, 1, 3, 0, 15, 3⟩
    "; SV_Position              0   xyzw        0      POS   float     zw\n" (by decide)

/-- Claim C12: in the table of a signature with at least one element, every row starts with
`m<stream of the row>:` and the name padded to 17 columns when some element of the table
has a stream other than 0, and with the name padded to 20 columns, without stream prefix,
when no element has. -/
theorem PrintSignature_stream_prefix (name : String) (signature : DxilProgramSignature)
    (mem : SignatureMemory) (is_input : Bool) (comment text : String)
    (hcount : signature.ParamCount ≠ 0)
    (hrun : PrintSignature name signature mem is_input comment = .ok text) :
    ∃ rows : List String,
      rows.length = signature.ParamCount ∧
      text = signatureHeader name comment ++ cat rows ++ comment ++ "\n" ∧
      ((∃ j, j < signature.ParamCount ∧ (signatureElement signature mem j).Stream ≠ 0) →
        ∀ i, i < signature.ParamCount → ∃ rest, rows[i]? = some
          (comment ++ " " ++ "m" ++ dec (signatureElement signature mem i).Stream ++ ":"
            ++ setwLeft 17 (mem.stringAt (signatureElement signature mem i).SemanticName)
            ++ rest)) ∧
      ((∀ j, j < signature.ParamCount → (signatureElement signature mem j).Stream = 0) →
        ∀ i, i < signature.ParamCount → ∃ rest, rows[i]? = some
          (comment ++ " "
            ++ setwLeft 20 (mem.stringAt (signatureElement signature mem i).SemanticName)
            ++ rest)) := by
  simp only [PrintSignature, if_neg hcount, bind, Except.bind, pure, Except.pure] at hrun
  split at hrun
  · cases hrun
  · rename_i body hloop
    injection hrun with hrun
    obtain ⟨rows, hlen, hcat, hrows⟩ := loopFrom_ok_rows _ _ 0 body hloop
    have helem : ∀ i, i < signature.ParamCount →
        ((List.range signature.ParamCount).map (signatureElement signature mem))[i]?
          = some (signatureElement signature mem i) := by
      intro i hi
      simp [hi]
    refine ⟨rows, by simpa using hlen, by rw [← hrun, hcat]; simp [endl, String.append_assoc],
      ?_, ?_⟩
    · intro hex i hi
      have hany : ((List.range signature.ParamCount).map (signatureElement signature mem)).any
          (fun e => decide (e.Stream ≠ 0)) = true := by
        obtain ⟨j, hj, hne⟩ := hex
        rw [List.any_eq_true]
        exact ⟨signatureElement signature mem j,
          List.mem_map.mpr ⟨j, List.mem_range.mpr hj, rfl⟩, by simpa using hne⟩
      obtain ⟨r, hr, hb⟩ := hrows i _ (helem i hi)
      rw [hany, signatureRow_eq_columns] at hb
      cases hs : tableAt sys_value_names (u32 (signatureElement signature mem i).SystemValue) with
      | error e => rw [hs] at hb; cases hb
      | ok svn =>
        cases hc : tableAt comp_type_names (u32 (signatureElement signature mem i).CompType) with
        | error e => rw [hs, hc] at hb; cases hb
        | ok ctn =>
          rw [hs, hc] at hb
          simp only [bind, Except.bind, pure, Except.pure] at hb
          injection hb with hb
          refine ⟨setwRight 6 (dec (signatureElement signature mem i).SemanticIndex)
            ++ signatureRegisterColumns mem (signatureElement signature mem i)
            ++ setwRight 9 svn ++ setwRight 8 ctn
            ++ signatureUsedColumn is_input (signatureElement signature mem i) ++ endl, ?_⟩
          rw [hr, ← hb]
          simp only [signatureNameColumns, if_true, String.append_assoc]
    · intro hall i hi
      have hany : ((List.range signature.ParamCount).map (signatureElement signature mem)).any
          (fun e => decide (e.Stream ≠ 0)) = false := by
        rw [List.any_eq_false]
        intro e he
        obtain ⟨j, hj, rfl⟩ := List.mem_map.mp he
        simpa using hall j (List.mem_range.mp hj)
      obtain ⟨r, hr, hb⟩ := hrows i _ (helem i hi)
      rw [hany, signatureRow_eq_columns] at hb
      cases hs : tableAt sys_value_names (u32 (signatureElement signature mem i).SystemValue) with
      | error e => rw [hs] at hb; cases hb
      | ok svn =>
        cases hc : tableAt comp_type_names (u32 (signatureElement signature mem i).CompType) with
        | error e => rw [hs, hc] at hb; cases hb
        | ok ctn =>
          rw [hs, hc] at hb
          simp only [bind, Except.bind, pure, Except.pure] at hb
          injection hb with hb
          refine ⟨setwRight 6 (dec (signatureElement signature mem i).SemanticIndex)
            ++ signatureRegisterColumns mem (signatureElement signature mem i)
            ++ setwRight 9 svn ++ setwRight 8 ctn
            ++ signatureUsedColumn is_input (signatureElement signature mem i) ++ endl, ?_⟩
          rw [hr, ← hb]
          simp only [signatureNameColumns, Bool.false_eq_true, if_false, String.append_assoc]

/-- The test `_stricmp(name, "...") == 0` against a name written in lower case letters. -/
theorem stricmpEq_iff (a b : String) :
    stricmpEq a b = true ↔ a.toList.map Char.toLower = b.toList.map Char.toLower := by
  unfold stricmpEq
  exact beq_iff_eq

/-- Claim C13: after the name and index columns, the row of an element with register -1
shows `N/A` and a label chosen by comparing the semantic name, letter case ignored, with
`SV_Depth`, `SV_DepthGreaterEqual`, `SV_DepthLessEqual`, `SV_Coverage` and `SV_StencilRef`
in this order, then `primID` when the system value is `PrimitiveID`, else `special`; the
row of an element with another register shows the component mask and the register number
and none of the labels. -/
theorem signatureRow_register_label (mem : SignatureMemory) (is_input has_streams : Bool)
    (comment : String) (sig : DxilProgramSignatureElement) (row : String)
    (hrun : signatureRow mem is_input has_streams comment sig = .ok row) :
    ∃ after : String,
      row = signatureNameColumns mem has_streams comment sig
        ++ (if sig.Register = 4294967295 then
              "    N/A" ++
                (if (mem.stringAt sig.SemanticName).toList.map Char.toLower
                      = "sv_depth".toList then "   oDepth"
                 else if (mem.stringAt sig.SemanticName).toList.map Char.toLower
                      = "sv_depthgreaterequal".toList then " oDepthGE"
                 else if (mem.stringAt sig.SemanticName).toList.map Char.toLower
                      = "sv_depthlessequal".toList then " oDepthLE"
                 else if (mem.stringAt sig.SemanticName).toList.map Char.toLower
                      = "sv_coverage".toList then "    oMask"
                 else if (mem.stringAt sig.SemanticName).toList.map Char.toLower
                      = "sv_stencilref".toList then "    oStencilRef"
                 else if sig.SystemValue = DxilProgramSigSemantic.PrimitiveID then "   primID"
                 else "  special")
            else
              "   " ++ componentMask sig.Mask ++ setwRight 9 (dec sig.Register))
        ++ after := by
  rw [signatureRow_eq_columns] at hrun
  cases hs : tableAt sys_value_names (u32 sig.SystemValue) with
  | error e => rw [hs] at hrun; cases hrun
  | ok svn =>
    cases hc : tableAt comp_type_names (u32 sig.CompType) with
    | error e => rw [hs, hc] at hrun; cases hrun
    | ok ctn =>
      rw [hs, hc] at hrun
      simp only [bind, Except.bind, pure, Except.pure] at hrun
      injection hrun with hrun
      refine ⟨setwRight 9 svn ++ setwRight 8 ctn ++ signatureUsedColumn is_input sig ++ endl, ?_⟩
      rw [← hrun]
      have h1 : "SV_Depth".toList.map Char.toLower = "sv_depth".toList := by decide
      have h2 : "SV_DepthGreaterEqual".toList.map Char.toLower
          = "sv_depthgreaterequal".toList := by decide
      have h3 : "SV_DepthLessEqual".toList.map Char.toLower = "sv_depthlessequal".toList := by
        decide
      have h4 : "SV_Coverage".toList.map Char.toLower = "sv_coverage".toList := by decide
      have h5 : "SV_StencilRef".toList.map Char.toLower = "sv_stencilref".toList := by decide
      have hreg : signatureRegisterColumns mem sig
          = (if sig.Register = 4294967295 then
              "    N/A" ++
                (if (mem.stringAt sig.SemanticName).toList.map Char.toLower
                      = "sv_depth".toList then "   oDepth"
                 else if (mem.stringAt sig.SemanticName).toList.map Char.toLower
                      = "sv_depthgreaterequal".toList then " oDepthGE"
                 else if (mem.stringAt sig.SemanticName).toList.map Char.toLower
                      = "sv_depthlessequal".toList then " oDepthLE"
                 else if (mem.stringAt sig.SemanticName).toList.map Char.toLower
                      = "sv_coverage".toList then "    oMask"
                 else if (mem.stringAt sig.SemanticName).toList.map Char.toLower
                      = "sv_stencilref".toList then "    oStencilRef"
                 else if sig.SystemValue = DxilProgramSigSemantic.PrimitiveID then "   primID"
                 else "  special")
            else
              "   " ++ componentMask sig.Mask ++ setwRight 9 (dec sig.Register)) := by
        unfold signatureRegisterColumns
        simp only [UINT_MAX, ← h1, ← h2, ← h3, ← h4, ← h5, ← stricmpEq_iff]
      rw [hreg]
      simp only [String.append_assoc]

/-- Claim C13, on an element with register -1 named `sv_DEPTH` whose system value is
`PrimitiveID`: the name decides, the label is `oDepth`. -/
theorem signatureRow_register_label_witness :
    ∃ after : String,
      "; sv_DEPTH                 0    N/A   oDepth   PRIMID   float    YES\n"
        = signatureNameColumns ⟨32, fun _ => ⟨0, 0, 0, 7, 3, 4294967295, 1, 1⟩,
              fun _ => "sv_DEPTH"⟩ false ";" ⟨0, 0, 0, 7, 3, 4294967295, 1, 1⟩
          ++ (if (⟨0, 0, 0, 7, 3, 4294967295, 1, 1⟩ : DxilProgramSignatureElement).Register
                  = 4294967295 then
                "    N/A" ++
                  (if "sv_DEPTH".toList.map Char.toLower = "sv_depth".toList then "   oDepth"
                   else if "sv_DEPTH".toList.map Char.toLower
                        = "sv_depthgreaterequal".toList then " oDepthGE"
                   else if "sv_DEPTH".toList.map Char.toLower
                        = "sv_depthlessequal".toList then " oDepthLE"
                   else if "sv_DEPTH".toList.map Char.toLower
                        = "sv_coverage".toList then "    oMask"
                   else if "sv_DEPTH".toList.map Char.toLower
                        = "sv_stencilref".toList then "    oStencilRef"
                   else if (⟨0, 0, 0, 7, 3, 4294967295, 1, 1⟩ :
                        DxilProgramSignatureElement).SystemValue
                        = DxilProgramSigSemantic.PrimitiveID then "   primID"
                   else "  special")
              else
                "   " ++ componentMask
                  (⟨0, 0, 0, 7, 3, 4294967295, 1, 1⟩ : DxilProgramSignatureElement).Mask
                  ++ setwRight 9 (dec
                    (⟨0, 0, 0, 7, 3, 4294967295, 1, 1⟩ : DxilProgramSignatureElement).Register))
          ++ after :=
  signatureRow_register_label ⟨32, fun _ => ⟨0, 0, 0, 7, 3, 4294967295, 1, 1⟩,
      fun _ => "sv_DEPTH"⟩ true false ";" ⟨0, 0, 0, 7, 3, 4294967295, 1, 1⟩
    "; sv_DEPTH                 0    N/A   oDepth   PRIMID   float    YES\n" (by decide)

set_option maxRecDepth 100000 in
/-- Claim C12, on a signature of two elements of which the second has stream 1: both rows
carry their own stream prefix, `m0:` and `m1:`. -/
theorem PrintSignature_stream_prefix_witness :
    ∃ rows : List String,
      rows.length = (⟨2, 8⟩ : DxilProgramSignature).ParamCount ∧
      ";\n; Output signature:\n;\n; Name                 Index   Mask Register SysValue  Format   Used\n; -------------------- ----- ------ -------- -------- ------- ------\n; m0:SV_Position           0   xyzw        0      POS   float     zw\n; m1:TEXCOORD              2   xy          1     NONE   float   xyzw\n;\n"
        = signatureHeader "Output" ";" ++ cat rows ++ ";" ++ "\n" ∧
      ((∃ j, j < (⟨2, 8⟩ : DxilProgramSignature).ParamCount
          ∧ (signatureElement ⟨2, 8⟩ streamMemory j).Stream ≠ 0) →
        ∀ i, i < (⟨2, 8⟩ : DxilProgramSignature).ParamCount → ∃ rest, rows[i]? = some
          (";" ++ " " ++ "m" ++ dec (signatureElement ⟨2, 8⟩ streamMemory i).Stream ++ ":"
            ++ setwLeft 17
              (streamMemory.stringAt (signatureElement ⟨2, 8⟩ streamMemory i).SemanticName)
            ++ rest)) ∧
      ((∀ j, j < (⟨2, 8⟩ : DxilProgramSignature).ParamCount
          → (signatureElement ⟨2, 8⟩ streamMemory j).Stream = 0) →
        ∀ i, i < (⟨2, 8⟩ : DxilProgramSignature).ParamCount → ∃ rest, rows[i]? = some
          (";" ++ " "
            ++ setwLeft 20
              (streamMemory.stringAt (signatureElement ⟨2, 8⟩ streamMemory i).SemanticName)
            ++ rest)) :=
  PrintSignature_stream_prefix "Output" ⟨2, 8⟩ streamMemory false ";" _ (by decide) (by decide)

set_option maxRecDepth 100000 in
/-- Claim C21, counterexample: in a signature without streams, the rows of an element with
register 0 and of an element with register -1 named `SV_Depth` have 69 characters and the
same columns; the
row of an element with register -1 named `SV_StencilRef` (name of 13 characters, index 0,
system value `NONE`) has 75 characters: its label is written as a text of 15 characters
while the other labels and the register number take 9, so that the SysValue, Format and
Used columns start 6 characters further to the right. -/
theorem signatureRow_StencilRef_width :
    signatureRow labelMemory false false ";" ⟨0, 32, 0, 17, 3, 0, 15, 0⟩
      = .ok "; SV_Target                0   xyzw        0   TARGET   float   xyzw\n"
    ∧ signatureRow labelMemory false false ";" ⟨0, 16, 0, 18, 3, 4294967295, 1, 0⟩
      = .ok "; SV_Depth                 0    N/A   oDepth    DEPTH   float    YES\n"
    ∧ signatureRow labelMemory false false ";" ⟨0, 0, 0, 0, 1, 4294967295, 1, 0⟩
      = .ok "; SV_StencilRef            0    N/A    oStencilRef     NONE    uint    YES\n"
    ∧ "; SV_Target                0   xyzw        0   TARGET   float   xyzw\n".length = 69
    ∧ "; SV_Depth                 0    N/A   oDepth    DEPTH   float    YES\n".length = 69
    ∧ "; SV_StencilRef            0    N/A    oStencilRef     NONE    uint    YES\n".length
      = 75 := by
  refine ⟨?_, ?_, ?_, ?_, ?_, ?_⟩ <;> decide

theorem spaces_length (n : Nat) : (spaces n).length = n := by
  simp [spaces, String.length]

theorem setwRight_length (w : Nat) (s : String) :
    (setwRight w s).length = max w s.length := by
  simp only [setwRight, String.length_append, spaces_length]
  omega

theorem setwLeft_length (w : Nat) (s : String) :
    (setwLeft w s).length = max w s.length := by
  simp only [setwLeft, String.length_append, spaces_length]
  omega

theorem componentMask_length (mask : Nat) : (componentMask mask).length = 4 := by
  rw [componentMask_chars]
  rfl

/-- Every system value name has at most 9 characters, except `STENCILREF` (entry 22), which
has 10. -/
theorem sys_value_names_length (i : Nat) (name : String)
    (h : sys_value_names[i]? = some name) :
    name.length ≤ 9 ∧ i ≠ 22 ∨ name.length = 10 ∧ i = 22 := by
  have hall : ∀ j, j < 24 →
      ((sys_value_names.getD j "").length ≤ 9 ∧ j ≠ 22)
        ∨ ((sys_value_names.getD j "").length = 10 ∧ j = 22) := by decide
  have hi : i < sys_value_names.length := (List.getElem?_eq_some_iff.mp h).1
  have hget : sys_value_names.getD i "" = name := by
    rw [List.getD_eq_getElem?_getD, h]
    rfl
  have := hall i hi
  rw [hget] at this
  exact this

/-- Every component type name has at most 8 characters. -/
theorem comp_type_names_length (i : Nat) (name : String)
    (h : comp_type_names[i]? = some name) : name.length ≤ 8 := by
  have hall : ∀ j, j < 10 → (comp_type_names.getD j "").length ≤ 8 := by decide
  have hi : i < comp_type_names.length := (List.getElem?_eq_some_iff.mp h).1
  have hget : comp_type_names.getD i "" = name := by
    rw [List.getD_eq_getElem?_getD, h]
    rfl
  have := hall i hi
  rw [hget] at this
  exact this

/-- The mask and register columns take 16 characters, and 22 for the label of
`SV_StencilRef`. -/
theorem signatureRegisterColumns_length (mem : SignatureMemory)
    (sig : DxilProgramSignatureElement)
    (hreg : sig.Register = UINT_MAX ∨ (dec sig.Register).length ≤ 8) :
    (signatureRegisterColumns mem sig).length
      = 16 + (if sig.Register = UINT_MAX
                ∧ stricmpEq (mem.stringAt sig.SemanticName) "SV_StencilRef" = true
              then 6 else 0) := by
  unfold signatureRegisterColumns
  by_cases hr : sig.Register = UINT_MAX
  · simp only [hr, if_true, true_and]
    by_cases hs : stricmpEq (mem.stringAt sig.SemanticName) "SV_StencilRef" = true
    · have hs' := (stricmpEq_iff _ _).mp hs
      have h1 : stricmpEq (mem.stringAt sig.SemanticName) "SV_Depth" = false := by
        cases h : stricmpEq (mem.stringAt sig.SemanticName) "SV_Depth" with
        | false => rfl
        | true =>
          have h' := (stricmpEq_iff _ _).mp h
          rw [hs'] at h'
          exact absurd h' (by decide)
      have h2 : stricmpEq (mem.stringAt sig.SemanticName) "SV_DepthGreaterEqual" = false := by
        cases h : stricmpEq (mem.stringAt sig.SemanticName) "SV_DepthGreaterEqual" with
        | false => rfl
        | true =>
          have h' := (stricmpEq_iff _ _).mp h
          rw [hs'] at h'
          exact absurd h' (by decide)
      have h3 : stricmpEq (mem.stringAt sig.SemanticName) "SV_DepthLessEqual" = false := by
        cases h : stricmpEq (mem.stringAt sig.SemanticName) "SV_DepthLessEqual" with
        | false => rfl
        | true =>
          have h' := (stricmpEq_iff _ _).mp h
          rw [hs'] at h'
          exact absurd h' (by decide)
      have h4 : stricmpEq (mem.stringAt sig.SemanticName) "SV_Coverage" = false := by
        cases h : stricmpEq (mem.stringAt sig.SemanticName) "SV_Coverage" with
        | false => rfl
        | true =>
          have h' := (stricmpEq_iff _ _).mp h
          rw [hs'] at h'
          exact absurd h' (by decide)
      rw [h1, h2, h3, h4, hs]
      rfl
    · rw [if_neg hs]
      have hs0 : stricmpEq (mem.stringAt sig.SemanticName) "SV_StencilRef" = false := by
        cases h : stricmpEq (mem.stringAt sig.SemanticName) "SV_StencilRef" with
        | false => rfl
        | true => exact absurd h hs
      rw [hs0]
      cases stricmpEq (mem.stringAt sig.SemanticName) "SV_Depth" <;>
        cases stricmpEq (mem.stringAt sig.SemanticName) "SV_DepthGreaterEqual" <;>
        cases stricmpEq (mem.stringAt sig.SemanticName) "SV_DepthLessEqual" <;>
        cases stricmpEq (mem.stringAt sig.SemanticName) "SV_Coverage" <;>
        by_cases hp : sig.SystemValue = DxilProgramSigSemantic.PrimitiveID <;>
        simp only [hp, if_true, if_false, Bool.false_eq_true] <;> rfl
  · have hlen : (dec sig.Register).length ≤ 8 := hreg.resolve_left hr
    simp only [hr, if_false, false_and, String.length_append, componentMask_length,
      setwRight_length]
    have h3 : "   ".length = 3 := rfl
    rw [h3]
    omega

/-- Claim C21, amended: in a signature without streams, the row of an element whose
semantic name has at most 20 characters, whose semantic index has at most 5 digits and
whose register is -1 or has at most 8 digits is the name and index columns, the mask and
register columns, the SysValue column, the Format column, the Used column and the end of
the line.  The columns before SysValue take the length of the comment prefix and 43
characters, SysValue takes 9, Format 8 and Used 7, whatever the register is (a number or
-1 with the labels `oDepth`, `oDepthGE`, `oDepthLE`, `oMask`, `primID`, `special`), with
two exceptions: for register -1 and the name `SV_StencilRef`, letter case ignored, the
columns before SysValue take 6 characters more, and for the system value 22
(`STENCILREF`) the SysValue column takes 10 characters. -/
theorem signatureRow_column_widths (mem : SignatureMemory) (is_input : Bool)
    (comment : String) (sig : DxilProgramSignatureElement)
    (sys_value_name comp_type_name : String)
    (hname : (mem.stringAt sig.SemanticName).length ≤ 20)
    (hindex : (dec sig.SemanticIndex).length ≤ 5)
    (hreg : sig.Register = UINT_MAX ∨ (dec sig.Register).length ≤ 8)
    (hsys : sys_value_names[u32 sig.SystemValue]? = some sys_value_name)
    (hcomp : comp_type_names[u32 sig.CompType]? = some comp_type_name) :
    ∃ front sys fmt used : String,
      signatureRow mem is_input false comment sig
        = .ok (front ++ sys ++ fmt ++ used ++ "\n")
      ∧ front = comment ++ " " ++ setwLeft 20 (mem.stringAt sig.SemanticName)
          ++ setwRight 6 (dec sig.SemanticIndex) ++ signatureRegisterColumns mem sig
      ∧ sys = setwRight 9 sys_value_name
      ∧ fmt = setwRight 8 comp_type_name
      ∧ used = signatureUsedColumn is_input sig
      ∧ front.length = comment.length + 43
          + (if sig.Register = UINT_MAX
                ∧ stricmpEq (mem.stringAt sig.SemanticName) "SV_StencilRef" = true
              then 6 else 0)
      ∧ sys.length = 9 + (if u32 sig.SystemValue = 22 then 1 else 0)
      ∧ fmt.length = 8
      ∧ used.length = 7
      ∧ (front ++ sys ++ fmt ++ used ++ "\n").length = comment.length + 68
          + (if sig.Register = UINT_MAX
                ∧ stricmpEq (mem.stringAt sig.SemanticName) "SV_StencilRef" = true
              then 6 else 0)
          + (if u32 sig.SystemValue = 22 then 1 else 0) := by
  have hfront : (comment ++ " " ++ setwLeft 20 (mem.stringAt sig.SemanticName)
      ++ setwRight 6 (dec sig.SemanticIndex) ++ signatureRegisterColumns mem sig).length
      = comment.length + 43
        + (if sig.Register = UINT_MAX
              ∧ stricmpEq (mem.stringAt sig.SemanticName) "SV_StencilRef" = true
            then 6 else 0) := by
    simp only [String.length_append, setwLeft_length, setwRight_length,
      signatureRegisterColumns_length mem sig hreg]
    have h1 : " ".length = 1 := rfl
    rw [h1]
    omega
  have hsysl : (setwRight 9 sys_value_name).length
      = 9 + (if u32 sig.SystemValue = 22 then 1 else 0) := by
    rw [setwRight_length]
    rcases sys_value_names_length _ _ hsys with ⟨h, hne⟩ | ⟨h, he⟩
    · rw [if_neg hne]
      omega
    · rw [if_pos he]
      omega
  have hfmtl : (setwRight 8 comp_type_name).length = 8 := by
    rw [setwRight_length]
    have := comp_type_names_length _ _ hcomp
    omega
  have husedl : (signatureUsedColumn is_input sig).length = 7 := by
    unfold signatureUsedColumn
    by_cases hr : sig.Register = UINT_MAX
    · simp only [hr, if_true]
      split <;> rfl
    · simp only [hr, if_false, String.length_append, componentMask_length]
      rfl
  refine ⟨_, _, _, _, ?_, rfl, rfl, rfl, rfl, hfront, hsysl, hfmtl, husedl, ?_⟩
  · rw [signatureRow_eq_columns]
    simp only [tableAt, hsys, hcomp, bind, Except.bind, pure, Except.pure, signatureNameColumns,
      Bool.false_eq_true, if_false, endl, String.append_assoc]
  · rw [String.length_append, String.length_append, String.length_append,
      String.length_append _ (setwRight 9 sys_value_name), hfront, hsysl, hfmtl, husedl]
    have h1 : "\n".length = 1 := rfl
    rw [h1]
    omega

set_option maxRecDepth 100000 in
/-- Claim C21, amended, on three elements of a signature without streams: the rows of
`SV_Target` with register 0 and of `SV_Depth` with register -1 have 43 characters and the
comment prefix before the SysValue column and 69 characters in all; the row of `SV_Depth`
with the system value `STENCILREF` has a SysValue column of 10 characters. -/
theorem signatureRow_column_widths_witness :
    (∃ front sys fmt used : String,
      signatureRow labelMemory false false ";" ⟨0, 32, 0, 17, 3, 0, 15, 0⟩
        = .ok (front ++ sys ++ fmt ++ used ++ "\n")
      ∧ front = "; SV_Target                0   xyzw        0"
      ∧ sys = "   TARGET" ∧ fmt = "   float" ∧ used = "   xyzw"
      ∧ front.length = 44 ∧ sys.length = 9 ∧ fmt.length = 8 ∧ used.length = 7
      ∧ (front ++ sys ++ fmt ++ used ++ "\n").length = 69)
    ∧ signatureRow labelMemory false false ";" ⟨0, 16, 0, 18, 3, 4294967295, 1, 0⟩
      = .ok ("; SV_Depth                 0    N/A   oDepth" ++ "    DEPTH" ++ "   float"
          ++ "    YES" ++ "\n")
    ∧ signatureRow labelMemory false false ";" ⟨0, 16, 0, 22, 3, 4294967295, 1, 0⟩
      = .ok ("; SV_Depth                 0    N/A   oDepth" ++ "STENCILREF" ++ "   float"
          ++ "    YES" ++ "\n") := by
  refine ⟨?_, by decide, by decide⟩
  obtain ⟨front, sys, fmt, used, hrow, hf, hs, hm, hu, h1, h2, h3, h4, h5⟩ :=
    signatureRow_column_widths labelMemory false ";" ⟨0, 32, 0, 17, 3, 0, 15, 0⟩
      "TARGET" "float" (by decide) (by decide) (Or.inr (by decide)) rfl rfl
  exact ⟨front, sys, fmt, used, hrow, hf.trans (by decide), hs.trans (by decide),
    hm.trans (by decide), hu.trans (by decide), h1.trans (by decide), h2.trans (by decide),
    h3, h4, h5.trans (by decide)⟩

/-- A loop in which every body writes a text ends with a text. -/
theorem loopFrom_ok_of_forall {α : Type} (body : Nat → α → Except Fault String) :
    ∀ (xs : List α) (i : Nat),
      (∀ (j : Nat) (x : α), xs[j]? = some x → ∃ s, body (i + j) x = .ok s) →
      ∃ text, loopFrom body i xs = .ok text := by
  intro xs
  induction xs with
  | nil => intro i _; exact ⟨"", rfl⟩
  | cons y ys ih =>
    intro i h
    obtain ⟨s, hs⟩ := h 0 y (by simp)
    obtain ⟨r, hr⟩ := ih (i + 1) (fun j x hx => by
      obtain ⟨s', hs'⟩ := h (j + 1) x (by simpa using hx)
      exact ⟨s', by rw [← hs']; congr 1; omega⟩)
    exact ⟨s ++ r, by
      simp only [loopFrom, bind, Except.bind, pure, Except.pure, hr]
      rw [Nat.add_zero] at hs
      rw [hs]⟩

/-- A loop in which a body faults, and in which no body faults in another way, ends with
that fault. -/
theorem loopFrom_error_of_get {α : Type} (body : Nat → α → Except Fault String) (e : Fault) :
    ∀ (xs : List α) (i : Nat),
      (∀ (j : Nat) (x : α), xs[j]? = some x →
        (∃ s, body (i + j) x = .ok s) ∨ body (i + j) x = .error e) →
      (∃ (j : Nat) (x : α), xs[j]? = some x ∧ body (i + j) x = .error e) →
      loopFrom body i xs = .error e := by
  intro xs
  induction xs with
  | nil =>
    intro i _ h
    obtain ⟨j, x, hx, _⟩ := h
    simp at hx
  | cons y ys ih =>
    intro i hall hex
    have h0 := hall 0 y (by simp)
    rw [Nat.add_zero] at h0
    rcases h0 with ⟨s, hs⟩ | he
    · have hall' : ∀ (j : Nat) (x : α), ys[j]? = some x →
          (∃ s, body (i + 1 + j) x = .ok s) ∨ body (i + 1 + j) x = .error e := by
        intro j x hx
        have := hall (j + 1) x (by simpa using hx)
        have hidx : i + (j + 1) = i + 1 + j := by omega
        rw [hidx] at this
        exact this
      have hex' : ∃ (j : Nat) (x : α), ys[j]? = some x ∧ body (i + 1 + j) x = .error e := by
        obtain ⟨j, x, hx, hb⟩ := hex
        cases j with
        | zero =>
          simp only [List.getElem?_cons_zero, Option.some.injEq] at hx
          subst hx
          rw [Nat.add_zero, hs] at hb
          cases hb
        | succ j =>
          refine ⟨j, x, by simpa using hx, ?_⟩
          have hidx : i + (j + 1) = i + 1 + j := by omega
          rw [hidx] at hb
          exact hb
      simp only [loopFrom, bind, Except.bind, hs, ih (i + 1) hall' hex']
    · simp only [loopFrom, bind, Except.bind, he]

/-- The row of an element is written exactly when both name tables hold an entry for it,
and is a read outside a table otherwise. -/
theorem signatureRow_ok_iff (mem : SignatureMemory) (is_input has_streams : Bool)
    (comment : String) (sig : DxilProgramSignatureElement) :
    ((∃ row, signatureRow mem is_input has_streams comment sig = .ok row)
      ↔ (u32 sig.SystemValue < 24 ∧ u32 sig.CompType < 10)) ∧
    (¬ (u32 sig.SystemValue < 24 ∧ u32 sig.CompType < 10) →
      signatureRow mem is_input has_streams comment sig = .error .outOfRange) := by
  have hlen1 : sys_value_names.length = 24 := rfl
  have hlen2 : comp_type_names.length = 10 := rfl
  rw [signatureRow_eq_columns]
  unfold tableAt
  by_cases h1 : u32 sig.SystemValue < 24
  · have h1' : u32 sig.SystemValue < sys_value_names.length := by rw [hlen1]; exact h1
    rw [List.getElem?_eq_getElem h1']
    by_cases h2 : u32 sig.CompType < 10
    · have h2' : u32 sig.CompType < comp_type_names.length := by rw [hlen2]; exact h2
      rw [List.getElem?_eq_getElem h2']
      simp only [bind, Except.bind, pure, Except.pure]
      exact ⟨⟨fun _ => ⟨h1, h2⟩, fun _ => ⟨_, rfl⟩⟩, fun h => absurd ⟨h1, h2⟩ h⟩
    · have h2' : comp_type_names.length ≤ u32 sig.CompType := by rw [hlen2]; omega
      rw [List.getElem?_eq_none h2']
      simp only [bind, Except.bind]
      refine ⟨⟨fun h => ?_, fun h => absurd h.2 h2⟩, fun _ => by first | rfl | trivial⟩
      obtain ⟨row, hrow⟩ := h
      cases hrow
  · have h1' : sys_value_names.length ≤ u32 sig.SystemValue := by rw [hlen1]; omega
    rw [List.getElem?_eq_none h1']
    simp only [bind, Except.bind]
    refine ⟨⟨fun h => ?_, fun h => absurd h.1 h1⟩, fun _ => by first | rfl | trivial⟩
    obtain ⟨row, hrow⟩ := h
    cases hrow

/-- Claim C29: the table `sys_value_names` has 24 entries and `comp_type_names` has 10.  The
row of an element is written exactly when its `SystemValue` is below 24 and its `CompType`
is below 10; for any other element the row is a read outside a name table, and so is the
whole table of a signature that holds such an element: `PrintSignature` makes no range
check of its own. -/
theorem PrintSignature_name_table_lookups (name : String) (signature : DxilProgramSignature)
    (mem : SignatureMemory) (is_input : Bool) (comment : String)
    (h32 : ∀ i, i < signature.ParamCount →
      (signatureElement signature mem i).SystemValue < 2 ^ 32
        ∧ (signatureElement signature mem i).CompType < 2 ^ 32) :
    (sys_value_names.length = 24 ∧ comp_type_names.length = 10) ∧
    (∀ i, i < signature.ParamCount → ∀ has_streams : Bool,
      (((sys_value_names[(signatureElement signature mem i).SystemValue]?).isSome = true
          ↔ (signatureElement signature mem i).SystemValue < 24) ∧
       ((comp_type_names[(signatureElement signature mem i).CompType]?).isSome = true
          ↔ (signatureElement signature mem i).CompType < 10)) ∧
      ((∃ row, signatureRow mem is_input has_streams comment (signatureElement signature mem i)
          = .ok row)
        ↔ ((signatureElement signature mem i).SystemValue < 24
            ∧ (signatureElement signature mem i).CompType < 10)) ∧
      (¬ ((signatureElement signature mem i).SystemValue < 24
            ∧ (signatureElement signature mem i).CompType < 10) →
        signatureRow mem is_input has_streams comment (signatureElement signature mem i)
          = .error .outOfRange)) ∧
    ((∃ text, PrintSignature name signature mem is_input comment = .ok text)
      ↔ ∀ i, i < signature.ParamCount →
          (signatureElement signature mem i).SystemValue < 24
            ∧ (signatureElement signature mem i).CompType < 10) ∧
    ((∃ i, i < signature.ParamCount ∧
        ¬ ((signatureElement signature mem i).SystemValue < 24
            ∧ (signatureElement signature mem i).CompType < 10)) →
      PrintSignature name signature mem is_input comment = .error .outOfRange) := by
  have hu : ∀ i, i < signature.ParamCount →
      u32 (signatureElement signature mem i).SystemValue
          = (signatureElement signature mem i).SystemValue
        ∧ u32 (signatureElement signature mem i).CompType
          = (signatureElement signature mem i).CompType :=
    fun i hi => ⟨Nat.mod_eq_of_lt (h32 i hi).1, Nat.mod_eq_of_lt (h32 i hi).2⟩
  have hrow : ∀ i, i < signature.ParamCount → ∀ has_streams : Bool,
      ((∃ row, signatureRow mem is_input has_streams comment (signatureElement signature mem i)
          = .ok row)
        ↔ ((signatureElement signature mem i).SystemValue < 24
            ∧ (signatureElement signature mem i).CompType < 10)) ∧
      (¬ ((signatureElement signature mem i).SystemValue < 24
            ∧ (signatureElement signature mem i).CompType < 10) →
        signatureRow mem is_input has_streams comment (signatureElement signature mem i)
          = .error .outOfRange) := by
    intro i hi has_streams
    have h := signatureRow_ok_iff mem is_input has_streams comment
      (signatureElement signature mem i)
    rw [(hu i hi).1, (hu i hi).2] at h
    exact h
  -- the elements the loop runs over
  have hget : ∀ (j : Nat) (x : DxilProgramSignatureElement),
      ((List.range signature.ParamCount).map (signatureElement signature mem))[j]? = some x →
      j < signature.ParamCount ∧ x = signatureElement signature mem j := by
    intro j x hx
    rw [List.getElem?_map] at hx
    cases hr : (List.range signature.ParamCount)[j]? with
    | none => rw [hr] at hx; cases hx
    | some k =>
      rw [hr] at hx
      have hk := List.getElem?_eq_some_iff.mp hr
      obtain ⟨hlt, hk⟩ := hk
      rw [List.getElem_range] at hk
      rw [List.length_range] at hlt
      subst hk
      simp only [Option.map_some', Option.some.injEq] at hx
      exact ⟨hlt, hx.symm⟩
  have hlen1 : sys_value_names.length = 24 := rfl
  have hlen2 : comp_type_names.length = 10 := rfl
  refine ⟨⟨rfl, rfl⟩, ?_, ?_, ?_⟩
  · intro i hi has_streams
    refine ⟨⟨?_, ?_⟩, hrow i hi has_streams⟩
    · rw [← hlen1]
      simp [Option.isSome_iff_ne_none]
    · rw [← hlen2]
      simp [Option.isSome_iff_ne_none]
  · by_cases hc : signature.ParamCount = 0
    · simp only [PrintSignature, hc, if_true, pure, Except.pure]
      exact ⟨fun _ i hi => absurd hi (Nat.not_lt_zero i), fun _ => ⟨_, rfl⟩⟩
    · constructor
      · intro ⟨text, htext⟩ i hi
        simp only [PrintSignature, hc, if_false, bind, Except.bind, pure, Except.pure] at htext
        split at htext
        · cases htext
        · rename_i rows hloop
          obtain ⟨_, _, x, hx, _⟩ := loopFrom_ok_get _ _ 0 i
            (signatureElement signature mem i) rows hloop (by
              rw [List.getElem?_map, List.getElem?_range hi]
              rfl)
          exact ((hrow i hi _).1).mp ⟨x, hx⟩
      · intro hall
        obtain ⟨rows, hrows⟩ := loopFrom_ok_of_forall
          (fun _ sig => signatureRow mem is_input
            (((List.range signature.ParamCount).map (signatureElement signature mem)).any
              (fun e => e.Stream ≠ 0)) comment sig)
          ((List.range signature.ParamCount).map (signatureElement signature mem)) 0
          (fun j x hx => by
            obtain ⟨hj, hxj⟩ := hget j x hx
            subst hxj
            exact ((hrow j hj _).1).mpr (hall j hj))
        exact ⟨signatureHeader name comment ++ rows ++ comment ++ endl, by
          simp only [PrintSignature, hc, if_false, bind, Except.bind, pure, Except.pure, hrows]⟩
  · intro ⟨i, hi, hbad⟩
    have hc : signature.ParamCount ≠ 0 := by omega
    have hloop := loopFrom_error_of_get
      (fun _ sig => signatureRow mem is_input
        (((List.range signature.ParamCount).map (signatureElement signature mem)).any
          (fun e => e.Stream ≠ 0)) comment sig) .outOfRange
      ((List.range signature.ParamCount).map (signatureElement signature mem)) 0
      (fun j x hx => by
        obtain ⟨hj, hxj⟩ := hget j x hx
        subst hxj
        by_cases hin : (signatureElement signature mem j).SystemValue < 24
            ∧ (signatureElement signature mem j).CompType < 10
        · exact Or.inl (((hrow j hj _).1).mpr hin)
        · exact Or.inr ((hrow j hj _).2 hin))
      ⟨i, signatureElement signature mem i, by
        rw [List.getElem?_map, List.getElem?_range hi]
        rfl, (hrow i hi _).2 hbad⟩
    simp only [PrintSignature, hc, if_false, bind, Except.bind, hloop]

set_option maxRecDepth 100000 in
/-- Claim C29, on a signature of one element whose `SystemValue` is 24: no row and no table
are written. -/
theorem PrintSignature_name_table_lookups_witness :
    PrintSignature "Input" ⟨1, 8⟩
        ⟨32, fun _ => ⟨0, 0, 0, 24, 3, 0, 15, 0⟩, fun _ => "TEXCOORD"⟩ true ";"
      = .error .outOfRange :=
  (PrintSignature_name_table_lookups "Input" ⟨1, 8⟩
    ⟨32, fun _ => ⟨0, 0, 0, 24, 3, 0, 15, 0⟩, fun _ => "TEXCOORD"⟩ true ";"
    (fun _ _ => ⟨(by decide : (24 : Nat) < 2 ^ 32), (by decide : (3 : Nat) < 2 ^ 32)⟩)).2.2.2 ⟨0, by decide, by decide⟩

/-- Two loops whose bodies write the same for every element write the same. -/
theorem loopFrom_congr {α : Type} (body body' : Nat → α → Except Fault String) :
    ∀ (xs : List α) (i : Nat),
      (∀ (j : Nat) (x : α), xs[j]? = some x → body (i + j) x = body' (i + j) x) →
      loopFrom body i xs = loopFrom body' i xs := by
  intro xs
  induction xs with
  | nil => intro i _; rfl
  | cons y ys ih =>
    intro i h
    have h0 := h 0 y (by simp)
    rw [Nat.add_zero] at h0
    have hrest := ih (i + 1) (fun j x hx => by
      have := h (j + 1) x (by simpa using hx)
      have hidx : i + (j + 1) = i + 1 + j := by omega
      rw [hidx] at this
      exact this)
    simp only [loopFrom, h0, hrest]

/-- The row of an element reads the memory at the name offset of the element only. -/
theorem signatureRow_congr (mem mem' : SignatureMemory) (is_input has_streams : Bool)
    (comment : String) (sig : DxilProgramSignatureElement)
    (hname : mem'.stringAt sig.SemanticName = mem.stringAt sig.SemanticName) :
    signatureRow mem' is_input has_streams comment sig
      = signatureRow mem is_input has_streams comment sig := by
  simp only [signatureRow, hname]

set_option maxRecDepth 100000 in
/-- Claim C25, counterexample: a signature section of 64 bytes whose header gives one
element at byte offset 4096.  Two memories that hold the same bytes inside the section are
printed differently: the record at offset 4096 and the name at offset 8192, both behind the
section, are read and printed, and nothing is rejected. -/
theorem PrintSignature_reads_outside_counterexample :
    (∀ off, off + 32 ≤ 64 →
      (sectionMemory ⟨0, 8192, 0, 1, 3, 0, 15, 15⟩ "SV_Position").elementAt off
        = (sectionMemory ⟨0, 8192, 7, 0, 1, 2, 1, 1⟩ "COLOR").elementAt off) ∧
    (∀ off, off < 64 →
      (sectionMemory ⟨0, 8192, 0, 1, 3, 0, 15, 15⟩ "SV_Position").stringAt off
        = (sectionMemory ⟨0, 8192, 7, 0, 1, 2, 1, 1⟩ "COLOR").stringAt off) ∧
    PrintSignature "Input" ⟨1, 4096⟩
        (sectionMemory ⟨0, 8192, 0, 1, 3, 0, 15, 15⟩ "SV_Position") true ";"
      = .ok ";\n; Input signature:\n;\n; Name                 Index   Mask Register SysValue  Format   Used\n; -------------------- ----- ------ -------- -------- ------- ------\n; SV_Position              0   xyzw        0      POS   float   xyzw\n;\n" ∧
    PrintSignature "Input" ⟨1, 4096⟩
        (sectionMemory ⟨0, 8192, 7, 0, 1, 2, 1, 1⟩ "COLOR") true ";"
      = .ok ";\n; Input signature:\n;\n; Name                 Index   Mask Register SysValue  Format   Used\n; -------------------- ----- ------ -------- -------- ------- ------\n; COLOR                    7   x           2     NONE    uint   x   \n;\n" := by
  refine ⟨?_, ?_, ?_, ?_⟩
  · intro off h
    simp only [sectionMemory]
    rw [if_pos h, if_pos h]
  · intro off h
    simp only [sectionMemory]
    rw [if_pos h, if_pos h]
  · decide
  · decide

/-- Claim C25, amended: `PrintSignature` is given no size of the section and makes no
bounds check.  Element `i` is the record at byte offset `ParamOffset + i × (record size)`
from the start of the section, and its name is the string at the byte offset
`SemanticName` of that record, wherever these offsets point; what is printed depends on
the memory at these offsets only, and the table is printed for every `ParamOffset` and
every `SemanticName` when the records found there index the name tables in range. -/
theorem PrintSignature_reads_unchecked (name : String) (signature : DxilProgramSignature)
    (mem mem' : SignatureMemory) (is_input : Bool) (comment : String)
    (hrec : ∀ i, i < signature.ParamCount →
      mem'.elementAt (signature.ParamOffset + i * mem'.elementSize)
        = mem.elementAt (signature.ParamOffset + i * mem.elementSize))
    (hname : ∀ i, i < signature.ParamCount →
      mem'.stringAt (mem.elementAt (signature.ParamOffset + i * mem.elementSize)).SemanticName
        = mem.stringAt
            (mem.elementAt (signature.ParamOffset + i * mem.elementSize)).SemanticName) :
    PrintSignature name signature mem' is_input comment
      = PrintSignature name signature mem is_input comment ∧
    ((∀ i, i < signature.ParamCount →
        u32 (mem.elementAt (signature.ParamOffset + i * mem.elementSize)).SystemValue < 24
          ∧ u32 (mem.elementAt (signature.ParamOffset + i * mem.elementSize)).CompType < 10) →
      ∃ text, PrintSignature name signature mem is_input comment = .ok text) := by
  have helems : (List.range signature.ParamCount).map (signatureElement signature mem')
      = (List.range signature.ParamCount).map (signatureElement signature mem) := by
    apply List.map_congr_left
    intro i hi
    exact hrec i (List.mem_range.mp hi)
  have hget : ∀ (j : Nat) (x : DxilProgramSignatureElement),
      ((List.range signature.ParamCount).map (signatureElement signature mem))[j]? = some x →
      j < signature.ParamCount ∧ x = signatureElement signature mem j := by
    intro j x hx
    rw [List.getElem?_map] at hx
    cases hr : (List.range signature.ParamCount)[j]? with
    | none => rw [hr] at hx; cases hx
    | some k =>
      rw [hr] at hx
      obtain ⟨hlt, hk⟩ := List.getElem?_eq_some_iff.mp hr
      rw [List.getElem_range] at hk
      rw [List.length_range] at hlt
      subst hk
      simp only [Option.map_some', Option.some.injEq] at hx
      exact ⟨hlt, hx.symm⟩
  constructor
  · by_cases hc : signature.ParamCount = 0
    · simp only [PrintSignature, hc, if_true]
    · simp only [PrintSignature, hc, if_false, helems]
      rw [loopFrom_congr
        (fun _ sig => signatureRow mem' is_input
          (((List.range signature.ParamCount).map (signatureElement signature mem)).any
            (fun e => e.Stream ≠ 0)) comment sig)
        (fun _ sig => signatureRow mem is_input
          (((List.range signature.ParamCount).map (signatureElement signature mem)).any
            (fun e => e.Stream ≠ 0)) comment sig)
        _ 0 (fun j x hx => by
          obtain ⟨hj, hxj⟩ := hget j x hx
          subst hxj
          exact signatureRow_congr mem mem' is_input _ comment _ (hname j hj))]
  · intro hrange
    by_cases hc : signature.ParamCount = 0
    · exact ⟨signatureHeader name comment ++ comment ++ " no parameters" ++ endl, by
        simp only [PrintSignature, hc, if_true, pure, Except.pure]⟩
    · obtain ⟨rows, hrows⟩ := loopFrom_ok_of_forall
        (fun _ sig => signatureRow mem is_input
          (((List.range signature.ParamCount).map (signatureElement signature mem)).any
            (fun e => e.Stream ≠ 0)) comment sig)
        ((List.range signature.ParamCount).map (signatureElement signature mem)) 0
        (fun j x hx => by
          obtain ⟨hj, hxj⟩ := hget j x hx
          subst hxj
          exact ((signatureRow_ok_iff mem is_input _ comment _).1).mpr (hrange j hj))
      exact ⟨signatureHeader name comment ++ rows ++ comment ++ endl, by
        simp only [PrintSignature, hc, if_false, bind, Except.bind, pure, Except.pure, hrows]⟩

/-- Claim C25, amended, on the section of 64 bytes whose element lies at offset 4096: a
memory that differs from the first inside the section only is printed like the first. -/
theorem PrintSignature_reads_unchecked_witness :
    PrintSignature "Input" ⟨1, 4096⟩
        ⟨32, fun off => if off + 32 ≤ 64 then ⟨1, 1, 1, 1, 1, 1, 1, 1⟩
            else ⟨0, 8192, 0, 1, 3, 0, 15, 15⟩,
          fun off => if off < 64 then "inside" else "SV_Position"⟩ true ";"
      = PrintSignature "Input" ⟨1, 4096⟩
        (sectionMemory ⟨0, 8192, 0, 1, 3, 0, 15, 15⟩ "SV_Position") true ";" :=
  (PrintSignature_reads_unchecked "Input" ⟨1, 4096⟩
    (sectionMemory ⟨0, 8192, 0, 1, 3, 0, 15, 15⟩ "SV_Position")
    ⟨32, fun off => if off + 32 ≤ 64 then ⟨1, 1, 1, 1, 1, 1, 1, 1⟩
        else ⟨0, 8192, 0, 1, 3, 0, 15, 15⟩,
      fun off => if off < 64 then "inside" else "SV_Position"⟩ true ";"
    (fun i hi => by
      have h0 : i = 0 := by
        have : i < 1 := hi
        omega
      subst h0
      rfl)
    (fun i hi => by
      have h0 : i = 0 := by
        have : i < 1 := hi
        omega
      subst h0
      rfl)).1

/-! ## Pipeline runtime information -/

/-- The geometry and hull cases of `PrintPipelineStateValidationRuntimeInfo`, for indices
at which the name tables hold an entry. -/
theorem PrintPipelineStateValidationRuntimeInfo_dispatch_aux (buff : PSVBuffer)
    (comment : String) :
    (∀ inputPrimitive outputTopology : String,
      input_primitive_names[(buff.infoAt 4).GS.InputPrimitive]? = some inputPrimitive →
      primitive_topology_names[(buff.infoAt 4).GS.OutputTopology]? = some outputTopology →
      PrintPipelineStateValidationRuntimeInfo buff .Geometry comment
        = .ok (comment ++ "\n" ++ comment ++ " Pipeline Runtime Information:" ++ "\n"
            ++ comment ++ "\n"
            ++ comment ++ " Geometry Shader" ++ "\n"
            ++ comment ++ " InputPrimitive=" ++ inputPrimitive ++ "\n"
            ++ comment ++ " OutputTopology=" ++ outputTopology ++ "\n"
            ++ comment ++ " OutputStreamMask=" ++ dec (buff.infoAt 4).GS.OutputStreamMask ++ "\n"
            ++ comment ++ " OutputPositionPresent="
              ++ boolText (buff.infoAt 4).GS.OutputPositionPresent ++ "\n"
            ++ comment ++ "\n")) ∧
    (∀ domain outputPrimitive : String,
      tessellator_domain_names[(buff.infoAt 4).HS.TessellatorDomain]? = some domain →
      tessellator_output_primitive_names[(buff.infoAt 4).HS.TessellatorOutputPrimitive]?
        = some outputPrimitive →
      PrintPipelineStateValidationRuntimeInfo buff .Hull comment
        = .ok (comment ++ "\n" ++ comment ++ " Pipeline Runtime Information:" ++ "\n"
            ++ comment ++ "\n"
            ++ comment ++ " Hull Shader" ++ "\n"
            ++ comment ++ " InputControlPointCount="
              ++ dec (buff.infoAt 4).HS.InputControlPointCount ++ "\n"
            ++ comment ++ " OutputControlPointCount="
              ++ dec (buff.infoAt 4).HS.OutputControlPointCount ++ "\n"
            ++ comment ++ " Domain=" ++ domain ++ "\n"
            ++ comment ++ " OutputPrimitive=" ++ outputPrimitive ++ "\n"
            ++ comment ++ "\n")) := by
  refine ⟨?_, ?_⟩
  · intro a b ha hb
    simp only [PrintPipelineStateValidationRuntimeInfo, tableAt, ha, hb, endl, bind,
      Except.bind, pure, Except.pure, String.append_assoc]
  · intro a b ha hb
    simp only [PrintPipelineStateValidationRuntimeInfo, tableAt, ha, hb, endl, bind,
      Except.bind, pure, Except.pure, String.append_assoc]

/-- Claim C14: between its three header lines and its closing line
`PrintPipelineStateValidationRuntimeInfo` writes, after a line that names the kind, the
fields of the member selected by the shader kind alone: `OutputPositionPresent` for a
vertex shader; `DepthOutput`, `SampleFrequency` for a pixel shader; `InputPrimitive`,
`OutputTopology`, `OutputStreamMask`, `OutputPositionPresent` for a geometry shader;
`InputControlPointCount`, `OutputControlPointCount`, `Domain`, `OutputPrimitive` for a hull
shader; `InputControlPointCount`, `OutputPositionPresent` for a domain shader; and no line
at all for the other kinds. -/
theorem PrintPipelineStateValidationRuntimeInfo_dispatch (buff : PSVBuffer) (comment : String) :
    PrintPipelineStateValidationRuntimeInfo buff .Vertex comment
      = .ok (comment ++ "\n" ++ comment ++ " Pipeline Runtime Information:" ++ "\n"
          ++ comment ++ "\n"
          ++ comment ++ " Vertex Shader" ++ "\n"
          ++ comment ++ " OutputPositionPresent="
            ++ boolText (buff.infoAt 4).VS.OutputPositionPresent ++ "\n"
          ++ comment ++ "\n") ∧
    PrintPipelineStateValidationRuntimeInfo buff .Pixel comment
      = .ok (comment ++ "\n" ++ comment ++ " Pipeline Runtime Information:" ++ "\n"
          ++ comment ++ "\n"
          ++ comment ++ " Pixel Shader" ++ "\n"
          ++ comment ++ " DepthOutput=" ++ boolText (buff.infoAt 4).PS.DepthOutput ++ "\n"
          ++ comment ++ " SampleFrequency=" ++ boolText (buff.infoAt 4).PS.SampleFrequency ++ "\n"
          ++ comment ++ "\n") ∧
    (∀ inputPrimitive outputTopology : String,
      input_primitive_names[(buff.infoAt 4).GS.InputPrimitive]? = some inputPrimitive →
      primitive_topology_names[(buff.infoAt 4).GS.OutputTopology]? = some outputTopology →
      PrintPipelineStateValidationRuntimeInfo buff .Geometry comment
        = .ok (comment ++ "\n" ++ comment ++ " Pipeline Runtime Information:" ++ "\n"
            ++ comment ++ "\n"
            ++ comment ++ " Geometry Shader" ++ "\n"
            ++ comment ++ " InputPrimitive=" ++ inputPrimitive ++ "\n"
            ++ comment ++ " OutputTopology=" ++ outputTopology ++ "\n"
            ++ comment ++ " OutputStreamMask=" ++ dec (buff.infoAt 4).GS.OutputStreamMask ++ "\n"
            ++ comment ++ " OutputPositionPresent="
              ++ boolText (buff.infoAt 4).GS.OutputPositionPresent ++ "\n"
            ++ comment ++ "\n")) ∧
    (∀ domain outputPrimitive : String,
      tessellator_domain_names[(buff.infoAt 4).HS.TessellatorDomain]? = some domain →
      tessellator_output_primitive_names[(buff.infoAt 4).HS.TessellatorOutputPrimitive]?
        = some outputPrimitive →
      PrintPipelineStateValidationRuntimeInfo buff .Hull comment
        = .ok (comment ++ "\n" ++ comment ++ " Pipeline Runtime Information:" ++ "\n"
            ++ comment ++ "\n"
            ++ comment ++ " Hull Shader" ++ "\n"
            ++ comment ++ " InputControlPointCount="
              ++ dec (buff.infoAt 4).HS.InputControlPointCount ++ "\n"
            ++ comment ++ " OutputControlPointCount="
              ++ dec (buff.infoAt 4).HS.OutputControlPointCount ++ "\n"
            ++ comment ++ " Domain=" ++ domain ++ "\n"
            ++ comment ++ " OutputPrimitive=" ++ outputPrimitive ++ "\n"
            ++ comment ++ "\n")) ∧
    PrintPipelineStateValidationRuntimeInfo buff .Domain comment
      = .ok (comment ++ "\n" ++ comment ++ " Pipeline Runtime Information:" ++ "\n"
          ++ comment ++ "\n"
          ++ comment ++ " Domain Shader" ++ "\n"
          ++ comment ++ " InputControlPointCount="
            ++ dec (buff.infoAt 4).DS.InputControlPointCount ++ "\n"
          ++ comment ++ " OutputPositionPresent="
            ++ boolText (buff.infoAt 4).DS.OutputPositionPresent ++ "\n"
          ++ comment ++ "\n") ∧
    (∀ shader_kind : ShaderKind,
      shader_kind ≠ .Vertex → shader_kind ≠ .Pixel → shader_kind ≠ .Geometry →
      shader_kind ≠ .Hull → shader_kind ≠ .Domain →
      PrintPipelineStateValidationRuntimeInfo buff shader_kind comment
        = .ok (comment ++ "\n" ++ comment ++ " Pipeline Runtime Information:" ++ "\n"
            ++ comment ++ "\n"
            ++ comment ++ "\n")) := by
  refine ⟨?_, ?_, ?_, ?_, ?_, ?_⟩
  · simp only [PrintPipelineStateValidationRuntimeInfo, endl, bind, Except.bind, pure,
      Except.pure, String.append_assoc]
  · simp only [PrintPipelineStateValidationRuntimeInfo, endl, bind, Except.bind, pure,
      Except.pure, String.append_assoc]
  · intro a b ha hb
    simp only [PrintPipelineStateValidationRuntimeInfo, tableAt, ha, hb, endl, bind,
      Except.bind, pure, Except.pure, String.append_assoc]
  · intro a b ha hb
    simp only [PrintPipelineStateValidationRuntimeInfo, tableAt, ha, hb, endl, bind,
      Except.bind, pure, Except.pure, String.append_assoc]
  · simp only [PrintPipelineStateValidationRuntimeInfo, endl, bind, Except.bind, pure,
      Except.pure, String.append_assoc]
  · intro k h1 h2 h3 h4 h5
    cases k with
    | Vertex => exact absurd rfl h1
    | Pixel => exact absurd rfl h2
    | Geometry => exact absurd rfl h3
    | Hull => exact absurd rfl h4
    | Domain => exact absurd rfl h5
    | Compute =>
      simp only [PrintPipelineStateValidationRuntimeInfo, endl, bind, Except.bind, pure,
        Except.pure, String.append_assoc]
    | Invalid =>
      simp only [PrintPipelineStateValidationRuntimeInfo, endl, bind, Except.bind, pure,
        Except.pure, String.append_assoc]

/-- Claim C20, counterexample: for a geometry shader whose `InputPrimitive` is 40 the
renderer reads `input_primitive_names[40]`, outside the table of 40 entries; it does not
report an error of its own. -/
theorem PrintPipelineStateValidationRuntimeInfo_index_counterexample :
    input_primitive_names.length = 40
    ∧ PrintPipelineStateValidationRuntimeInfo (geometryBuffer 40 5) .Geometry ";"
      = .error .outOfRange := by
  constructor <;> decide

/-- Claim C20, amended: the renderer indexes its four name tables (of 40, 6, 4 and 5
entries) with the fields as they are, without a range check.  For in-range indices it
prints the table entries at those indices, `patch<k>` for `InputPrimitive = 7 + k` with
`1 ≤ k ≤ 32`; an index outside its table is read outside the table. -/
theorem PrintPipelineStateValidationRuntimeInfo_indices (buff : PSVBuffer) (comment : String) :
    (∀ k, 1 ≤ k → k ≤ 32 → input_primitive_names[7 + k]? = some ("patch" ++ dec k)) ∧
    ((buff.infoAt 4).GS.InputPrimitive < 40 → (buff.infoAt 4).GS.OutputTopology < 6 →
      ∃ inputPrimitive outputTopology : String,
        input_primitive_names[(buff.infoAt 4).GS.InputPrimitive]? = some inputPrimitive ∧
        primitive_topology_names[(buff.infoAt 4).GS.OutputTopology]? = some outputTopology ∧
        PrintPipelineStateValidationRuntimeInfo buff .Geometry comment
          = .ok (comment ++ "\n" ++ comment ++ " Pipeline Runtime Information:" ++ "\n"
              ++ comment ++ "\n"
              ++ comment ++ " Geometry Shader" ++ "\n"
              ++ comment ++ " InputPrimitive=" ++ inputPrimitive ++ "\n"
              ++ comment ++ " OutputTopology=" ++ outputTopology ++ "\n"
              ++ comment ++ " OutputStreamMask=" ++ dec (buff.infoAt 4).GS.OutputStreamMask
              ++ "\n"
              ++ comment ++ " OutputPositionPresent="
                ++ boolText (buff.infoAt 4).GS.OutputPositionPresent ++ "\n"
              ++ comment ++ "\n")) ∧
    ((buff.infoAt 4).HS.TessellatorDomain < 4 →
      (buff.infoAt 4).HS.TessellatorOutputPrimitive < 5 →
      ∃ domain outputPrimitive : String,
        tessellator_domain_names[(buff.infoAt 4).HS.TessellatorDomain]? = some domain ∧
        tessellator_output_primitive_names[(buff.infoAt 4).HS.TessellatorOutputPrimitive]?
          = some outputPrimitive ∧
        PrintPipelineStateValidationRuntimeInfo buff .Hull comment
          = .ok (comment ++ "\n" ++ comment ++ " Pipeline Runtime Information:" ++ "\n"
              ++ comment ++ "\n"
              ++ comment ++ " Hull Shader" ++ "\n"
              ++ comment ++ " InputControlPointCount="
                ++ dec (buff.infoAt 4).HS.InputControlPointCount ++ "\n"
              ++ comment ++ " OutputControlPointCount="
                ++ dec (buff.infoAt 4).HS.OutputControlPointCount ++ "\n"
              ++ comment ++ " Domain=" ++ domain ++ "\n"
              ++ comment ++ " OutputPrimitive=" ++ outputPrimitive ++ "\n"
              ++ comment ++ "\n")) ∧
    ((40 ≤ (buff.infoAt 4).GS.InputPrimitive ∨ 6 ≤ (buff.infoAt 4).GS.OutputTopology) →
      PrintPipelineStateValidationRuntimeInfo buff .Geometry comment = .error .outOfRange) ∧
    ((4 ≤ (buff.infoAt 4).HS.TessellatorDomain
        ∨ 5 ≤ (buff.infoAt 4).HS.TessellatorOutputPrimitive) →
      PrintPipelineStateValidationRuntimeInfo buff .Hull comment = .error .outOfRange) := by
  have hdispatch := PrintPipelineStateValidationRuntimeInfo_dispatch_aux buff comment
  refine ⟨?_, ?_, ?_, ?_, ?_⟩
  · intro k h1 h2
    interval_cases k <;> decide
  · intro h1 h2
    have l1 : (buff.infoAt 4).GS.InputPrimitive < input_primitive_names.length := h1
    have l2 : (buff.infoAt 4).GS.OutputTopology < primitive_topology_names.length := h2
    exact ⟨_, _, List.getElem?_eq_getElem l1, List.getElem?_eq_getElem l2,
      hdispatch.1 _ _ (List.getElem?_eq_getElem l1) (List.getElem?_eq_getElem l2)⟩
  · intro h1 h2
    have l1 : (buff.infoAt 4).HS.TessellatorDomain < tessellator_domain_names.length := h1
    have l2 : (buff.infoAt 4).HS.TessellatorOutputPrimitive
        < tessellator_output_primitive_names.length := h2
    exact ⟨_, _, List.getElem?_eq_getElem l1, List.getElem?_eq_getElem l2,
      hdispatch.2 _ _ (List.getElem?_eq_getElem l1) (List.getElem?_eq_getElem l2)⟩
  · intro h
    by_cases h1 : (buff.infoAt 4).GS.InputPrimitive < 40
    · have h2 : 6 ≤ (buff.infoAt 4).GS.OutputTopology := by omega
      have l1 : (buff.infoAt 4).GS.InputPrimitive < input_primitive_names.length := h1
      have l2 : primitive_topology_names.length ≤ (buff.infoAt 4).GS.OutputTopology := h2
      simp only [PrintPipelineStateValidationRuntimeInfo, tableAt, List.getElem?_eq_getElem l1,
        List.getElem?_eq_none l2, bind, Except.bind, pure, Except.pure]
    · have l1 : input_primitive_names.length ≤ (buff.infoAt 4).GS.InputPrimitive := by
        have : input_primitive_names.length = 40 := by decide
        omega
      simp only [PrintPipelineStateValidationRuntimeInfo, tableAt, List.getElem?_eq_none l1,
        bind, Except.bind]
  · intro h
    by_cases h1 : (buff.infoAt 4).HS.TessellatorDomain < 4
    · have h2 : 5 ≤ (buff.infoAt 4).HS.TessellatorOutputPrimitive := by omega
      have l1 : (buff.infoAt 4).HS.TessellatorDomain < tessellator_domain_names.length := h1
      have l2 : tessellator_output_primitive_names.length
          ≤ (buff.infoAt 4).HS.TessellatorOutputPrimitive := h2
      simp only [PrintPipelineStateValidationRuntimeInfo, tableAt, List.getElem?_eq_getElem l1,
        List.getElem?_eq_none l2, bind, Except.bind, pure, Except.pure]
    · have l1 : tessellator_domain_names.length ≤ (buff.infoAt 4).HS.TessellatorDomain := by
        have : tessellator_domain_names.length = 4 := by decide
        omega
      simp only [PrintPipelineStateValidationRuntimeInfo, tableAt, List.getElem?_eq_none l1,
        bind, Except.bind]

/-! ## Resource bindings -/

theorem withRangeSize_base (res : ResourceObject) (r : Nat) :
    (res.withRangeSize r).base = { res.base with RangeSize := r } := by
  cases res <;> rfl

theorem PrintResourceFormat_withRangeSize (res : ResourceObject) (r alignment : Nat) :
    PrintResourceFormat (res.withRangeSize r) alignment = PrintResourceFormat res alignment := by
  cases res <;> rfl

theorem PrintResourceDim_withRangeSize (res : ResourceObject) (r alignment : Nat) :
    PrintResourceDim (res.withRangeSize r) alignment = PrintResourceDim res alignment := by
  cases res <;> rfl

/-- Claim C8: the text `PrintResourceBinding` writes before the range column does not
depend on the range size (it is there whenever the format and dimension columns are), and
the range column is the literal `unbounded` when the range size is `UINT_MAX` (4294967295)
and the decimal range size, right-aligned to width 6, for every other value. -/
theorem PrintResourceBinding_range_column (res : ResourceObject) (comment : String) :
    ∃ columns : Except Fault String,
      (columns.toBool
        = ((PrintResourceFormat res 8).toBool && (PrintResourceDim res 12).toBool)) ∧
      ∀ r : Nat,
        PrintResourceBinding (res.withRangeSize r) comment
          = columns.map (fun os =>
              os ++ (if r = 4294967295 then "unbounded\n" else setwRight 6 (dec r) ++ "\n")) := by
  have hunb : setwRight 6 "unbounded\n" = "unbounded\n" := by decide
  refine ⟨(do
    let fmt ← PrintResourceFormat res 8
    let dim ← PrintResourceDim res 12
    pure (comment ++ " " ++ setwLeft 31 res.base.GlobalName
      ++ setwRight 10 res.base.ResClassName ++ fmt ++ dim
      ++ setwRight 8 (res.base.ResIDPrefix ++ dec res.base.ID)
      ++ setwRight 15
          (if res.base.SpaceID ≠ 0 then
            res.base.ResBindPrefix ++ dec res.base.LowerBound
              ++ (",space" ++ dec res.base.SpaceID)
           else res.base.ResBindPrefix ++ dec res.base.LowerBound))), ?_, fun r => ?_⟩
  · cases PrintResourceFormat res 8 with
    | error e => rfl
    | ok fmt =>
      cases PrintResourceDim res 12 with
      | error e => rfl
      | ok dim => rfl
  simp only [PrintResourceBinding, PrintResourceFormat_withRangeSize,
    PrintResourceDim_withRangeSize, withRangeSize_base, UINT_MAX]
  cases PrintResourceFormat res 8 with
  | error e => rfl
  | ok fmt =>
    cases PrintResourceDim res 12 with
    | error e => rfl
    | ok dim =>
      by_cases hr : r = 4294967295
      · simp [bind, Except.bind, Except.map, pure, Except.pure, hr, hunb, String.append_assoc]
      · simp [bind, Except.bind, Except.map, pure, Except.pure, hr, String.append_assoc]

/-- The row of the example constant buffer with an unbounded range. -/
theorem PrintResourceBinding_unbounded_example :
    PrintResourceBinding (.cbuffer { exampleCBuffer with RangeSize := 4294967295 }) ";"
      = .ok "; cb                                cbuffer      NA          NA     CB0            cb0unbounded\n"
    ∧ PrintResourceBinding (.cbuffer { exampleCBuffer with RangeSize := 7 }) ";"
      = .ok "; cb                                cbuffer      NA          NA     CB0            cb0     7\n" := by
  constructor <;> decide

/-- A loop whose body writes the text `rows[j]` for element `j` writes the rows one after
the other. -/
theorem loopFrom_forall₂ {α : Type} (body : α → Except Fault String) :
    ∀ (xs : List α) (rows : List String) (i : Nat),
      List.Forall₂ (fun x row => body x = .ok row) xs rows →
      loopFrom (fun _ x => body x) i xs = .ok (cat rows) := by
  intro xs rows i h
  induction h generalizing i with
  | nil => rfl
  | cons hx _ ih =>
    simp only [loopFrom, hx, ih, bind, Except.bind, pure, Except.pure, cat]

/-- Claim C15: when every resource of the module has a row, `PrintResourceBindings` writes
its five header lines, then the rows of the constant buffers, of the samplers, of the
shader-resource views and of the unordered-access views, each collection in its stored
order, then a closing line; the number of rows is the sum of the four collection sizes. -/
theorem PrintResourceBindings_rows (module : DxilModule) (comment : String)
    (rowsCB rowsSampler rowsSRV rowsUAV : List String)
    (hCB : List.Forall₂ (fun res row => PrintResourceBinding (.cbuffer res) comment = .ok row)
      module.CBuffers rowsCB)
    (hSampler : List.Forall₂
      (fun res row => PrintResourceBinding (.sampler res) comment = .ok row)
      module.Samplers rowsSampler)
    (hSRV : List.Forall₂ (fun res row => PrintResourceBinding (.resource res) comment = .ok row)
      module.SRVs rowsSRV)
    (hUAV : List.Forall₂ (fun res row => PrintResourceBinding (.resource res) comment = .ok row)
      module.UAVs rowsUAV) :
    PrintResourceBindings module comment
      = .ok (comment ++ "\n"
          ++ comment ++ " Resource Bindings:\n"
          ++ comment ++ "\n"
          ++ comment ++ " Name                                 Type  Format         Dim      ID      HLSL Bind  Count\n"
          ++ comment ++ " ------------------------------ ---------- ------- ----------- ------- -------------- ------\n"
          ++ cat (rowsCB ++ rowsSampler ++ rowsSRV ++ rowsUAV)
          ++ comment ++ "\n")
    ∧ (rowsCB ++ rowsSampler ++ rowsSRV ++ rowsUAV).length
      = module.CBuffers.length + module.Samplers.length + module.SRVs.length
        + module.UAVs.length := by
  constructor
  · have h1 := loopFrom_forall₂ (fun res => PrintResourceBinding (.cbuffer res) comment)
      _ _ 0 hCB
    have h2 := loopFrom_forall₂ (fun res => PrintResourceBinding (.sampler res) comment)
      _ _ 0 hSampler
    have h3 := loopFrom_forall₂ (fun res => PrintResourceBinding (.resource res) comment)
      _ _ 0 hSRV
    have h4 := loopFrom_forall₂ (fun res => PrintResourceBinding (.resource res) comment)
      _ _ 0 hUAV
    simp only [PrintResourceBindings, resourceBindingsHeader, h1, h2, h3, h4, bind,
      Except.bind, pure, Except.pure, cat_append, String.append_assoc]
  · simp only [List.length_append, hCB.length_eq, hSampler.length_eq, hSRV.length_eq,
      hUAV.length_eq]

/-- Claim C15, on the module with the constant buffer `cb` and the structured buffer `sb`:
the row of `cb` comes first, the row of `sb` second. -/
theorem PrintResourceBindings_rows_witness :
    PrintResourceBindings exampleModule ";"
      = .ok (";" ++ "\n"
          ++ ";" ++ " Resource Bindings:\n"
          ++ ";" ++ "\n"
          ++ ";" ++ " Name                                 Type  Format         Dim      ID      HLSL Bind  Count\n"
          ++ ";" ++ " ------------------------------ ---------- ------- ----------- ------- -------------- ------\n"
          ++ cat (["; cb                                cbuffer      NA          NA     CB0            cb0     1\n"]
              ++ [] ++ ["; sb                                texture  struct         r/o      T0             t0     1\n"]
              ++ [])
          ++ ";" ++ "\n")
    ∧ (["; cb                                cbuffer      NA          NA     CB0            cb0     1\n"]
          ++ [] ++ ["; sb                                texture  struct         r/o      T0             t0     1\n"]
          ++ ([] : List String)).length
      = exampleModule.CBuffers.length + exampleModule.Samplers.length
        + exampleModule.SRVs.length + exampleModule.UAVs.length :=
  PrintResourceBindings_rows exampleModule ";" _ _ _ _
    (List.Forall₂.cons (by decide) List.Forall₂.nil) List.Forall₂.nil
    (List.Forall₂.cons (by decide) List.Forall₂.nil) List.Forall₂.nil

/-- Claim C22: in the row of a resource, after the name, class, format and dimension
columns, the ID column is the ID prefix followed by the decimal id, right-aligned to
width 8, and the bind column is the bind prefix followed by the decimal lower bound,
followed by `,space<space id>` exactly when the space id is not 0, right-aligned to
width 15; the count column follows. -/
theorem PrintResourceBinding_id_bind_columns (res : ResourceObject) (comment : String)
    (format dim : String)
    (hformat : PrintResourceFormat res 8 = .ok format)
    (hdim : PrintResourceDim res 12 = .ok dim) :
    PrintResourceBinding res comment
      = .ok (comment ++ " " ++ setwLeft 31 res.base.GlobalName
          ++ setwRight 10 res.base.ResClassName ++ format ++ dim
          ++ setwRight 8 (res.base.ResIDPrefix ++ dec res.base.ID)
          ++ setwRight 15 (res.base.ResBindPrefix ++ dec res.base.LowerBound
              ++ (if res.base.SpaceID ≠ 0 then ",space" ++ dec res.base.SpaceID else ""))
          ++ (if res.base.RangeSize ≠ 4294967295 then
                setwRight 6 (dec res.base.RangeSize) ++ "\n"
              else "unbounded\n")) := by
  have hunb : setwRight 6 "unbounded\n" = "unbounded\n" := by decide
  by_cases hs : res.base.SpaceID = 0 <;> by_cases hr : res.base.RangeSize = 4294967295 <;>
    simp [PrintResourceBinding, hformat, hdim, hs, hr, hunb, UINT_MAX, bind, Except.bind, pure,
      Except.pure, String.append_assoc]

set_option maxRecDepth 100000 in
/-- Claim C22, on the view `uav` with id 1, lower bound 3 and space 2, and on the same view
in space 0. -/
theorem PrintResourceBinding_id_bind_columns_witness :
    PrintResourceBinding (.resource exampleUAV) ";"
      = .ok "; uav                                   UAV  struct     r/w+cnt      U1      u3,space2     1\n"
    ∧ PrintResourceBinding (.resource { exampleUAV with SpaceID := 0 }) ";"
      = .ok "; uav                                   UAV  struct     r/w+cnt      U1             u3     1\n" := by
  constructor
  · rw [PrintResourceBinding_id_bind_columns (.resource exampleUAV) ";"
      "  struct" "     r/w+cnt" (by decide) (by decide)]
    decide
  · rw [PrintResourceBinding_id_bind_columns (.resource { exampleUAV with SpaceID := 0 }) ";"
      "  struct" "     r/w+cnt" (by decide) (by decide)]
    decide

/-- Claim C23: `PrintResourceDim` writes, right-aligned to the given width, `NA` for a
constant buffer or a sampler; for a raw or structured buffer `r/o` when the class is SRV
and, when the class is UAV, `r/w` without a counter and `r/w+cnt` with one; `buf` for a
typed buffer; for `Texture2DMS` and `Texture2DMSArray` the dimension name followed by the
decimal sample count exactly when the sample count is not 0; and the dimension name alone
for every other kind. -/
theorem PrintResourceDim_column (alignment : Nat) :
    (∀ res : ResourceObject, res.base.Class = .CBuffer ∨ res.base.Class = .Sampler →
      PrintResourceDim res alignment = .ok (setwRight alignment "NA")) ∧
    (∀ res : ResourceObject, res.base.Class = .SRV →
      res.base.Kind = .RawBuffer ∨ res.base.Kind = .StructuredBuffer →
      PrintResourceDim res alignment = .ok (setwRight alignment "r/o")) ∧
    (∀ r : DxilResource, r.Class = .UAV →
      r.Kind = .RawBuffer ∨ r.Kind = .StructuredBuffer →
      PrintResourceDim (.resource r) alignment
        = .ok (setwRight alignment (if r.HasCounter then "r/w+cnt" else "r/w"))) ∧
    (∀ res : ResourceObject, res.base.Class = .SRV ∨ res.base.Class = .UAV →
      res.base.Kind = .TypedBuffer →
      PrintResourceDim res alignment = .ok (setwRight alignment "buf")) ∧
    (∀ r : DxilResource, r.Class = .SRV ∨ r.Class = .UAV →
      r.Kind = .Texture2DMS ∨ r.Kind = .Texture2DMSArray →
      PrintResourceDim (.resource r) alignment
        = .ok (setwRight alignment
            (r.ResDimName ++ (if r.SampleCount ≠ 0 then dec r.SampleCount else "")))) ∧
    (∀ res : ResourceObject, res.base.Class = .SRV ∨ res.base.Class = .UAV →
      res.base.Kind = .TBuffer ∨ res.base.Kind = .Other →
      PrintResourceDim res alignment = .ok (setwRight alignment res.base.ResDimName)) := by
  refine ⟨?_, ?_, ?_, ?_, ?_, ?_⟩
  · intro res hc
    rcases hc with hc | hc <;> simp [PrintResourceDim, hc]
  · intro res hc hk
    rcases hk with hk | hk <;> simp [PrintResourceDim, hc, hk]
  · intro r hc hk
    have hc' : (ResourceObject.resource r).base.Class = .UAV := hc
    rcases hk with hk | hk <;>
      · have hk' : (ResourceObject.resource r).base.Kind = _ := hk
        cases hcnt : r.HasCounter <;>
          simp [PrintResourceDim, hc', hk', ResourceObject.asResource, hcnt, bind, Except.bind,
            pure, Except.pure]
  · intro res hc hk
    rcases hc with hc | hc <;> simp [PrintResourceDim, hc, hk]
  · intro r hc hk
    have hd : (ResourceObject.resource r).base.ResDimName = r.ResDimName := rfl
    rcases hc with hc | hc <;> rcases hk with hk | hk <;>
      · have hc' : (ResourceObject.resource r).base.Class = _ := hc
        have hk' : (ResourceObject.resource r).base.Kind = _ := hk
        by_cases hs : r.SampleCount = 0 <;>
          simp [PrintResourceDim, hc', hk', hd, ResourceObject.asResource, hs, bind, Except.bind,
            pure, Except.pure]
  · intro res hc hk
    rcases hc with hc | hc <;> rcases hk with hk | hk <;> simp [PrintResourceDim, hc, hk]

/-! ## The annotation store -/

theorem SetFieldName0_same (type_sys : DxilTypeSystem) (st : Nat) (name : String) :
    DxilTypeSystem.GetStructAnnotation (type_sys.SetFieldName0 st name) st
      = ( type_sys.GetStructAnnotation st).map ( DxilStructAnnotation.withFirstFieldName name) := by
  simp only [DxilTypeSystem.SetFieldName0, if_true]
  cases type_sys.GetStructAnnotation st with
  | none => rfl
  | some a => rfl

theorem SetFieldName0_other (type_sys : DxilTypeSystem) (st k : Nat) (name : String)
    (hk : k ≠ st) :
    DxilTypeSystem.GetStructAnnotation (type_sys.SetFieldName0 st name) k
      = type_sys.GetStructAnnotation k := by
  simp only [DxilTypeSystem.SetFieldName0, hk, if_false]

theorem withFirstFieldName_idem (name : String) (a : DxilStructAnnotation) :
    (a.withFirstFieldName name).withFirstFieldName name = a.withFirstFieldName name := by
  cases a with
  | mk fields size =>
    cases fields with
    | nil => rfl
    | cons f fs => rfl

/-- A property of the store before and after that holds when nothing is done and on going
on holds after a loop as soon as it holds after each run of the body. -/
theorem loopState_invariant {α σ : Type} (R : σ → σ → Prop) (hrefl : ∀ s, R s s)
    (htrans : ∀ a b c, R a b → R b c → R a c)
    (body : α → σ → Except Fault (String × σ)) :
    ∀ xs : List α,
      (∀ x, x ∈ xs → ∀ (s : σ) (t : String) (s' : σ), body x s = .ok (t, s') → R s s') →
      ∀ (s : σ) (t : String) (s' : σ), loopState body xs s = .ok (t, s') → R s s' := by
  intro xs
  induction xs with
  | nil =>
    intro _ s t s' h
    simp only [loopState] at h
    injection h with h
    injection h with _ h
    rw [← h]
    exact hrefl s
  | cons y ys ih =>
    intro hbody s t s' h
    simp only [loopState, bind, Except.bind, pure, Except.pure] at h
    cases hy : body y s with
    | error e => rw [hy] at h; cases h
    | ok r =>
      obtain ⟨t1, s1⟩ := r
      rw [hy] at h
      simp only at h
      cases hr : loopState body ys s1 with
      | error e => rw [hr] at h; cases h
      | ok r2 =>
        obtain ⟨t2, s2⟩ := r2
        rw [hr] at h
        simp only at h
        injection h with h
        injection h with _ h
        rw [← h]
        exact htrans s s1 s2 (hbody y (List.mem_cons_self y ys) s t1 s1 hy)
          (ih (fun x hx => hbody x (List.mem_cons_of_mem y hx)) s1 t2 s2 hr)

/-- The store after `PrintStructBufferDefinition`: the store before, or the store before
with `SetFieldName("$Element")` applied to the first field of one record; the store before
when the element type is a struct that is no lowered matrix. -/
theorem PrintStructBufferDefinition_store (hl : HLMatrixLower) (fuel : Nat)
    (buff : DxilResource) (type_sys : DxilTypeSystem) (dl : DataLayout) (comment : String)
    (text : String) (type_sys' : DxilTypeSystem)
    (hrun : PrintStructBufferDefinition hl fuel buff type_sys dl comment
      = .ok (text, type_sys')) :
    (type_sys' = type_sys ∨ ∃ st, type_sys' = type_sys.SetFieldName0 st "$Element") ∧
    ((!buff.RetType.IsStructType || hl.IsMatrixType buff.RetType) = false →
      type_sys' = type_sys) := by
  unfold PrintStructBufferDefinition at hrun
  simp only [bind, Except.bind, pure, Except.pure] at hrun
  cases hcase : (!buff.RetType.IsStructType || hl.IsMatrixType buff.RetType) with
  | true =>
    refine ⟨?_, fun h => by cases h⟩
    rw [hcase] at hrun
    simp only [if_true] at hrun
    cases hst : castStructType (resourceElementType buff.GlobalSymbolPointee) with
    | error e => rw [hst] at hrun; cases hrun
    | ok st =>
      rw [hst] at hrun
      simp only at hrun
      cases ha : type_sys.GetStructAnnotation st with
      | none =>
        rw [ha] at hrun
        simp only at hrun
        injection hrun with hrun
        injection hrun with _ hrun
        exact Or.inl hrun.symm
      | some a =>
        rw [ha] at hrun
        simp only at hrun
        cases hf : a.fields[0]? with
        | none => rw [hf] at hrun; cases hrun
        | some field =>
          rw [hf] at hrun
          simp only at hrun
          split at hrun
          · cases hrun
          · injection hrun with hrun
            injection hrun with _ hrun
            exact Or.inr ⟨st, hrun.symm⟩
  | false =>
    rw [hcase] at hrun
    simp only [Bool.false_eq_true, if_false] at hrun
    have hsame : type_sys' = type_sys := by
      cases hst : castStructType buff.RetType with
      | error e => rw [hst] at hrun; cases hrun
      | ok st =>
        rw [hst] at hrun
        simp only at hrun
        cases ha : type_sys.GetStructAnnotation st with
        | none =>
          rw [ha] at hrun
          simp only at hrun
          injection hrun with hrun
          injection hrun with _ hrun
          exact hrun.symm
        | some a =>
          rw [ha] at hrun
          simp only at hrun
          split at hrun
          · cases hrun
          · injection hrun with hrun
            injection hrun with _ hrun
            exact hrun.symm
    exact ⟨Or.inl hsame, fun _ => hsame⟩

set_option maxRecDepth 100000 in
/-- Claim C24, counterexample: on a module whose constant buffer `cb` and whose structured
buffer `sb` of `float4` elements are declared with the struct type `Outer`, the fields of
`Outer` are named `a` and `s` before `PrintBufferDefinitions` and `$Element` and `s` after
it, and the text of a second rendering, with the store the first one left, is not the text
of the first. -/
theorem PrintBufferDefinitions_renames_counterexample :
    ( sharedTypeModule.TypeSystem.GetStructAnnotation 1).map
        (fun a => a.fields.map (fun f => f.FieldName)) = some ["a", "s"]
    ∧ (PrintBufferDefinitions exampleHL 4 sharedTypeModule ";").map
        (fun r => ( DxilTypeSystem.GetStructAnnotation r.2 1).map
          (fun a => a.fields.map (fun f => f.FieldName)))
      = .ok (some ["$Element", "s"])
    ∧ (do
        let first ← PrintBufferDefinitions exampleHL 4 sharedTypeModule ";"
        let second ← PrintBufferDefinitions exampleHL 4
          { sharedTypeModule with TypeSystem := first.2 } ";"
        pure (first.1 == second.1) : Except Fault Bool)
      = .ok false := by
  refine ⟨?_, ?_, ?_⟩ <;> decide

/-- Claim C24, amended: `PrintBufferDefinitions` leaves every record of the store as it was
or with the name of its first field replaced by `$Element`, which keeps the number of
fields, the record size, every other field and the offset, component type and matrix
annotation of the first field; it leaves the store as it was when the element type of every
structured buffer among the shader-resource and unordered-access views is a struct that is
no lowered matrix. -/
theorem PrintBufferDefinitions_store (hl : HLMatrixLower) (fuel : Nat) (mod : DxilModule)
    (comment : String) (text : String) (type_sys' : DxilTypeSystem)
    (hrun : PrintBufferDefinitions hl fuel mod comment = .ok (text, type_sys')) :
    (∀ st, type_sys'.GetStructAnnotation st = mod.TypeSystem.GetStructAnnotation st
      ∨ type_sys'.GetStructAnnotation st
        = ( mod.TypeSystem.GetStructAnnotation st).map
            ( DxilStructAnnotation.withFirstFieldName "$Element")) ∧
    ((∀ res, res ∈ mod.SRVs ∨ res ∈ mod.UAVs → res.IsStructuredBuffer = true →
        (!res.RetType.IsStructType || hl.IsMatrixType res.RetType) = false) →
      type_sys' = mod.TypeSystem) ∧
    (∀ a : DxilStructAnnotation,
      (a.withFirstFieldName "$Element").CBufferSize = a.CBufferSize
      ∧ (a.withFirstFieldName "$Element").fields.length = a.fields.length
      ∧ (a.withFirstFieldName "$Element").fields.tail = a.fields.tail
      ∧ ∀ f, a.fields.head? = some f →
          (a.withFirstFieldName "$Element").fields.head?
            = some { f with FieldName := "$Element" }) := by
  -- what `withFirstFieldName` keeps
  have hkeeps : ∀ a : DxilStructAnnotation,
      (a.withFirstFieldName "$Element").CBufferSize = a.CBufferSize
      ∧ (a.withFirstFieldName "$Element").fields.length = a.fields.length
      ∧ (a.withFirstFieldName "$Element").fields.tail = a.fields.tail
      ∧ ∀ f, a.fields.head? = some f →
          (a.withFirstFieldName "$Element").fields.head?
            = some { f with FieldName := "$Element" } := by
    intro a
    cases a with
    | mk fields size =>
      cases fields with
      | nil => exact ⟨rfl, rfl, rfl, fun f hf => by cases hf⟩
      | cons g gs =>
        refine ⟨rfl, rfl, rfl, fun f hf => ?_⟩
        injection hf with hf
        subst hf
        rfl
  -- the relation between the store before and the store after
  have hrefl : ∀ s : DxilTypeSystem,
      (∀ st, s.GetStructAnnotation st = s.GetStructAnnotation st
        ∨ s.GetStructAnnotation st = ( s.GetStructAnnotation st).map
            ( DxilStructAnnotation.withFirstFieldName "$Element")) ∧
      ((∀ res, res ∈ mod.SRVs ∨ res ∈ mod.UAVs → res.IsStructuredBuffer = true →
          (!res.RetType.IsStructType || hl.IsMatrixType res.RetType) = false) → s = s) :=
    fun _ => ⟨fun _ => Or.inl rfl, fun _ => rfl⟩
  have htrans : ∀ a b c : DxilTypeSystem,
      ((∀ st, b.GetStructAnnotation st = a.GetStructAnnotation st
        ∨ b.GetStructAnnotation st = ( a.GetStructAnnotation st).map
            ( DxilStructAnnotation.withFirstFieldName "$Element")) ∧
      ((∀ res, res ∈ mod.SRVs ∨ res ∈ mod.UAVs → res.IsStructuredBuffer = true →
          (!res.RetType.IsStructType || hl.IsMatrixType res.RetType) = false) → b = a)) →
      ((∀ st, c.GetStructAnnotation st = b.GetStructAnnotation st
        ∨ c.GetStructAnnotation st = ( b.GetStructAnnotation st).map
            ( DxilStructAnnotation.withFirstFieldName "$Element")) ∧
      ((∀ res, res ∈ mod.SRVs ∨ res ∈ mod.UAVs → res.IsStructuredBuffer = true →
          (!res.RetType.IsStructType || hl.IsMatrixType res.RetType) = false) → c = b)) →
      ((∀ st, c.GetStructAnnotation st = a.GetStructAnnotation st
        ∨ c.GetStructAnnotation st = ( a.GetStructAnnotation st).map
            ( DxilStructAnnotation.withFirstFieldName "$Element")) ∧
      ((∀ res, res ∈ mod.SRVs ∨ res ∈ mod.UAVs → res.IsStructuredBuffer = true →
          (!res.RetType.IsStructType || hl.IsMatrixType res.RetType) = false) → c = a)) := by
    intro a b c hab hbc
    refine ⟨fun st => ?_, fun hall => (hbc.2 hall).trans (hab.2 hall)⟩
    rcases hab.1 st with hb | hb <;> rcases hbc.1 st with hc | hc
    · exact Or.inl (hc.trans hb)
    · exact Or.inr (by rw [hc, hb])
    · exact Or.inr (hc.trans hb)
    · refine Or.inr ?_
      rw [hc, hb]
      cases a.GetStructAnnotation st with
      | none => rfl
      | some r =>
        simp only [Option.map_some', withFirstFieldName_idem]
  have hstep : ∀ s s' : DxilTypeSystem,
      (s' = s ∨ ∃ st, s' = s.SetFieldName0 st "$Element") →
      ∀ st, s'.GetStructAnnotation st = s.GetStructAnnotation st
        ∨ s'.GetStructAnnotation st = ( s.GetStructAnnotation st).map
            ( DxilStructAnnotation.withFirstFieldName "$Element") := by
    intro s s' h st
    rcases h with h | ⟨k, h⟩
    · exact Or.inl (by rw [h])
    · by_cases hk : st = k
      · subst hk
        exact Or.inr (by rw [h, SetFieldName0_same])
      · exact Or.inl (by rw [h, SetFieldName0_other _ _ _ _ hk])
  have hsb : ∀ (res : DxilResource) (s : DxilTypeSystem) (t : String) (s' : DxilTypeSystem),
      (res ∈ mod.SRVs ∨ res ∈ mod.UAVs) →
      PrintStructBufferDefinition hl fuel res s mod.DataLayout comment = .ok (t, s') →
      res.IsStructuredBuffer = true →
      (∀ st, s'.GetStructAnnotation st = s.GetStructAnnotation st
        ∨ s'.GetStructAnnotation st = ( s.GetStructAnnotation st).map
            ( DxilStructAnnotation.withFirstFieldName "$Element")) ∧
      ((∀ res, res ∈ mod.SRVs ∨ res ∈ mod.UAVs → res.IsStructuredBuffer = true →
          (!res.RetType.IsStructType || hl.IsMatrixType res.RetType) = false) → s' = s) := by
    intro res s t s' hmem h hkind
    have hst := PrintStructBufferDefinition_store hl fuel res s mod.DataLayout comment t s' h
    exact ⟨hstep s s' hst.1, fun hall => hst.2 (hall res hmem hkind)⟩
  -- the three loops and the stores between them
  unfold PrintBufferDefinitions at hrun
  simp only [bind, Except.bind, pure, Except.pure] at hrun
  split at hrun
  · cases hrun
  · rename_i r1 h1
    split at hrun
    · cases hrun
    · rename_i r2 h2
      split at hrun
      · cases hrun
      · rename_i r3 h3
        injection hrun with hrun
        injection hrun with _ hstore
        subst hstore
        have q1 := by
          refine loopState_invariant _ hrefl htrans _ mod.CBuffers ?_ mod.TypeSystem r1.1 r1.2 h1
          intro x _ s t s' h
          simp only at h
          split at h
          · cases h
          · injection h with h
            injection h with _ h
            rw [← h]
            exact hrefl s
        have q2 := by
          refine loopState_invariant _ hrefl htrans _ mod.SRVs ?_ r1.2 r2.1 r2.2 h2
          intro x hx s t s' h
          simp only at h
          by_cases hkind : x.IsStructuredBuffer = true
          · rw [if_pos hkind] at h
            exact hsb x s t s' (Or.inl hx) h hkind
          · rw [if_neg hkind] at h
            by_cases htb : x.IsTBuffer = true
            · rw [if_pos htb] at h
              split at h
              · cases h
              · injection h with h
                injection h with _ h
                rw [← h]
                exact hrefl s
            · rw [if_neg htb] at h
              injection h with h
              injection h with _ h
              rw [← h]
              exact hrefl s
        have q3 := by
          refine loopState_invariant _ hrefl htrans _ mod.UAVs ?_ r2.2 r3.1 r3.2 h3
          intro x hx s t s' h
          simp only at h
          by_cases hkind : x.IsStructuredBuffer = true
          · rw [if_pos hkind] at h
            exact hsb x s t s' (Or.inr hx) h hkind
          · rw [if_neg hkind] at h
            injection h with h
            injection h with _ h
            rw [← h]
            exact hrefl s
        have q := htrans _ _ _ (htrans _ _ _ q1 q2) q3
        exact ⟨q.1, q.2, hkeeps⟩

set_option maxRecDepth 100000 in
/-- Claim C24, amended, on the module whose constant buffer `cb` and whose structured buffer
`sb` of `float4` elements are declared with the struct type `Outer`: after the rendering
the record of `Outer` is the record before with the name of its first field replaced by
`$Element`. -/
theorem PrintBufferDefinitions_store_witness :
    DxilTypeSystem.GetStructAnnotation (exampleStore.SetFieldName0 1 "$Element") 1
        = sharedTypeModule.TypeSystem.GetStructAnnotation 1
      ∨ DxilTypeSystem.GetStructAnnotation (exampleStore.SetFieldName0 1 "$Element") 1
        = ( sharedTypeModule.TypeSystem.GetStructAnnotation 1).map
            ( DxilStructAnnotation.withFirstFieldName "$Element") :=
  (PrintBufferDefinitions_store exampleHL 4 sharedTypeModule ";"
    ";\n; Buffer Definitions:\n;\n; cbuffer cb\n; \x7b\n;\n;   struct Outer\n;   \x7b\n;\n;                                                  int a;                                        ; Offset:    0\n;                                                  struct Inner\n;                                                  \x7b\n;\n;                                              float x;                                  ; Offset:   16\n;                                              float3 v;                                 ; Offset:   20\n;                                                  \n;                                                  \x7d s                                           ; Offset:   16\n;\n;   \n;   \x7d cb                                              ; Offset:    0 Size:    32\n;\n; \x7d\n;\n; Resource bind info for sb\n; \x7b\n;\n;   int4 $Element;                                    ; Offset:    0 Size:    32\n;\n; \x7d\n;\n"
    (exampleStore.SetFieldName0 1 "$Element") rfl).1 1

/-! ## The container -/

theorem getElem?_findIdx_eq_find? {α : Type} (p : α → Bool) (l : List α) :
    l[l.findIdx p]? = l.find? p := by
  induction l with
  | nil => simp
  | cons x xs ih =>
    simp only [List.findIdx_cons, List.find?_cons]
    cases h : p x <;> simp [ih]

theorem findIdx_eq_length_iff_find? {α : Type} (p : α → Bool) (l : List α) :
    l.findIdx p = l.length ↔ l.find? p = none := by
  rw [List.findIdx_eq_length, List.find?_eq_none]
  constructor
  · intro h x hx
    simp [h x hx]
  · intro h x hx
    simpa using h x hx

/-- The part `Disassemble` takes the bitcode from: without a part tagged DXIL the macro
`TERROR` is reached; with one, the first part tagged as debug DXIL is taken when there is
one, and the first part tagged DXIL otherwise. -/
theorem selectDxilPart_eq (container : DxilContainerHeader) :
    selectDxilPart container
      = (match firstPart container .DFCC_DXIL with
        | none => .error (.terror "This container doesn't have DXIL.")
        | some part =>
          match firstPart container .DFCC_ShaderDebugInfoDXIL with
          | some debug => .ok debug
          | none => .ok part) := by
  unfold selectDxilPart firstPart
  cases hd : container.parts.find? (fun part => part.PartFourCC = .DFCC_DXIL) with
  | none =>
    have hlen := (findIdx_eq_length_iff_find? _ _).mpr hd
    simp only [hlen, if_true, TERROR, bind, Except.bind]
  | some part =>
    have hne : ¬ container.parts.findIdx (fun part => decide (part.PartFourCC = .DFCC_DXIL))
        = container.parts.length := by
      intro h
      rw [(findIdx_eq_length_iff_find? _ _).mp h] at hd
      cases hd
    simp only [hne, if_false, bind, Except.bind, pure, Except.pure]
    cases hdbg : container.parts.findIdx?
        (fun part => decide (part.PartFourCC = .DFCC_ShaderDebugInfoDXIL)) with
    | none =>
      have hnone : container.parts.find?
          (fun part => decide (part.PartFourCC = .DFCC_ShaderDebugInfoDXIL)) = none := by
        rw [List.find?_eq_none]
        intro x hx
        have := (List.findIdx?_eq_none_iff.mp hdbg) x hx
        simp [this]
      simp only [hnone, getElem?_findIdx_eq_find?, hd]
    | some i =>
      obtain ⟨hi, hidx⟩ := List.findIdx?_eq_some_iff_findIdx_eq.mp hdbg
      have hget : container.parts[i]? = container.parts.find?
          (fun part => decide (part.PartFourCC = .DFCC_ShaderDebugInfoDXIL)) := by
        rw [← hidx]
        exact getElem?_findIdx_eq_find? _ _
      have hsome : ∃ d, container.parts[i]? = some d := ⟨_, List.getElem?_eq_getElem hi⟩
      obtain ⟨d, hdpart⟩ := hsome
      simp only [hdpart]
      rw [← hget, hdpart]

/-- In a list without two parts of the same tag, the first part with a tag is the same
after the parts are permuted. -/
theorem find?_tag_perm {parts parts' : List DxilPartHeader} (hperm : parts'.Perm parts)
    (hnodup : (parts.map (fun part => part.PartFourCC)).Nodup) (fourCC : DxilFourCC) :
    parts'.find? (fun part => part.PartFourCC = fourCC)
      = parts.find? (fun part => part.PartFourCC = fourCC) := by
  cases h : parts.find? (fun part => decide (part.PartFourCC = fourCC)) with
  | none =>
    rw [List.find?_eq_none] at h ⊢
    intro x hx
    exact h x (hperm.mem_iff.mp hx)
  | some a =>
    have ha : a ∈ parts := List.mem_of_find?_eq_some h
    have hpa : a.PartFourCC = fourCC := by simpa using List.find?_some h
    cases h' : parts'.find? (fun part => decide (part.PartFourCC = fourCC)) with
    | none =>
      rw [List.find?_eq_none] at h'
      have := h' a (hperm.mem_iff.mpr ha)
      simp [hpa] at this
    | some b =>
      have hb : b ∈ parts := hperm.mem_iff.mp (List.mem_of_find?_eq_some h')
      have hpb : b.PartFourCC = fourCC := by simpa using List.find?_some h'
      have := List.inj_on_of_nodup_map hnodup hb ha (by rw [hpa, hpb])
      rw [this]

/-- The report of a loaded module starts with the text written before it; when the loader
throws, the report is empty. -/
theorem renderModule_ok (col : Collaborators) (fuel : Nat) (oss : String) (il : List Nat)
    (text : String) (h : renderModule col fuel oss il = .ok text) :
    text = "" ∨ ∃ rest, text = oss ++ rest := by
  unfold renderModule at h
  cases hl : col.LoadLLVMModule il with
  | error e =>
    rw [hl] at h
    injection h with h
    exact Or.inl h.symm
  | ok module =>
    right
    rw [hl] at h
    simp only [bind, Except.bind, pure, Except.pure] at h
    cases hv : module.hasDxVersion with
    | true =>
      simp only [hv, if_true] at h
      repeat' (split at h <;> try (cases h; done))
      injection h with h
      subst h
      simp only [String.append_assoc]
      exact ⟨_, rfl⟩
    | false =>
      simp only [hv, Bool.false_eq_true, if_false] at h
      repeat' (split at h <;> try (cases h; done))
      injection h with h
      subst h
      exact ⟨_, rfl⟩

/-- A section of the container fails only by a fault of its printer. -/
theorem partSection_error (container : DxilContainerHeader) (fourCC : DxilFourCC)
    (render : DxilPartHeader → Except Fault String) (e : DisasmError)
    (h : partSection container fourCC render = .error e) : ∃ f, e = .fault f := by
  cases hp : firstPart container fourCC with
  | none => simp [partSection, hp, pure, Except.pure] at h
  | some part =>
    cases hr : render part with
    | ok s => simp [partSection, hp, hr, liftFault] at h
    | error f =>
      simp only [partSection, hp, hr, liftFault] at h
      injection h with h
      exact ⟨f, h.symm⟩

/-- The sections of a container are the same after its parts are permuted, when no two
parts have the same tag. -/
theorem partSection_perm {container container' : DxilContainerHeader}
    (hperm : container'.parts.Perm container.parts)
    (hnodup : (container.parts.map (fun part => part.PartFourCC)).Nodup)
    (fourCC : DxilFourCC) (render : DxilPartHeader → Except Fault String) :
    partSection container' fourCC render = partSection container fourCC render := by
  unfold partSection firstPart
  rw [find?_tag_perm hperm hnodup fourCC]

theorem selectDxilPart_perm {container container' : DxilContainerHeader}
    (hperm : container'.parts.Perm container.parts)
    (hnodup : (container.parts.map (fun part => part.PartFourCC)).Nodup) :
    selectDxilPart container' = selectDxilPart container := by
  rw [selectDxilPart_eq, selectDxilPart_eq]
  unfold firstPart
  rw [find?_tag_perm hperm hnodup, find?_tag_perm hperm hnodup]

/-- The steps of `Disassemble` on a container, one after the other. -/
theorem Disassemble_container (col : Collaborators) (fuel : Nat) (program : Program)
    (container : DxilContainerHeader) (hc : program.container = some container) :
    Disassemble col fuel program
      = (if col.IsValidDxilContainer container program.il_length = false then
          .error (.terror "This container is invalid.")
        else
          (partSection container .DFCC_FeatureInfo
            (fun part => pure (PrintFeatureInfo part.featureInfo ";"))).bind fun feature =>
          (partSection container .DFCC_InputSignature
            (fun part => PrintSignature "Input" part.signature part.signatureMemory true ";")).bind
          fun input =>
          (partSection container .DFCC_OutputSignature
            (fun part => PrintSignature "Output" part.signature part.signatureMemory false
              ";")).bind
          fun output =>
          (partSection container .DFCC_PatchConstantSignature
            (fun part => PrintSignature "Patch Constant signature" part.signature
              part.signatureMemory false ";")).bind
          fun patch =>
          (selectDxilPart container).bind fun dxil_part =>
          if col.IsValidDxilProgramHeader dxil_part.programHeader dxil_part.PartSize = false then
            .error (.terror "The program header in this is container is invalid.")
          else
            (partSection container .DFCC_PipelineStateValidation
              (fun part => PrintPipelineStateValidationRuntimeInfo part.runtimeInfo
                (col.GetVersionShaderType dxil_part.programHeader.ProgramVersion) ";")).bind
            fun runtime =>
            renderModule col fuel (feature ++ input ++ output ++ patch ++ runtime)
              dxil_part.programHeader.Bitcode) := by
  unfold Disassemble
  simp only [hc]
  cases hv : col.IsValidDxilContainer container program.il_length with
  | false => rfl
  | true =>
    simp only [Bool.not_true, Bool.false_eq_true, if_false, bind, Except.bind, TERROR]
    congr 1
    funext feature
    congr 1
    funext input
    congr 1
    funext output
    congr 1
    funext patch
    congr 1
    funext dxil_part
    cases hh : col.IsValidDxilProgramHeader dxil_part.programHeader dxil_part.PartSize with
    | false => rfl
    | true => rfl

/-- Claim C16, counterexample: a container whose only part is tagged as debug DXIL has such
a part, and `Disassemble` does not select it: it stops with the error that the container
has no DXIL. -/
theorem Disassemble_debug_only_counterexample :
    (firstPart ⟨[examplePart .DFCC_ShaderDebugInfoDXIL]⟩ .DFCC_ShaderDebugInfoDXIL).isSome = true
    ∧ Disassemble exampleCollaborators 4 (exampleProgram [examplePart .DFCC_ShaderDebugInfoDXIL])
      = .error (.terror "This container doesn't have DXIL.") := by
  constructor <;> decide

/-- Claim C16, amended: when the container has a part tagged DXIL, the bitcode part
`Disassemble` selects is the first part tagged as debug DXIL if there is one, and the first
part tagged DXIL otherwise, first in the order of the part table; without a part tagged
DXIL no part is selected and the disassembly stops with an error, also when a debug part
is present.  The bitcode handed to the loader is the one of the selected part. -/
theorem selectDxilPart_prefers_debug (container : DxilContainerHeader) :
    (∀ part debug, firstPart container .DFCC_DXIL = some part →
      firstPart container .DFCC_ShaderDebugInfoDXIL = some debug →
      selectDxilPart container = .ok debug) ∧
    (∀ part, firstPart container .DFCC_DXIL = some part →
      firstPart container .DFCC_ShaderDebugInfoDXIL = none →
      selectDxilPart container = .ok part) ∧
    (firstPart container .DFCC_DXIL = none →
      selectDxilPart container = .error (.terror "This container doesn't have DXIL.")) ∧
    (∀ fourCC part, firstPart container fourCC = some part →
      part.PartFourCC = fourCC ∧
      ∃ before after, container.parts = before ++ part :: after ∧
        ∀ earlier ∈ before, earlier.PartFourCC ≠ fourCC) ∧
    (∀ (col : Collaborators) (fuel : Nat) (program : Program) (text : String),
      program.container = some container →
      Disassemble col fuel program = .ok text →
      ∃ part oss, selectDxilPart container = .ok part ∧
        renderModule col fuel oss part.programHeader.Bitcode = .ok text) := by
  refine ⟨?_, ?_, ?_, ?_, ?_⟩
  · intro part debug h1 h2
    rw [selectDxilPart_eq, h1, h2]
  · intro part h1 h2
    rw [selectDxilPart_eq, h1, h2]
  · intro h1
    rw [selectDxilPart_eq, h1]
  · intro fourCC part h
    unfold firstPart at h
    obtain ⟨hp, before, after, hsplit, hbefore⟩ := List.find?_eq_some.mp h
    refine ⟨by simpa using hp, before, after, hsplit, ?_⟩
    intro earlier he
    simpa using hbefore earlier he
  · intro col fuel program text hc hrun
    rw [Disassemble_container col fuel program container hc] at hrun
    split at hrun
    · cases hrun
    · cases h1 : partSection container .DFCC_FeatureInfo
          (fun part => pure (PrintFeatureInfo part.featureInfo ";")) with
      | error e => rw [h1] at hrun; cases hrun
      | ok feature =>
        cases h2 : partSection container .DFCC_InputSignature
            (fun part => PrintSignature "Input" part.signature part.signatureMemory true ";") with
        | error e => rw [h1, h2] at hrun; cases hrun
        | ok input =>
          cases h3 : partSection container .DFCC_OutputSignature
              (fun part => PrintSignature "Output" part.signature part.signatureMemory false
                ";") with
          | error e => rw [h1, h2, h3] at hrun; cases hrun
          | ok output =>
            cases h4 : partSection container .DFCC_PatchConstantSignature
                (fun part => PrintSignature "Patch Constant signature" part.signature
                  part.signatureMemory false ";") with
            | error e => rw [h1, h2, h3, h4] at hrun; cases hrun
            | ok patch =>
              cases h5 : selectDxilPart container with
              | error e => rw [h1, h2, h3, h4, h5] at hrun; cases hrun
              | ok dxil_part =>
                rw [h1, h2, h3, h4, h5] at hrun
                simp only [Except.bind] at hrun
                split at hrun
                · cases hrun
                · cases h6 : partSection container .DFCC_PipelineStateValidation
                      (fun part => PrintPipelineStateValidationRuntimeInfo part.runtimeInfo
                        (col.GetVersionShaderType dxil_part.programHeader.ProgramVersion)
                        ";") with
                  | error e => rw [h6] at hrun; cases hrun
                  | ok runtime =>
                    rw [h6] at hrun
                    exact ⟨dxil_part, _, rfl, hrun⟩

/-- Claim C17: in the report of a container the sections stand in the order feature info,
input signature, output signature, patch-constant signature, pipeline runtime info, each
rendered from the first part with its tag (and empty without such a part), whatever the
order of the parts; and when no two parts have the same tag, permuting the parts leaves the
result of `Disassemble` unchanged. -/
theorem Disassemble_section_order (col : Collaborators) (fuel : Nat) (program : Program)
    (container : DxilContainerHeader) (text : String)
    (hc : program.container = some container)
    (hrun : Disassemble col fuel program = .ok text) :
    (∃ (feature input output patch runtime : String) (dxil_part : DxilPartHeader),
      partSection container .DFCC_FeatureInfo
        (fun part => pure (PrintFeatureInfo part.featureInfo ";")) = .ok feature ∧
      partSection container .DFCC_InputSignature
        (fun part => PrintSignature "Input" part.signature part.signatureMemory true ";")
        = .ok input ∧
      partSection container .DFCC_OutputSignature
        (fun part => PrintSignature "Output" part.signature part.signatureMemory false ";")
        = .ok output ∧
      partSection container .DFCC_PatchConstantSignature
        (fun part => PrintSignature "Patch Constant signature" part.signature
          part.signatureMemory false ";") = .ok patch ∧
      selectDxilPart container = .ok dxil_part ∧
      partSection container .DFCC_PipelineStateValidation
        (fun part => PrintPipelineStateValidationRuntimeInfo part.runtimeInfo
          (col.GetVersionShaderType dxil_part.programHeader.ProgramVersion) ";")
        = .ok runtime ∧
      (text = "" ∨ ∃ rest, text = feature ++ input ++ output ++ patch ++ runtime ++ rest)) ∧
    (∀ (program' : Program) (container' : DxilContainerHeader),
      program'.container = some container' →
      container'.parts.Perm container.parts →
      (container.parts.map (fun part => part.PartFourCC)).Nodup →
      col.IsValidDxilContainer container' program'.il_length
        = col.IsValidDxilContainer container program.il_length →
      Disassemble col fuel program' = .ok text) := by
  constructor
  · rw [Disassemble_container col fuel program container hc] at hrun
    split at hrun
    · cases hrun
    · cases h1 : partSection container .DFCC_FeatureInfo
          (fun part => pure (PrintFeatureInfo part.featureInfo ";")) with
      | error e => rw [h1] at hrun; cases hrun
      | ok feature =>
        cases h2 : partSection container .DFCC_InputSignature
            (fun part => PrintSignature "Input" part.signature part.signatureMemory true ";") with
        | error e => rw [h1, h2] at hrun; cases hrun
        | ok input =>
          cases h3 : partSection container .DFCC_OutputSignature
              (fun part => PrintSignature "Output" part.signature part.signatureMemory false
                ";") with
          | error e => rw [h1, h2, h3] at hrun; cases hrun
          | ok output =>
            cases h4 : partSection container .DFCC_PatchConstantSignature
                (fun part => PrintSignature "Patch Constant signature" part.signature
                  part.signatureMemory false ";") with
            | error e => rw [h1, h2, h3, h4] at hrun; cases hrun
            | ok patch =>
              cases h5 : selectDxilPart container with
              | error e => rw [h1, h2, h3, h4, h5] at hrun; cases hrun
              | ok dxil_part =>
                rw [h1, h2, h3, h4, h5] at hrun
                simp only [Except.bind] at hrun
                split at hrun
                · cases hrun
                · cases h6 : partSection container .DFCC_PipelineStateValidation
                      (fun part => PrintPipelineStateValidationRuntimeInfo part.runtimeInfo
                        (col.GetVersionShaderType dxil_part.programHeader.ProgramVersion)
                        ";") with
                  | error e => rw [h6] at hrun; cases hrun
                  | ok runtime =>
                    rw [h6] at hrun
                    exact ⟨feature, input, output, patch, runtime, dxil_part, rfl, rfl, rfl,
                      rfl, rfl, h6, renderModule_ok col fuel _ _ text hrun⟩
  · intro program' container' hc' hperm hnodup hvalid
    rw [← hrun, Disassemble_container col fuel program container hc,
      Disassemble_container col fuel program' container' hc', hvalid,
      selectDxilPart_perm hperm hnodup]
    simp only [partSection_perm hperm hnodup]

set_option maxRecDepth 100000 in
/-- Claim C17, on a container whose parts are stored in the order runtime info, DXIL, input
signature, feature info: the input signature still comes before the runtime info in the
report, and the report is the same when the parts are stored in the opposite order. -/
theorem Disassemble_section_order_witness :
    Disassemble exampleCollaborators 4
        (exampleProgram [examplePart .DFCC_FeatureInfo, examplePart .DFCC_InputSignature,
          examplePart .DFCC_DXIL, examplePart .DFCC_PipelineStateValidation])
      = .ok ";\n; Input signature:\n;\n; Name                 Index   Mask Register SysValue  Format   Used\n; -------------------- ----- ------ -------- -------- ------- ------\n; no parameters\n;\n; Pipeline Runtime Information:\n;\n; Vertex Shader\n; OutputPositionPresent=1\n;\n; module\n" :=
  (Disassemble_section_order exampleCollaborators 4
    (exampleProgram [examplePart .DFCC_PipelineStateValidation, examplePart .DFCC_DXIL,
      examplePart .DFCC_InputSignature, examplePart .DFCC_FeatureInfo])
    ⟨[examplePart .DFCC_PipelineStateValidation, examplePart .DFCC_DXIL,
      examplePart .DFCC_InputSignature, examplePart .DFCC_FeatureInfo]⟩
    _ rfl (by decide)).2
    (exampleProgram [examplePart .DFCC_FeatureInfo, examplePart .DFCC_InputSignature,
      examplePart .DFCC_DXIL, examplePart .DFCC_PipelineStateValidation])
    ⟨[examplePart .DFCC_FeatureInfo, examplePart .DFCC_InputSignature,
      examplePart .DFCC_DXIL, examplePart .DFCC_PipelineStateValidation]⟩
    rfl
    (List.reverse_perm [examplePart .DFCC_PipelineStateValidation, examplePart .DFCC_DXIL,
      examplePart .DFCC_InputSignature, examplePart .DFCC_FeatureInfo])
    (by decide) rfl

/-- The steps of `Disassemble` on a container up to the program header test do not call
the loader: when a section faults, no bitcode part is selected or the program header of
the selected part is rejected, the result is the same error for every loader. -/
theorem Disassemble_stops_before_loader (col : Collaborators) (fuel : Nat) (program : Program)
    (container : DxilContainerHeader) (hc : program.container = some container)
    (hvalid : col.IsValidDxilContainer container program.il_length = true)
    (msg : String)
    (hstop : selectDxilPart container = .error (.terror msg)
      ∨ ∃ part, selectDxilPart container = .ok part
          ∧ col.IsValidDxilProgramHeader part.programHeader part.PartSize = false
          ∧ msg = "The program header in this is container is invalid.") :
    ∃ e, (e = .terror msg ∨ ∃ f, e = .fault f) ∧
      ∀ loader : List Nat → Except String LLVMModule,
        Disassemble { col with LoadLLVMModule := loader } fuel program = .error e := by
  have hform : ∀ loader : List Nat → Except String LLVMModule,
      Disassemble { col with LoadLLVMModule := loader } fuel program = _ :=
    fun loader => Disassemble_container { col with LoadLLVMModule := loader } fuel program
      container hc
  simp only [hvalid, Bool.true_eq_false, if_false] at hform
  cases h1 : partSection container .DFCC_FeatureInfo
      (fun part => pure (PrintFeatureInfo part.featureInfo ";")) with
  | error e =>
    refine ⟨e, Or.inr (partSection_error _ _ _ _ h1), fun loader => ?_⟩
    rw [hform loader, h1]
    rfl
  | ok feature =>
    cases h2 : partSection container .DFCC_InputSignature
        (fun part => PrintSignature "Input" part.signature part.signatureMemory true ";") with
    | error e =>
      refine ⟨e, Or.inr (partSection_error _ _ _ _ h2), fun loader => ?_⟩
      rw [hform loader, h1, h2]
      rfl
    | ok input =>
      cases h3 : partSection container .DFCC_OutputSignature
          (fun part => PrintSignature "Output" part.signature part.signatureMemory false
            ";") with
      | error e =>
        refine ⟨e, Or.inr (partSection_error _ _ _ _ h3), fun loader => ?_⟩
        rw [hform loader, h1, h2, h3]
        rfl
      | ok output =>
        cases h4 : partSection container .DFCC_PatchConstantSignature
            (fun part => PrintSignature "Patch Constant signature" part.signature
              part.signatureMemory false ";") with
        | error e =>
          refine ⟨e, Or.inr (partSection_error _ _ _ _ h4), fun loader => ?_⟩
          rw [hform loader, h1, h2, h3, h4]
          rfl
        | ok patch =>
          refine ⟨.terror msg, Or.inl rfl, fun loader => ?_⟩
          rw [hform loader, h1, h2, h3, h4]
          rcases hstop with hsel | ⟨part, hsel, hhdr, hmsg⟩
          · rw [hsel]
            rfl
          · rw [hsel]
            simp only [Except.bind, hhdr, if_true, hmsg]

/-- Claim C18: for a container-like input, when the validator rejects the container,
`Disassemble` ends with the error `This container is invalid.` whatever the parts hold, no
section being rendered before the test; when the container has no part tagged DXIL, or
the program header of the selected part is rejected, `Disassemble` ends with an error as
well (the error of the macro `TERROR`, unless a signature printer has left defined
behaviour before).  In all three cases the result is the same for every loader: the
loader is not called and no report text is returned. -/
theorem Disassemble_fatal (col : Collaborators) (fuel : Nat) (program : Program)
    (container : DxilContainerHeader) (hc : program.container = some container) :
    (col.IsValidDxilContainer container program.il_length = false →
      ∀ loader : List Nat → Except String LLVMModule,
        Disassemble { col with LoadLLVMModule := loader } fuel program
          = .error (.terror "This container is invalid.")) ∧
    (col.IsValidDxilContainer container program.il_length = true →
      firstPart container .DFCC_DXIL = none →
      ∃ e, (e = .terror "This container doesn't have DXIL." ∨ ∃ f, e = .fault f) ∧
        ∀ loader : List Nat → Except String LLVMModule,
          Disassemble { col with LoadLLVMModule := loader } fuel program = .error e) ∧
    (col.IsValidDxilContainer container program.il_length = true →
      ∀ part, selectDxilPart container = .ok part →
      col.IsValidDxilProgramHeader part.programHeader part.PartSize = false →
      ∃ e, (e = .terror "The program header in this is container is invalid."
          ∨ ∃ f, e = .fault f) ∧
        ∀ loader : List Nat → Except String LLVMModule,
          Disassemble { col with LoadLLVMModule := loader } fuel program = .error e) := by
  refine ⟨?_, ?_, ?_⟩
  · intro hv loader
    rw [Disassemble_container { col with LoadLLVMModule := loader } fuel program container hc]
    simp only [hv, if_true]
  · intro hv hnone
    refine Disassemble_stops_before_loader col fuel program container hc hv _ (Or.inl ?_)
    rw [selectDxilPart_eq, hnone]
  · intro hv part hsel hhdr
    exact Disassemble_stops_before_loader col fuel program container hc hv _
      (Or.inr ⟨part, hsel, hhdr, rfl⟩)

/-- Claim C18, on a container with an input signature part and a DXIL part whose program
header is rejected: the result is the error of the program header, and no text. -/
theorem Disassemble_fatal_witness :
    ∃ e, (e = .terror "The program header in this is container is invalid."
        ∨ ∃ f, e = .fault f) ∧
      ∀ loader : List Nat → Except String LLVMModule,
        Disassemble { exampleCollaborators with LoadLLVMModule := loader } 4
          (exampleProgram [examplePart .DFCC_InputSignature,
            { examplePart .DFCC_DXIL with PartSize := 0 }]) = .error e :=
  (Disassemble_fatal exampleCollaborators 4
    (exampleProgram [examplePart .DFCC_InputSignature,
      { examplePart .DFCC_DXIL with PartSize := 0 }])
    ⟨[examplePart .DFCC_InputSignature, { examplePart .DFCC_DXIL with PartSize := 0 }]⟩
    rfl).2.2 rfl { examplePart .DFCC_DXIL with PartSize := 0 } rfl rfl

/-! ## Feature flags -/

/-- Claim C9: `PrintFeatureInfo` writes nothing for the flag word 0; for any other word it
writes, between its two header lines and its closing line, exactly one name line for each
set bit `i < 16`, in ascending order of `i`, carrying entry `i` of the name table, and the
number of name lines is the population count of the low 16 bits. -/
theorem PrintFeatureInfo_name_lines (f : Nat) (comment : String) :
    feature_info_names.length = 16 ∧
    (f = 0 → PrintFeatureInfo ⟨f⟩ comment = "") ∧
    (f ≠ 0 → ∃ idxs : List Nat,
      idxs.Pairwise (fun a b => a < b) ∧
      (∀ i, i ∈ idxs ↔ i < 16 ∧ f.testBit i = true) ∧
      idxs.length = (Nat.digits 2 (f % 2 ^ 16)).sum ∧
      PrintFeatureInfo ⟨f⟩ comment =
        comment ++ "\n" ++ comment ++ " Note: shader requires additional functionality:" ++ "\n"
          ++ cat (idxs.map (fun i =>
              comment ++ "       " ++ feature_info_names.getD i "" ++ "\n"))
          ++ comment ++ "\n") := by
  refine ⟨by decide, fun h => by simp [PrintFeatureInfo, h], fun h => ?_⟩
  refine ⟨(List.range 16).filter (fun i => f.testBit i), ?_, ?_, ?_, ?_⟩
  · exact List.Pairwise.filter _ (List.pairwise_lt_range 16)
  · intro i
    simp [List.mem_filter, List.mem_range]
  · rw [← length_filter_testBit 16 (f % 2 ^ 16) (Nat.mod_lt _ (by decide))]
    congr 1
    apply List.filter_congr
    intro i hi
    have hi16 : i < 16 := List.mem_range.mp hi
    rw [Nat.testBit_mod_two_pow]
    simp [hi16]
  · simp only [PrintFeatureInfo, if_neg h, forLoop, DSFI_Count, cat_map_ite, featureLine, endl]

/-- Claim C10, counterexample: the word with only bit 16 set makes `PrintFeatureInfo` write
its two header lines and its closing line, while the same word with the bits from position
16 on cleared (the word 0) writes nothing. -/
theorem PrintFeatureInfo_high_bit_counterexample :
    PrintFeatureInfo ⟨65536⟩ ";" = ";\n; Note: shader requires additional functionality:\n;\n"
      ∧ PrintFeatureInfo ⟨65536 % 2 ^ 16⟩ ";" = ""
      ∧ PrintFeatureInfo ⟨65536⟩ ";" ≠ PrintFeatureInfo ⟨65536 % 2 ^ 16⟩ ";" := by
  refine ⟨by decide, by decide, by decide⟩

/-- Claim C10, amended: the name lines ignore the bits from position 16 on.  For a flag word
whose low 16 bits are not all zero the text equals the text for the word with the higher
bits cleared; a nonzero word whose low 16 bits are all zero writes the two header lines
and the closing line and no name line; the word 0 writes nothing. -/
theorem PrintFeatureInfo_ignores_high_bits (f : Nat) (comment : String) :
    (f % 2 ^ 16 ≠ 0 → PrintFeatureInfo ⟨f⟩ comment = PrintFeatureInfo ⟨f % 2 ^ 16⟩ comment) ∧
    (f ≠ 0 → f % 2 ^ 16 = 0 → PrintFeatureInfo ⟨f⟩ comment =
      comment ++ "\n" ++ comment ++ " Note: shader requires additional functionality:" ++ "\n"
        ++ comment ++ "\n") ∧
    (f = 0 → PrintFeatureInfo ⟨f⟩ comment = "") := by
  refine ⟨fun h => ?_, fun h h0 => ?_, fun h => by simp [PrintFeatureInfo, h]⟩
  · have hf : f ≠ 0 := by
      intro hz
      apply h
      simp [hz]
    simp only [PrintFeatureInfo, if_neg hf, if_neg h]
    rw [forLoop_congr DSFI_Count _ (fun i =>
      if (f % 2 ^ 16).testBit i then featureLine comment i else "")]
    intro i hi
    have hi16 : i < 16 := hi
    rw [Nat.testBit_mod_two_pow]
    simp [hi16]
  · simp only [PrintFeatureInfo, if_neg h]
    have hloop : forLoop DSFI_Count (fun i =>
        if f.testBit i then featureLine comment i else "") = "" := by
      rw [forLoop_congr DSFI_Count _ (fun _ => "")]
      · exact cat_map_empty _
      · intro i hi
        have hi16 : i < 16 := hi
        have hb : (f % 2 ^ 16).testBit i = false := by rw [h0]; exact Nat.zero_testBit i
        rw [Nat.testBit_mod_two_pow] at hb
        simp [hi16] at hb
        simp [hb]
    rw [hloop]
    simp [endl, String.append_assoc]

/-! ## Opcode annotation -/

set_option maxRecDepth 100000 in
/-- Claim C6: a call of a `dx.op.` function whose argument 0 is the 64-bit constant
`2^32 + 5` (a value above every opcode number) is not reported as an invalid opcode: the
value is cut to 32 bits before the range test, so the comment names opcode 5 and carries
its signature. -/
theorem PrintInfoComment_truncates_opcode (GetOpCodeName : Nat → String) :
    PrintInfoComment ⟨149, GetOpCodeName⟩
        (.callInst (some "dx.op.storeOutput.f32") [.constantInt 4294967301, .other])
      = .ok ("  ; " ++ GetOpCodeName 5 ++ "(outputtSigId,rowIndex,colIndex,value)") := by
  rfl

/-- For a constant that fits in 32 bits and is not below the number of opcodes, the comment
is the invalid-opcode comment with the value of the constant. -/
theorem PrintInfoComment_invalid_opcode_32bit (op : OpRegistry) (name : String) (val : Nat)
    (rest : List Value) (hp : findAtZero name "dx.op." = true) (hval : val < 2 ^ 32)
    (hge : op.NumOpCodes ≤ val) :
    PrintInfoComment op (.callInst (some name) (.constantInt val :: rest))
      = .ok ("  ; invalid DXIL opcode #" ++ dec val) := by
  have hv : u32 (ZExtValue val) = val := by
    unfold u32 ZExtValue
    omega
  have hn : u32 op.NumOpCodes ≤ val := Nat.le_trans (Nat.mod_le _ _) hge
  simp [PrintInfoComment, hp, hv, hn]

/-- The test `Name().find(p) == 0`: the name is `p` followed by a rest. -/
theorem findAtZero_iff (name p : String) :
    findAtZero name p = true ↔ ∃ rest : String, name = p ++ rest := by
  unfold findAtZero
  rw [List.isPrefixOf_iff_prefix]
  constructor
  · rintro ⟨t, ht⟩
    refine ⟨String.mk t, ?_⟩
    apply String.ext
    rw [String.data_append]
    exact ht.symm
  · rintro ⟨rest, hrest⟩
    refine ⟨rest.toList, ?_⟩
    rw [hrest]
    exact (String.data_append p rest).symm

set_option maxRecDepth 100000 in
/-- Claim C7: `PrintInfoComment` writes nothing for a value that is not a call, for a call
without arguments, for a call of a function whose name does not start with `dx.op.` and
for a call of a function whose argument 0 is not a constant integer; for every other call
of a function, one whose name is `dx.op.` followed by a rest and whose argument 0 is a
constant integer, it writes exactly one comment: the invalid-opcode comment when the
constant, taken as a 32-bit unsigned integer, is not below the number of opcodes, else the
opcode name followed by the signature of that opcode.  For a call with an argument that
has no called function (`CalledFunction()` is a null pointer) it does not return: it
reads the name through the null pointer. -/
theorem PrintInfoComment_best_effort (op : OpRegistry)
    (hN : op.NumOpCodes ≤ OpCodeSignatures.length) :
    (∀ val, PrintInfoComment op (.constantInt val) = .ok "") ∧
    PrintInfoComment op .other = .ok "" ∧
    (∀ callee, PrintInfoComment op (.callInst callee []) = .ok "") ∧
    (∀ name args, (¬ ∃ rest : String, name = "dx.op." ++ rest) →
      PrintInfoComment op (.callInst (some name) args) = .ok "") ∧
    (∀ name a rest, (∀ val, a ≠ .constantInt val) →
      PrintInfoComment op (.callInst (some name) (a :: rest)) = .ok "") ∧
    (∀ tail val rest,
      (op.NumOpCodes % 2 ^ 32 ≤ val % 2 ^ 32 →
        PrintInfoComment op (.callInst (some ("dx.op." ++ tail)) (.constantInt val :: rest))
          = .ok ("  ; invalid DXIL opcode #" ++ dec (val % 2 ^ 32))) ∧
      (val % 2 ^ 32 < op.NumOpCodes % 2 ^ 32 →
        ∃ signature, OpCodeSignatures[val % 2 ^ 32]? = some signature ∧
          PrintInfoComment op (.callInst (some ("dx.op." ++ tail)) (.constantInt val :: rest))
            = .ok ("  ; " ++ op.GetOpCodeName (val % 2 ^ 32) ++ signature))) ∧
    (∀ a rest, PrintInfoComment op (.callInst none (a :: rest)) = .error .nullDeref) := by
  have hlen : OpCodeSignatures.length = 149 := by decide
  have hmod : ∀ val : Nat, u32 (ZExtValue val) = val % 2 ^ 32 := by
    intro val
    unfold u32 ZExtValue
    exact Nat.mod_mod_of_dvd val (by norm_num)
  refine ⟨fun _ => rfl, rfl, fun _ => rfl, ?_, ?_, ?_, fun _ _ => rfl⟩
  · intro name args hp
    have hp' : findAtZero name "dx.op." = false := by
      cases h : findAtZero name "dx.op." with
      | false => rfl
      | true => exact absurd ((findAtZero_iff _ _).mp h) hp
    cases args with
    | nil => rfl
    | cons a rest => simp [PrintInfoComment, hp']
  · intro name a rest ha
    by_cases hp : findAtZero name "dx.op." = true
    · cases a with
      | constantInt val => exact absurd rfl (ha val)
      | callInst c as => simp [PrintInfoComment, hp]
      | other => simp [PrintInfoComment, hp]
    · simp [PrintInfoComment, hp]
  · intro tail val rest
    have hp : findAtZero ("dx.op." ++ tail) "dx.op." = true :=
      (findAtZero_iff _ _).mpr ⟨tail, rfl⟩
    have hu : u32 op.NumOpCodes = op.NumOpCodes % 2 ^ 32 := rfl
    constructor
    · intro hge
      have hge' : u32 op.NumOpCodes ≤ val % 4294967296 := by
        rw [hu]
        simpa using hge
      simp [PrintInfoComment, hp, hmod, hge']
    · intro hlt0
      have hlt : val % 2 ^ 32 < OpCodeSignatures.length := by
        have h2 : op.NumOpCodes % 2 ^ 32 ≤ op.NumOpCodes := Nat.mod_le _ _
        omega
      refine ⟨OpCodeSignatures[val % 2 ^ 32], List.getElem?_eq_getElem hlt, ?_⟩
      have hge' : ¬ u32 op.NumOpCodes ≤ val % 4294967296 := by
        rw [hu]
        simpa using hlt0
      have hlt' : val % 4294967296 < OpCodeSignatures.length := by simpa using hlt
      simp [PrintInfoComment, hp, hmod, hge', List.getElem?_eq_getElem hlt']

set_option maxRecDepth 100000 in
/-- Claim C7, at a concrete registry of 149 opcodes: a call of `dx.op.loadInput.f32` with
opcode 4 gets the comment of opcode 4, and one whose argument 0 is not a constant gets
none; a call of a function whose name holds `dx.op.` at another place than its start, or
only a part of it, gets none; a call with an argument and without a called function reads
through the null pointer. -/
theorem PrintInfoComment_best_effort_witness :
    (PrintInfoComment ⟨149, fun n => "Op" ++ dec n⟩
        (.callInst (some "dx.op.loadInput.f32") [.other]) = .ok "") ∧
    (PrintInfoComment ⟨149, fun n => "Op" ++ dec n⟩
        (.callInst (some "dx.op.loadInput.f32") [.constantInt 4])
      = .ok "  ; Op4(inputSigId,rowIndex,colIndex,gsVertexAxis)") ∧
    (PrintInfoComment ⟨149, fun n => "Op" ++ dec n⟩
        (.callInst (some "dx.op.loadInput.f32") [.constantInt 149])
      = .ok "  ; invalid DXIL opcode #149") ∧
    (PrintInfoComment ⟨149, fun n => "Op" ++ dec n⟩
        (.callInst (some "my.dx.op.loadInput.f32") [.constantInt 4]) = .ok "") ∧
    (PrintInfoComment ⟨149, fun n => "Op" ++ dec n⟩
        (.callInst (some "dx.op") [.constantInt 4]) = .ok "") ∧
    (PrintInfoComment ⟨149, fun n => "Op" ++ dec n⟩
        (.callInst none [.other]) = .error .nullDeref) :=
  ⟨(PrintInfoComment_best_effort ⟨149, fun n => "Op" ++ dec n⟩ (by decide)).2.2.2.2.1
      "dx.op.loadInput.f32" .other [] (fun _ h => Value.noConfusion h),
   by decide, by decide, by decide, by decide,
   (PrintInfoComment_best_effort ⟨149, fun n => "Op" ++ dec n⟩ (by decide)).2.2.2.2.2.2
      .other []⟩

end Dilithium
